import Mathlib

/-!
GaitSym2019: the DataTarget matching subsystem.

A shallow embedding of `src/distribution/src/DataTarget.h` and
`src/distribution/src/DataTarget.cpp`.

Conventions of the embedding:

* a C++ `double` is an exact rational (`ℚ`): the properties below are about the
  control flow and the algebra of the match value, not about rounding;
* a `size_t` is a `Nat`; the only `size_t` constant the code uses is `SIZE_MAX`;
* `std::vector<double>` is a `List ℚ`, an iterator into it is an offset from
  `begin()`, and `end()` is the length of the list;
* the object (`*this`) is passed in and returned explicitly;
* the two pure virtual overloads of `calculateError` are supplied by the
  concrete subclass and read the live simulation; they are parameters of the
  embedding (`ErrorSource`), and every call made to them is recorded;
* the owning `Simulation` is explicit state, and the calls made to it are
  recorded in the same list of calls.
-/

namespace GaitSym

/-! ## Data model (DataTarget.h) -/

/-- The largest `size_t` on the 64-bit targets the application is built for. -/
def SIZE_MAX : Nat := 2 ^ 64 - 1

/-- The enumeration declared by `SMART_ENUM(MatchType, ..., Linear, Square, Raw)`. -/
inductive MatchType where
  | Linear
  | Square
  | Raw
  deriving DecidableEq, Repr

/-- The enumeration declared by
`SMART_ENUM(InterpolationType, ..., Punctuated, Continuous)`. -/
inductive InterpolationType where
  | Punctuated
  | Continuous
  deriving DecidableEq, Repr

/-- The private data members of `class DataTarget`, in declaration order.
`m_lastTime` is read by `DataTarget::calculateMatchValue` but its declaration
is not among the members listed in `DataTarget.h`; it is carried as one more
member whose initial value is left to the caller. -/
structure DataTarget where
  m_intercept : ℚ
  m_slope : ℚ
  m_matchType : MatchType
  m_interpolationType : InterpolationType
  m_abortBelow : ℚ
  m_abortAbove : ℚ
  m_targetTimeList : List ℚ
  m_lastIndex : Nat
  m_lastValue : ℚ
  m_lastTime : ℚ
  deriving DecidableEq, Repr

/-- The part of `class Simulation` that `DataTarget` talks to: the abort flag. -/
structure Simulation where
  m_DataTargetAbort : Bool
  deriving DecidableEq, Repr

/-- Modelled from the spec: `Simulation::SetDataTargetAbort(bool)` is defined in
`Simulation.h`/`Simulation.cpp`, which are not among the source files; the spec
describes it as the setter of "a simple shared boolean" abort flag owned by the
Simulation. -/
def Simulation.SetDataTargetAbort (sim : Simulation) (dataTargetAbort : Bool) : Simulation :=
  { sim with m_DataTargetAbort := dataTargetAbort }

/-- The calls `DataTarget::calculateMatchValue` makes to code outside itself. -/
inductive Call where
  | calculateErrorTime (time : ℚ)
  | calculateErrorIndex (index : Nat)
  | SetDataTargetAbort (dataTargetAbort : Bool)
  deriving DecidableEq, Repr

/-- Whether a recorded call is a call of one of the `calculateError` overloads. -/
def Call.isCalculateError : Call → Bool
  | Call.calculateErrorTime _ => true
  | Call.calculateErrorIndex _ => true
  | Call.SetDataTargetAbort _ => false

/-- What the two pure virtual overloads `calculateError(double time)` and
`calculateError(size_t index)` of the concrete subclass return when called now. -/
structure ErrorSource where
  calculateErrorTime : ℚ → ℚ
  calculateErrorIndex : Nat → ℚ

/-- Everything outside the object that an invocation touches: the owning
simulation, and the external calls the invocation has made so far (oldest
first). -/
structure World where
  simulation : Simulation
  calls : List Call
  deriving DecidableEq, Repr

/-- Records a call of `calculateError(double time)`. -/
def World.callErrorTime (w : World) (time : ℚ) : World :=
  { w with calls := w.calls ++ [Call.calculateErrorTime time] }

/-- Records a call of `calculateError(size_t index)`. -/
def World.callErrorIndex (w : World) (index : Nat) : World :=
  { w with calls := w.calls ++ [Call.calculateErrorIndex index] }

/-- Performs and records `simulation()->SetDataTargetAbort(flag)`. -/
def World.SetDataTargetAbort (w : World) (flag : Bool) : World :=
  { simulation := w.simulation.SetDataTargetAbort flag
    calls := w.calls ++ [Call.SetDataTargetAbort flag] }

/-- The `std::tuple<double, bool>` returned by `calculateMatchValue`, together
with the object as the call leaves it, the simulation as the call leaves it and
the external calls the invocation made (`world`). -/
structure MatchResult where
  value : ℚ
  valid : Bool
  self : DataTarget
  world : World
  deriving DecidableEq, Repr

/-! ## Operations (DataTarget.cpp) -/

/-- The method `DataTarget::positiveFunction`: a `switch` on `m_matchType` with a case for
`Linear` and one for `Square`; any other value falls out of the `switch` to the
final `return 0`. -/
def DataTarget.positiveFunction (self : DataTarget) (v : ℚ) : ℚ :=
  match self.m_matchType with
  | MatchType.Linear => if v > 0 then v else -v
  | MatchType.Square => v * v
  | MatchType.Raw => 0

/-- The loop of `std::lower_bound` (the bisection of the standard library):
`first` is the start of the remaining range and `len` its length. Each
iteration at least halves `len`, so `fuel ≥ len` iterations are enough. -/
def lower_bound_loop (v : List ℚ) (val : ℚ) : Nat → Nat → Nat → Nat
  | 0, first, _ => first
  | fuel + 1, first, len =>
    if len > 0 then
      let half := len / 2
      let middle := first + half
      if v.getD middle 0 < val then
        lower_bound_loop v val fuel (middle + 1) (len - half - 1)
      else
        lower_bound_loop v val fuel first half
    else first

/-- The call `std::lower_bound(v.begin(), v.end(), val)`, as an offset from
`v.begin()`; the offset `v.length` is `v.end()`. -/
def lower_bound (v : List ℚ) (val : ℚ) : Nat :=
  lower_bound_loop v val v.length 0 v.length

/-- The method `DataTarget::calculateMatchValue(double time)`, invoked while the
owning simulation is in state `sim` and the subclass reports errors `err`. -/
def DataTarget.calculateMatchValue (self : DataTarget) (err : ErrorSource) (sim : Simulation)
    (time : ℚ) : MatchResult :=
  let w : World := ⟨sim, []⟩
  if time = self.m_lastTime then ⟨self.m_lastValue, true, self, w⟩
  else
    match self.m_interpolationType with
    | InterpolationType.Punctuated =>
      let lowerBound := lower_bound self.m_targetTimeList time
      if lowerBound = self.m_targetTimeList.length then ⟨self.m_lastValue, false, self, w⟩
      else
        let index := lowerBound
        if index = self.m_lastIndex then ⟨self.m_lastValue, false, self, w⟩
        else
          let w1 := w.callErrorIndex index
          let self1 := { self with
            m_lastValue := self.m_intercept
              + self.m_slope * self.positiveFunction (err.calculateErrorIndex index) }
          let w2 := if self1.m_lastValue < self1.m_abortBelow
            then w1.SetDataTargetAbort true else w1
          let w3 := if self1.m_lastValue > self1.m_abortAbove
            then w2.SetDataTargetAbort true else w2
          ⟨self1.m_lastValue, true, self1, w3⟩
    | InterpolationType.Continuous =>
      let w1 := w.callErrorTime time
      let self1 := { self with
        m_lastValue := self.m_intercept
          + self.m_slope * self.positiveFunction (err.calculateErrorTime time) }
      let w2 := if self1.m_lastValue < self1.m_abortBelow
        then w1.SetDataTargetAbort true else w1
      let w3 := if self1.m_lastValue > self1.m_abortAbove
        then w2.SetDataTargetAbort true else w2
      ⟨self1.m_lastValue, true, self1, w3⟩

/-- The object and the simulation after a sequence of `calculateMatchValue`
invocations, each made at its own query time and with the errors the subclass
reports at that moment. -/
def DataTarget.calculateMatchValues (self : DataTarget) (sim : Simulation) :
    List (ErrorSource × ℚ) → DataTarget × Simulation
  | [] => (self, sim)
  | (err, time) :: rest =>
    let r := self.calculateMatchValue err sim time
    r.self.calculateMatchValues r.world.simulation rest

/-- A freshly constructed object uses the in-class initialisers of
`DataTarget.h` for the cache (`m_lastIndex = SIZE_MAX`, `m_lastValue = 0`); the
configuration members are the ones a successful load leaves. -/
def DataTarget.loaded (intercept slope : ℚ) (matchType : MatchType)
    (interpolationType : InterpolationType) (abortBelow abortAbove : ℚ)
    (targetTimeList : List ℚ) (lastTime : ℚ) : DataTarget :=
  { m_intercept := intercept
    m_slope := slope
    m_matchType := matchType
    m_interpolationType := interpolationType
    m_abortBelow := abortBelow
    m_abortAbove := abortAbove
    m_targetTimeList := targetTimeList
    m_lastIndex := SIZE_MAX
    m_lastValue := 0
    m_lastTime := lastTime }

/-- The example scenario of the specification: a freshly loaded target with
`targetTimeList = [0.0, 1.0, 2.0]`, `matchType = Linear`, `intercept = 0` and
`slope = 1`; the interpolation type, the abort bounds and the initial
`m_lastTime` are left open. -/
def scenarioTarget (interpolationType : InterpolationType) (abortBelow abortAbove lastTime : ℚ) :
    DataTarget :=
  DataTarget.loaded 0 1 MatchType.Linear interpolationType abortBelow abortAbove [0, 1, 2]
    lastTime

/-- A subclass whose `calculateError` overloads both return `e` at this moment. -/
def constantError (e : ℚ) : ErrorSource :=
  ⟨fun _ => e, fun _ => e⟩

/-! ## Loading and saving a DataTarget (DataTarget.cpp, `createFromAttributes` and
`appendToAttributes`) -/

/-- The constant `DBL_MAX` of `<cfloat>`: the largest finite `double`,
`(2 - 2^-52) * 2^1023`. -/
def DBL_MAX : ℚ := 2 ^ 1024 - 2 ^ 971

/-- The members of the base class `NamedObject` that `DataTarget` and `BallJoint`
use: the name, the last error message (what `lastErrorPtr()` points at) and the
attribute map. -/
structure NamedObject where
  m_name : String
  m_lastError : String
  m_attributeMap : List (String × String)
  deriving DecidableEq, Repr

/-- Modelled from the spec: `NamedObject::findAttribute(name, &buf)` (and its
older spelling `GetAttribute`) is defined in `NamedObject.cpp`, which is not
among the source files; the spec describes the attributes as "a generic
attribute map". This is the value stored under `name`, or `none` where the
lookup returns `nullptr`. -/
def NamedObject.findAttribute (self : NamedObject) (name : String) : Option String :=
  self.m_attributeMap.lookup name

/-- Modelled from the spec: `NamedObject::setAttribute(name, value)` is defined in
`NamedObject.cpp`, which is not among the source files; it stores `value` under
`name` in the attribute map, replacing what was stored there. -/
def NamedObject.setAttribute (self : NamedObject) (name value : String) : NamedObject :=
  { self with
    m_attributeMap := (name, value) :: self.m_attributeMap.filter (fun kv => kv.1 != name) }

/-- Modelled from the spec: `NamedObject::setLastError(message)` is defined in
`NamedObject.cpp`, which is not among the source files; it stores the "stored
error string retrievable by the caller". -/
def NamedObject.setLastError (self : NamedObject) (message : String) : NamedObject :=
  { self with m_lastError := message }

/-- The functions that `DataTarget.cpp` and `BallJoint.cpp` call and whose
definitions are not among the source files. They are parameters of the
embedding.

* `GSUtil_Double` is `GSUtil::Double(std::string)`, `GSUtil_GetAngle` is
  `GSUtil::GetAngle(std::string)`;
* `GSUtil_ToString` is `GSUtil::ToString(double, std::string *)` and
  `GSUtil_ToStringArray` is `GSUtil::ToString(const double *, size_t, std::string *)`;
* `pystring_split` is `pystring::split(buf, tokens)` with the default separator;
* `NamedObject_createFromAttributes` is the base class load: the object it
  leaves and whether it returned the error pointer;
* `NamedObject_appendToAttributes` is the base class save;
* `findAttribute_missing` is the content of `m_lastError` after a lookup that
  returns `nullptr` for the named attribute (a failed lookup may store a
  message; it changes nothing else). -/
structure Library where
  GSUtil_Double : String → ℚ
  GSUtil_GetAngle : String → ℚ
  GSUtil_ToString : ℚ → String
  GSUtil_ToStringArray : List ℚ → String
  pystring_split : String → List String
  NamedObject_createFromAttributes : NamedObject → NamedObject × Bool
  NamedObject_appendToAttributes : NamedObject → NamedObject
  findAttribute_missing : NamedObject → String → String

/-- The number of enumerators of `MatchType`, `matchTypeCount`. -/
def matchTypeCount : Nat := 3

/-- Modelled from the spec: the macro `SMART_ENUM` is defined in `SmartEnum.h`,
which is not among the source files. For
`SMART_ENUM(MatchType, matchTypeStrings, matchTypeCount, Linear, Square, Raw)` the
function `matchTypeStrings(i)` is the name of the `i`-th enumerator (the spec:
"`MatchType` ∈ {Linear,Square,Raw}", "the enum names"). -/
def matchTypeStrings : Nat → String
  | 0 => "Linear"
  | 1 => "Square"
  | 2 => "Raw"
  | _ => ""

/-- The conversion `static_cast<MatchType>(matchTypeIndex)`; the code applies it
to indices below `matchTypeCount` only. -/
def MatchType.ofIndex : Nat → MatchType
  | 0 => MatchType.Linear
  | 1 => MatchType.Square
  | _ => MatchType.Raw

/-- The integer value of an enumerator of `MatchType`, as in
`matchTypeStrings(m_matchType)`. -/
def MatchType.toIndex : MatchType → Nat
  | MatchType.Linear => 0
  | MatchType.Square => 1
  | MatchType.Raw => 2

/-- The number of enumerators of `InterpolationType`, `interpolationTypeCount`. -/
def interpolationTypeCount : Nat := 2

/-- Modelled from the spec: the macro `SMART_ENUM` is defined in `SmartEnum.h`,
which is not among the source files. For `SMART_ENUM(InterpolationType,
interpolationTypeStrings, interpolationTypeCount, Punctuated, Continuous)` the
function `interpolationTypeStrings(i)` is the name of the `i`-th enumerator. -/
def interpolationTypeStrings : Nat → String
  | 0 => "Punctuated"
  | 1 => "Continuous"
  | _ => ""

/-- The conversion `static_cast<InterpolationType>(interpolationTypeIndex)`; the
code applies it to indices below `interpolationTypeCount` only. -/
def InterpolationType.ofIndex : Nat → InterpolationType
  | 0 => InterpolationType.Punctuated
  | _ => InterpolationType.Continuous

/-- The integer value of an enumerator of `InterpolationType`. -/
def InterpolationType.toIndex : InterpolationType → Nat
  | InterpolationType.Punctuated => 0
  | InterpolationType.Continuous => 1

/-- The loop
`for (matchTypeIndex = 0; matchTypeIndex < matchTypeCount; matchTypeIndex++)`
of `createFromAttributes`, started at `matchTypeIndex`: the index it stops at and
the `m_matchType` it leaves. It leaves the loop at the first index whose name
equals `buf` (after the assignment, by `break`) or at `matchTypeCount`. -/
def matchTypeLoop (buf : String) : Nat → Nat → MatchType → Nat × MatchType
  | 0, matchTypeIndex, m_matchType => (matchTypeIndex, m_matchType)
  | fuel + 1, matchTypeIndex, m_matchType =>
    if matchTypeIndex < matchTypeCount then
      if buf = matchTypeStrings matchTypeIndex then
        (matchTypeIndex, MatchType.ofIndex matchTypeIndex)
      else matchTypeLoop buf fuel (matchTypeIndex + 1) m_matchType
    else (matchTypeIndex, m_matchType)

/-- The loop `for (interpolationTypeIndex = 0; interpolationTypeIndex <
interpolationTypeCount; interpolationTypeIndex++)` of `createFromAttributes`. -/
def interpolationTypeLoop (buf : String) :
    Nat → Nat → InterpolationType → Nat × InterpolationType
  | 0, interpolationTypeIndex, m_interpolationType =>
    (interpolationTypeIndex, m_interpolationType)
  | fuel + 1, interpolationTypeIndex, m_interpolationType =>
    if interpolationTypeIndex < interpolationTypeCount then
      if buf = interpolationTypeStrings interpolationTypeIndex then
        (interpolationTypeIndex, InterpolationType.ofIndex interpolationTypeIndex)
      else interpolationTypeLoop buf fuel (interpolationTypeIndex + 1) m_interpolationType
    else (interpolationTypeIndex, m_interpolationType)

/-- The call `std::is_sorted(v.begin(), v.end())`: it walks the adjacent pairs
and answers `false` at the first pair whose second entry is less than its
first. -/
def is_sorted : List ℚ → Bool
  | [] => true
  | [_] => true
  | a :: b :: rest => if b < a then false else is_sorted (b :: rest)

/-- What `createFromAttributes` leaves: the base-class part and the `DataTarget`
members of the object, and the string the returned pointer points at (`none` for
`nullptr`). -/
structure LoadResult where
  base : NamedObject
  self : DataTarget
  error : Option String
  deriving DecidableEq, Repr

/-- The object after a `findAttribute` call that returned `nullptr`. -/
def NamedObject.findAttributeFailed (self : NamedObject) (lib : Library) (name : String) :
    NamedObject :=
  self.setLastError (lib.findAttribute_missing self name)

/-- The statement `return lastErrorPtr();`. -/
def LoadResult.lastErrorPtr (base : NamedObject) (self : DataTarget) : LoadResult :=
  ⟨base, self, some base.m_lastError⟩

/-- The method `DataTarget::createFromAttributes()`, on an object whose base-class part
is `base` and whose own members are `self`. -/
def DataTarget.createFromAttributes (lib : Library) (base : NamedObject) (self : DataTarget) :
    LoadResult :=
  let r := lib.NamedObject_createFromAttributes base
  let base := r.1
  if r.2 then LoadResult.lastErrorPtr base self
  else
    match base.findAttribute "Intercept" with
    | none => LoadResult.lastErrorPtr (base.findAttributeFailed lib "Intercept") self
    | some buf =>
    let self := { self with m_intercept := lib.GSUtil_Double buf }
    match base.findAttribute "Slope" with
    | none => LoadResult.lastErrorPtr (base.findAttributeFailed lib "Slope") self
    | some buf =>
    let self := { self with m_slope := lib.GSUtil_Double buf }
    let above := base.findAttribute "AbortAbove"
    let self := match above with
      | some buf => { self with m_abortAbove := lib.GSUtil_Double buf }
      | none => self
    let base := match above with
      | some _ => base
      | none => base.findAttributeFailed lib "AbortAbove"
    let below := base.findAttribute "AbortBelow"
    let self := match below with
      | some buf => { self with m_abortBelow := lib.GSUtil_Double buf }
      | none => self
    let base := match below with
      | some _ => base
      | none => base.findAttributeFailed lib "AbortBelow"
    match base.findAttribute "TargetTimes" with
    | none => LoadResult.lastErrorPtr (base.findAttributeFailed lib "TargetTimes") self
    | some buf =>
    let targetTimesTokens := lib.pystring_split buf
    if targetTimesTokens.length = 0 then
      LoadResult.lastErrorPtr
        (base.setLastError
          ("DataTarget ID=\"" ++ base.m_name ++ "\" No times found in TargetTimes")) self
    else
    let self := { self with m_targetTimeList := targetTimesTokens.map lib.GSUtil_Double }
    if is_sorted self.m_targetTimeList = false then
      LoadResult.lastErrorPtr
        (base.setLastError
          ("DataTarget ID=\"" ++ base.m_name ++ "\" TargetTimes are not in ascending order"))
        self
    else
    match base.findAttribute "MatchType" with
    | none => LoadResult.lastErrorPtr (base.findAttributeFailed lib "MatchType") self
    | some buf =>
    let matchLoop := matchTypeLoop buf matchTypeCount 0 self.m_matchType
    let matchTypeIndex := matchLoop.1
    let self := { self with m_matchType := matchLoop.2 }
    if matchTypeIndex ≥ matchTypeCount then
      LoadResult.lastErrorPtr
        (base.setLastError
          ("DataTarget ID=\"" ++ base.m_name ++ "\" Unrecognised MatchType " ++ buf)) self
    else
    match base.findAttribute "InterpolationType" with
    | none => LoadResult.lastErrorPtr (base.findAttributeFailed lib "InterpolationType") self
    | some buf =>
    let interpolationLoop :=
      interpolationTypeLoop buf interpolationTypeCount 0 self.m_interpolationType
    let interpolationTypeIndex := interpolationLoop.1
    let self := { self with m_interpolationType := interpolationLoop.2 }
    if interpolationTypeIndex ≥ interpolationTypeCount then
      LoadResult.lastErrorPtr
        (base.setLastError
          ("DataTarget ID=\"" ++ base.m_name ++ "\" Unrecognised InterpolationType " ++ buf))
        self
    else ⟨base, self, none⟩

/-- The method `DataTarget::appendToAttributes()`: the base-class part of the object
after the attributes have been written. -/
def DataTarget.appendToAttributes (lib : Library) (base : NamedObject) (self : DataTarget) :
    NamedObject :=
  let base := lib.NamedObject_appendToAttributes base
  let base := base.setAttribute "Intercept" (lib.GSUtil_ToString self.m_intercept)
  let base := base.setAttribute "Slope" (lib.GSUtil_ToString self.m_slope)
  let base := base.setAttribute "AbortAbove" (lib.GSUtil_ToString self.m_abortAbove)
  let base := base.setAttribute "AbortBelow" (lib.GSUtil_ToString self.m_abortBelow)
  let base := base.setAttribute "TargetTimes" (lib.GSUtil_ToStringArray self.m_targetTimeList)
  let base := base.setAttribute "MatchType" (matchTypeStrings self.m_matchType.toIndex)
  base.setAttribute "InterpolationType"
    (interpolationTypeStrings self.m_interpolationType.toIndex)

/-- A default-constructed `DataTarget`: every member has its in-class
initialiser of `DataTarget.h`; `m_lastTime`, which has none there, is left
open. -/
def DataTarget.fresh (lastTime : ℚ) : DataTarget :=
  { m_intercept := 0
    m_slope := 0
    m_matchType := MatchType.Linear
    m_interpolationType := InterpolationType.Punctuated
    m_abortBelow := -DBL_MAX
    m_abortAbove := DBL_MAX
    m_targetTimeList := []
    m_lastIndex := SIZE_MAX
    m_lastValue := 0
    m_lastTime := lastTime }

/-- A small stand-in for the library functions, for evaluating the code on
examples: the numbers 0, 1/2, 1 and 2 are written `"0.0"`, `"0.5"`, `"1.0"` and
`"2.0"` (anything else reads as 0), and the two lists of the examples are written
`"0.0 1.0 2.0"` and `"1.0 0.5 2.0"` (anything else holds no token). The base
class load succeeds and changes nothing. -/
def exampleLibrary : Library :=
  { GSUtil_Double := fun s =>
      if s = "0.5" then 1 / 2 else if s = "1.0" then 1 else if s = "2.0" then 2 else 0
    GSUtil_GetAngle := fun s =>
      if s = "0.5" then 1 / 2 else if s = "1.0" then 1 else if s = "2.0" then 2 else 0
    GSUtil_ToString := fun x =>
      if x = 1 / 2 then "0.5" else if x = 1 then "1.0" else if x = 2 then "2.0" else "0.0"
    GSUtil_ToStringArray := fun l =>
      if l = [0, 1, 2] then "0.0 1.0 2.0" else if l = [1, 1 / 2, 2] then "1.0 0.5 2.0" else ""
    pystring_split := fun s =>
      if s = "0.0 1.0 2.0" then ["0.0", "1.0", "2.0"]
      else if s = "1.0 0.5 2.0" then ["1.0", "0.5", "2.0"] else []
    NamedObject_createFromAttributes := fun base => (base, false)
    NamedObject_appendToAttributes := fun base => base
    findAttribute_missing := fun _ name => name ++ " not found" }

/-- The attributes of a data target named `"T"` with intercept 0, slope 1, the
given `TargetTimes`, `MatchType` and `InterpolationType`, and no abort bounds. -/
def exampleAttributes (targetTimes matchType interpolationType : String) : NamedObject :=
  { m_name := "T"
    m_lastError := ""
    m_attributeMap := [("Intercept", "0.0"), ("Slope", "1.0"), ("TargetTimes", targetTimes),
      ("MatchType", matchType), ("InterpolationType", interpolationType)] }

/-! ## BallJoint (BallJoint.cpp)

The physics engine (ODE) is an external collaborator: what the joint does to it
is the list of engine calls it issues, in order. -/

/-- The constant `dAMotorUser` of the ODE headers (`ode/common.h`). -/
def dAMotorUser : Int := 0

/-- The constant `dAMotorEuler` of the ODE headers (`ode/common.h`). -/
def dAMotorEuler : Int := 1

/-- The ODE joint parameter names that `BallJoint.cpp` uses. -/
inductive dParam where
  | dParamLoStop1
  | dParamHiStop1
  | dParamLoStop2
  | dParamHiStop2
  | dParamLoStop3
  | dParamHiStop3
  | dParamBounce1
  | dParamBounce2
  | dParamBounce3
  | dParamCFM
  | dParamERP
  deriving DecidableEq, Repr

/-- The ODE functions that `Attach`, `SetBallAnchor`, `SetAxes`, `SetStops` and
`CreateFromAttributes` call, with their arguments. A joint or a body is named by
its handle (`dJointID`, `dBodyID`); a null body is `none`. -/
inductive EngineCall where
  | dJointAttach (joint : Nat) (body1 body2 : Option Nat)
  | dJointSetBallAnchor (joint : Nat) (x y z : ℚ)
  | dJointSetBallParam (joint : Nat) (parameter : dParam) (value : ℚ)
  | dJointSetAMotorMode (joint : Nat) (mode : Int)
  | dJointSetAMotorNumAxes (joint : Nat) (num : Int)
  | dJointSetAMotorAxis (joint : Nat) (anum rel : Int) (x y z : ℚ)
  | dJointSetAMotorParam (joint : Nat) (parameter : dParam) (value : ℚ)
  deriving DecidableEq, Repr

/-- Modelled from the spec: `enum BallJoint::Mode` is declared in `BallJoint.h`,
which is not among the source files; `BallJoint.cpp` names its enumerators
`BallJoint::NoStops`, `BallJoint::AMotorUser` and `BallJoint::AMotorEuler`, and
the spec gives "`mode: enum{NoStops, AMotorUser, AMotorEuler}`". -/
inductive Mode where
  | NoStops
  | AMotorUser
  | AMotorEuler
  deriving DecidableEq, Repr

/-- The integer values that the missing declaration gives the enumerators agree
with the ODE constants the code compares `m_Mode` with: `AMotorUser` is
`dAMotorUser`, `AMotorEuler` is `dAMotorEuler`, and `NoStops` is neither. -/
def ModeValuesAgree (modeValue : Mode → Int) : Prop :=
  modeValue Mode.AMotorUser = dAMotorUser ∧ modeValue Mode.AMotorEuler = dAMotorEuler ∧
    modeValue Mode.NoStops ≠ dAMotorUser ∧ modeValue Mode.NoStops ≠ dAMotorEuler

/-- The part of `class Body` that `BallJoint::Attach` uses: the engine handle
returned by `GetBodyID()`. -/
structure Body where
  m_BodyID : Nat
  deriving DecidableEq, Repr

/-- A `pgd::Vector`. -/
structure pgdVector where
  x : ℚ
  y : ℚ
  z : ℚ
  deriving DecidableEq, Repr

/-- The part of `class Marker` that `BallJoint::CreateFromAttributes` uses: what
`GetWorldPosition()` and `GetWorldBasis(&x, &y, &z)` return. -/
structure Marker where
  worldPosition : pgdVector
  worldBasisX : pgdVector
  worldBasisY : pgdVector
  worldBasisZ : pgdVector
  deriving DecidableEq, Repr

/-- The members of `BallJoint` and of its base classes `Joint` and `NamedObject`
that `BallJoint.cpp` reads and writes: the two engine joints, the mode, the two
bodies, the first marker, and the `CFM` and `ERP` values. -/
structure BallJoint where
  base : NamedObject
  m_JointID : Nat
  m_MotorJointID : Nat
  m_Mode : Mode
  m_Body1 : Option Body
  m_Body2 : Option Body
  m_body1Marker : Marker
  m_CFM : ℚ
  m_ERP : ℚ
  deriving DecidableEq, Repr

/-- How a call can stop before it returns. -/
inductive Fault where
  | assertionFailed
  | nullDereference
  deriving DecidableEq, Repr

/-- The expression `body->GetBodyID()`: a fault on a null pointer. -/
def GetBodyID (body : Option Body) : Except Fault Nat :=
  match body with
  | none => Except.error Fault.nullDereference
  | some b => Except.ok b.m_BodyID

/-- Modelled from the spec: `Joint::setBody1` is defined in `Joint.cpp`, which is
not among the source files; it records the first body of the joint. -/
def BallJoint.setBody1 (self : BallJoint) (body1 : Option Body) : BallJoint :=
  { self with m_Body1 := body1 }

/-- Modelled from the spec: `Joint::setBody2` is defined in `Joint.cpp`, which is
not among the source files; it records the second body of the joint. -/
def BallJoint.setBody2 (self : BallJoint) (body2 : Option Body) : BallJoint :=
  { self with m_Body2 := body2 }

/-- The method `BallJoint::Attach(Body *body1, Body *body2)`: the joint it leaves and
the engine calls it issues, or the fault it stops with. With `NDEBUG` the
`assert` is compiled out. -/
def BallJoint.Attach (self : BallJoint) (NDEBUG : Bool) (body1 body2 : Option Body) :
    Except Fault (BallJoint × List EngineCall) :=
  if ¬ NDEBUG ∧ ¬ (body1 ≠ none ∨ body2 ≠ none) then Except.error Fault.assertionFailed
  else
    let self := self.setBody1 body1
    let self := self.setBody2 body2
    if self.m_Body1 = none then do
      let id2 ← GetBodyID self.m_Body2
      let call1 := EngineCall.dJointAttach self.m_JointID none (some id2)
      let id2 ← GetBodyID self.m_Body2
      let call2 := EngineCall.dJointAttach self.m_MotorJointID none (some id2)
      pure (self, [call1, call2])
    else if self.m_Body2 = none then do
      let id1 ← GetBodyID self.m_Body1
      let call1 := EngineCall.dJointAttach self.m_JointID (some id1) none
      let id1 ← GetBodyID self.m_Body1
      let call2 := EngineCall.dJointAttach self.m_MotorJointID (some id1) none
      pure (self, [call1, call2])
    else do
      let id1 ← GetBodyID self.m_Body1
      let id2 ← GetBodyID self.m_Body2
      let call1 := EngineCall.dJointAttach self.m_JointID (some id1) (some id2)
      let id1 ← GetBodyID self.m_Body1
      let id2 ← GetBodyID self.m_Body2
      let call2 := EngineCall.dJointAttach self.m_MotorJointID (some id1) (some id2)
      pure (self, [call1, call2])

/-- The method `BallJoint::SetBallAnchor(double x, double y, double z)`: the engine
call it issues. -/
def BallJoint.SetBallAnchor (self : BallJoint) (x y z : ℚ) : List EngineCall :=
  [EngineCall.dJointSetBallAnchor self.m_JointID x y z]

/-- The method `BallJoint::SetAxes`: the engine calls it issues. It assigns no member.
`modeValue` gives the integer values of the enumerators of `Mode`, which the
code compares with the ODE constants. -/
def BallJoint.SetAxes (self : BallJoint) (modeValue : Mode → Int)
    (x0 y0 z0 x1 y1 z1 x2 y2 z2 : ℚ) (axisMode : Int) : List EngineCall :=
  if modeValue self.m_Mode = dAMotorEuler then
    [EngineCall.dJointSetAMotorMode self.m_MotorJointID dAMotorEuler,
      EngineCall.dJointSetAMotorAxis self.m_MotorJointID 0 1 x0 y0 z0,
      EngineCall.dJointSetAMotorAxis self.m_MotorJointID 2 2 x2 y2 z2]
  else if modeValue self.m_Mode = dAMotorUser then
    [EngineCall.dJointSetAMotorMode self.m_MotorJointID dAMotorUser,
      EngineCall.dJointSetAMotorNumAxes self.m_MotorJointID 3,
      EngineCall.dJointSetAMotorAxis self.m_MotorJointID 0 axisMode x0 y0 z0,
      EngineCall.dJointSetAMotorAxis self.m_MotorJointID 1 axisMode x1 y1 z1,
      EngineCall.dJointSetAMotorAxis self.m_MotorJointID 2 axisMode x2 y2 z2]
  else []

/-- The method `BallJoint::SetStops`: the engine calls it issues. It assigns no
member. -/
def BallJoint.SetStops (self : BallJoint) (modeValue : Mode → Int)
    (a0Low a0High a1Low a1High a2Low a2High : ℚ) : List EngineCall :=
  if modeValue self.m_Mode = dAMotorEuler ∨ modeValue self.m_Mode = dAMotorUser then
    [EngineCall.dJointSetAMotorParam self.m_MotorJointID dParam.dParamLoStop1 a0Low,
      EngineCall.dJointSetAMotorParam self.m_MotorJointID dParam.dParamHiStop1 a0High,
      EngineCall.dJointSetAMotorParam self.m_MotorJointID dParam.dParamLoStop2 a1Low,
      EngineCall.dJointSetAMotorParam self.m_MotorJointID dParam.dParamHiStop2 a1High,
      EngineCall.dJointSetAMotorParam self.m_MotorJointID dParam.dParamLoStop3 a2Low,
      EngineCall.dJointSetAMotorParam self.m_MotorJointID dParam.dParamHiStop3 a2High,
      EngineCall.dJointSetAMotorParam self.m_MotorJointID dParam.dParamLoStop1 a0Low,
      EngineCall.dJointSetAMotorParam self.m_MotorJointID dParam.dParamHiStop1 a0High,
      EngineCall.dJointSetAMotorParam self.m_MotorJointID dParam.dParamLoStop2 a1Low,
      EngineCall.dJointSetAMotorParam self.m_MotorJointID dParam.dParamHiStop2 a1High,
      EngineCall.dJointSetAMotorParam self.m_MotorJointID dParam.dParamLoStop3 a2Low,
      EngineCall.dJointSetAMotorParam self.m_MotorJointID dParam.dParamHiStop3 a2High,
      EngineCall.dJointSetAMotorParam self.m_MotorJointID dParam.dParamBounce1 0,
      EngineCall.dJointSetAMotorParam self.m_MotorJointID dParam.dParamBounce2 0,
      EngineCall.dJointSetAMotorParam self.m_MotorJointID dParam.dParamBounce3 0]
  else []

/-- Modelled from the spec: the engine's store of angular-motor parameters, for
"an engine that stores what is written": the value last written to each
parameter of each joint. -/
def MotorParams : Type := Nat → dParam → ℚ

/-- Modelled from the spec: what one engine call does to the store of
angular-motor parameters of an engine that stores what is written;
`dJointSetAMotorParam` overwrites one entry and no other call touches the
store. -/
def MotorParams.apply (store : MotorParams) : EngineCall → MotorParams
  | EngineCall.dJointSetAMotorParam joint parameter value =>
    fun j p => if j = joint ∧ p = parameter then value else store j p
  | _ => store

/-- The store of angular-motor parameters after a list of engine calls. -/
def MotorParams.applyAll (store : MotorParams) (calls : List EngineCall) : MotorParams :=
  calls.foldl MotorParams.apply store

/-- What `BallJoint::CreateFromAttributes` leaves: the joint, the engine calls the
method issued, and the string the returned pointer points at (`none` for
`nullptr`). -/
structure JointLoadResult where
  self : BallJoint
  calls : List EngineCall
  error : Option String
  deriving DecidableEq, Repr

/-- The statement `return lastErrorPtr();` of `BallJoint::CreateFromAttributes`. -/
def JointLoadResult.lastErrorPtr (self : BallJoint) (calls : List EngineCall) :
    JointLoadResult :=
  ⟨self, calls, some self.base.m_lastError⟩

/-- The statements of `BallJoint::CreateFromAttributes` between the base class load
and the read of the `Mode` attribute (the anchor, the axes, `CFM` and `ERP`):
the engine calls they issue. -/
def BallJoint.CreateFromAttributes_setup (self : BallJoint) (modeValue : Mode → Int) :
    List EngineCall :=
  let position := self.m_body1Marker.worldPosition
  let calls := self.SetBallAnchor position.x position.y position.z
  let x := self.m_body1Marker.worldBasisX
  let y := self.m_body1Marker.worldBasisY
  let z := self.m_body1Marker.worldBasisZ
  let axisMode : Int := 1
  let calls := calls ++ self.SetAxes modeValue x.x x.y x.z y.x y.y y.z z.x z.y z.z axisMode
  let calls := if self.m_CFM ≥ 0
    then calls ++ [EngineCall.dJointSetBallParam self.m_JointID dParam.dParamCFM self.m_CFM]
    else calls
  let calls := if self.m_ERP ≥ 0
    then calls ++ [EngineCall.dJointSetBallParam self.m_JointID dParam.dParamERP self.m_ERP]
    else calls
  calls

/-- The method `BallJoint::CreateFromAttributes()`. `Joint_CreateFromAttributes` is the
base class load `Joint::CreateFromAttributes()`, which is not among the source
files: the joint it leaves and whether it returned the error pointer. The
attribute lookup `GetAttribute` is the lookup of `NamedObject`. -/
def BallJoint.CreateFromAttributes (lib : Library) (modeValue : Mode → Int)
    (Joint_CreateFromAttributes : BallJoint → BallJoint × Bool) (self : BallJoint) :
    JointLoadResult :=
  let r := Joint_CreateFromAttributes self
  let self := r.1
  if r.2 then JointLoadResult.lastErrorPtr self []
  else
    let calls := self.CreateFromAttributes_setup modeValue
    match self.base.findAttribute "Mode" with
    | none =>
      JointLoadResult.lastErrorPtr
        { self with base := self.base.findAttributeFailed lib "Mode" } calls
    | some buf =>
    let named : Option Mode :=
      if buf = "NoStops" then some Mode.NoStops
      else if buf = "AMotorUser" then some Mode.AMotorUser
      else if buf = "AMotorEuler" then some Mode.AMotorEuler
      else none
    match named with
    | none =>
      JointLoadResult.lastErrorPtr
        { self with
          base := (self.base.setLastError
            ("Joint ID=\"" ++ self.base.m_name ++ "\" unrecognised Mode")) } calls
    | some mode =>
    let self := { self with m_Mode := mode }
    match self.m_Mode with
    | Mode.NoStops => ⟨self, calls, none⟩
    | Mode.AMotorUser | Mode.AMotorEuler =>
      match self.base.findAttribute "LowStop0" with
      | none =>
        JointLoadResult.lastErrorPtr
          { self with base := self.base.findAttributeFailed lib "LowStop0" } calls
      | some buf =>
      let a0Low := lib.GSUtil_GetAngle buf
      match self.base.findAttribute "HighStop0" with
      | none =>
        JointLoadResult.lastErrorPtr
          { self with base := self.base.findAttributeFailed lib "HighStop0" } calls
      | some buf =>
      let a0High := lib.GSUtil_GetAngle buf
      match self.base.findAttribute "LowStop1" with
      | none =>
        JointLoadResult.lastErrorPtr
          { self with base := self.base.findAttributeFailed lib "LowStop1" } calls
      | some buf =>
      let a1Low := lib.GSUtil_GetAngle buf
      match self.base.findAttribute "HighStop1" with
      | none =>
        JointLoadResult.lastErrorPtr
          { self with base := self.base.findAttributeFailed lib "HighStop1" } calls
      | some buf =>
      let a1High := lib.GSUtil_GetAngle buf
      match self.base.findAttribute "LowStop2" with
      | none =>
        JointLoadResult.lastErrorPtr
          { self with base := self.base.findAttributeFailed lib "LowStop2" } calls
      | some buf =>
      let a2Low := lib.GSUtil_GetAngle buf
      match self.base.findAttribute "HighStop2" with
      | none =>
        JointLoadResult.lastErrorPtr
          { self with base := self.base.findAttributeFailed lib "HighStop2" } calls
      | some buf =>
      let a2High := lib.GSUtil_GetAngle buf
      ⟨self, calls ++ self.SetStops modeValue a0Low a0High a1Low a1High a2Low a2High, none⟩

/-- The attribute value that names a mode, as `BallJoint::AppendToAttributes`
writes it and `BallJoint::CreateFromAttributes` reads it. -/
def Mode.attributeValue : Mode → String
  | Mode.NoStops => "NoStops"
  | Mode.AMotorUser => "AMotorUser"
  | Mode.AMotorEuler => "AMotorEuler"

/-- Integer values for the enumerators of `Mode` that agree with the ODE
constants, for evaluating the code on examples. -/
def exampleModeValue : Mode → Int
  | Mode.NoStops => -1
  | Mode.AMotorUser => 0
  | Mode.AMotorEuler => 1

/-- A ball joint named `"J"` for evaluating the code on examples: ball joint
handle 10, motor joint handle 11, no bodies yet, a marker at the origin with the
unit axes as its basis, `CFM` and `ERP` unset (negative), and the given mode
and attributes. -/
def exampleJoint (mode : Mode) (attributes : List (String × String)) : BallJoint :=
  { base := { m_name := "J", m_lastError := "", m_attributeMap := attributes }
    m_JointID := 10
    m_MotorJointID := 11
    m_Mode := mode
    m_Body1 := none
    m_Body2 := none
    m_body1Marker := ⟨⟨0, 0, 0⟩, ⟨1, 0, 0⟩, ⟨0, 1, 0⟩, ⟨0, 0, 1⟩⟩
    m_CFM := -1
    m_ERP := -1 }

/-- The attributes of a ball joint with the given `Mode` and all six stops. -/
def exampleStops (mode : String) : List (String × String) :=
  [("Mode", mode), ("LowStop0", "0.5"), ("HighStop0", "1.0"), ("LowStop1", "0.5"),
    ("HighStop1", "1.0"), ("LowStop2", "0.5"), ("HighStop2", "2.0")]

/-- Whether an engine call sets the mode, the number of axes or an axis of an
angular motor (the calls that `SetAxes` issues). -/
def EngineCall.isMotorAxesCall : EngineCall → Bool
  | EngineCall.dJointSetAMotorMode _ _ => true
  | EngineCall.dJointSetAMotorNumAxes _ _ => true
  | EngineCall.dJointSetAMotorAxis _ _ _ _ _ _ => true
  | _ => false

/-! ## BallJoint::Dump (BallJoint.cpp)

The text a stream receives is kept as the list of the texts that the output
statements inserted, oldest first; each of the two output statements of `Dump`
ends its text with a newline, so each element is one line of the file. -/

/-- A `dVector3` of the ODE headers, of which the code reads entries 0, 1, 2. -/
structure dVector3 where
  e0 : ℚ
  e1 : ℚ
  e2 : ℚ
  deriving DecidableEq, Repr

/-- The structure `dJointFeedback` of the ODE headers: the force and torque the
joint applies to body 1 (`f1`, `t1`) and to body 2 (`f2`, `t2`). -/
structure dJointFeedback where
  f1 : dVector3
  t1 : dVector3
  f2 : dVector3
  t2 : dVector3
  deriving DecidableEq, Repr

/-- What the simulation and the engine report during one `Dump` call:
`simulation()->GetTime()`, the anchor that `GetBallAnchor(p)` stores in `p`, the
three `dJointGetAMotorAngle` values, and the two feedback structures the engine
has filled in (`*JointFeedback()` and `m_MotorJointFeedback`). -/
structure DumpReadings where
  time : ℚ
  p : dVector3
  theta0 : ℚ
  theta1 : ℚ
  theta2 : ℚ
  JointFeedback : dJointFeedback
  m_MotorJointFeedback : dJointFeedback
  deriving DecidableEq, Repr

/-- The header text that `BallJoint::Dump` inserts on the first dump. -/
def BallJoint.dumpHeader : String :=
  "Time\tXP\tYP\tZP\ttheta0\ttheta1\ttheta2\tFX1\tFY1\tFZ1\tTX1\tTY1\tTZ1\tFX2\tFY2\tFZ2\tTX2\tTY2\tTZ2\tMotorFX1\tMotorFY1\tMotorFZ1\tMotorTX1\tMotorTY1\tMotorTZ1\tMotorFX2\tMotorFY2\tMotorFZ2\tMotorTX2\tMotorTY2\tMotorTZ2\n"

/-- The data row that `BallJoint::Dump` inserts: the operands of its `<<` chain in
order, joined. `format` is the text the stream writes for a `double` (at
precision 17). -/
def BallJoint.dumpRow (format : ℚ → String) (r : DumpReadings) : String :=
  String.join
    [format r.time, "\t", format r.p.e0, "\t", format r.p.e1, "\t", format r.p.e2, "\t",
      format r.theta0, "\t", format r.theta1, "\t", format r.theta2, "\t",
      format r.JointFeedback.f1.e0, "\t", format r.JointFeedback.f1.e1, "\t",
      format r.JointFeedback.f1.e2, "\t",
      format r.JointFeedback.t1.e0, "\t", format r.JointFeedback.t1.e1, "\t",
      format r.JointFeedback.t1.e2, "\t",
      format r.JointFeedback.f2.e0, "\t", format r.JointFeedback.f2.e1, "\t",
      format r.JointFeedback.f2.e2, "\t",
      format r.JointFeedback.t2.e0, "\t", format r.JointFeedback.t2.e1, "\t",
      format r.JointFeedback.t2.e2, "\t",
      format r.m_MotorJointFeedback.f1.e0, "\t", format r.m_MotorJointFeedback.f1.e1, "\t",
      format r.m_MotorJointFeedback.f1.e2, "\t",
      format r.m_MotorJointFeedback.t1.e0, "\t", format r.m_MotorJointFeedback.t1.e1, "\t",
      format r.m_MotorJointFeedback.t1.e2, "\t",
      format r.m_MotorJointFeedback.f2.e0, "\t", format r.m_MotorJointFeedback.f2.e1, "\t",
      format r.m_MotorJointFeedback.f2.e2, "\t",
      format r.m_MotorJointFeedback.t2.e0, "\t", format r.m_MotorJointFeedback.t2.e1, "\t",
      format r.m_MotorJointFeedback.t2.e2, "\t",
      "\n"]

/-- The pieces of a text between the occurrences of a separator character. -/
def splitOnChar (sep : Char) : List Char → List (List Char)
  | [] => [[]]
  | c :: cs =>
    if c = sep then [] :: splitOnChar sep cs
    else
      match splitOnChar sep cs with
      | [] => [[c]]
      | field :: fields => (c :: field) :: fields

/-- The tab-separated fields of a line: the pieces between the tabs of the text
before its newline. -/
def tabFields (line : String) : List String :=
  (splitOnChar '\t' (line.data.takeWhile (fun c => c != '\n'))).map String.mk

/-- The 31 values of a data row, in the order of the header columns: the time,
the anchor, the three motor angles, the 12 feedback components of the ball
joint (`f1`, `t1`, `f2`, `t2`) and the 12 of the motor joint. -/
def DumpReadings.values (r : DumpReadings) : List ℚ :=
  [r.time, r.p.e0, r.p.e1, r.p.e2, r.theta0, r.theta1, r.theta2,
    r.JointFeedback.f1.e0, r.JointFeedback.f1.e1, r.JointFeedback.f1.e2,
    r.JointFeedback.t1.e0, r.JointFeedback.t1.e1, r.JointFeedback.t1.e2,
    r.JointFeedback.f2.e0, r.JointFeedback.f2.e1, r.JointFeedback.f2.e2,
    r.JointFeedback.t2.e0, r.JointFeedback.t2.e1, r.JointFeedback.t2.e2,
    r.m_MotorJointFeedback.f1.e0, r.m_MotorJointFeedback.f1.e1, r.m_MotorJointFeedback.f1.e2,
    r.m_MotorJointFeedback.t1.e0, r.m_MotorJointFeedback.t1.e1, r.m_MotorJointFeedback.t1.e2,
    r.m_MotorJointFeedback.f2.e0, r.m_MotorJointFeedback.f2.e1, r.m_MotorJointFeedback.f2.e2,
    r.m_MotorJointFeedback.t2.e0, r.m_MotorJointFeedback.t2.e1, r.m_MotorJointFeedback.t2.e2]

/-- A stand-in for the stream's number formatting, for evaluating the code on
examples: 0 is written `"0"`, 1 is written `"1"` and any other number `"x"`. -/
def exampleFormat (v : ℚ) : String :=
  if v = 0 then "0" else if v = 1 then "1" else "x"

/-- Readings for evaluating the code on examples: everything is 0 except the
force on body 2 in the feedback of the ball joint, which is `(1, 1, 1)`. -/
def exampleReadings : DumpReadings :=
  { time := 0
    p := ⟨0, 0, 0⟩
    theta0 := 0
    theta1 := 0
    theta2 := 0
    JointFeedback := ⟨⟨0, 0, 0⟩, ⟨0, 0, 0⟩, ⟨1, 1, 1⟩, ⟨0, 0, 0⟩⟩
    m_MotorJointFeedback := ⟨⟨0, 0, 0⟩, ⟨0, 0, 0⟩, ⟨0, 0, 0⟩, ⟨0, 0, 0⟩⟩ }

/-! ## BallJoint::SetBallAnchor(const char *) (BallJoint.cpp) -/

/-- The functions that `BallJoint::SetBallAnchor(const char *)` calls and whose
definitions are not among the source files. They are parameters of the
embedding.

* `ReturnTokens` is `DataFile::ReturnTokens(lBuf, lBufPtrs, l)`: the tokens it
  finds in the buffer (its return value is their number);
* `strtod` is the C library conversion `strtod(token, 0)`;
* `GetBody` is `simulation()->GetBody(name)`, `none` for a null pointer;
* `dBodyGetRelPointPos` is the ODE query of that name: the world coordinates of
  a point given in the coordinates of a body. -/
structure AnchorLibrary where
  ReturnTokens : String → List String
  strtod : String → ℚ
  GetBody : String → Option Body
  dBodyGetRelPointPos : Nat → ℚ → ℚ → ℚ → dVector3

/-- The test `isalpha((int)*token)` on the first character of a token: in the C
locale, whether that character is an ASCII letter. The first character of an
empty token is the terminating NUL, which is no letter. -/
def isalphaFirst (token : String) : Bool :=
  match token.data with
  | [] => false
  | c :: _ => c.isAlpha

/-- The method `BallJoint::SetBallAnchor(const char *buf)`: the engine calls it issues
and the messages it sends to `std::cerr`. It assigns no member. -/
def BallJoint.SetBallAnchorBuf (self : BallJoint) (lib : AnchorLibrary) (buf : String) :
    List EngineCall × List String :=
  let lBufPtrs := lib.ReturnTokens buf
  let count := lBufPtrs.length
  if count < 3 then ([], ["Error in BallJoint::SetBallAnchor\n"])
  else if isalphaFirst (lBufPtrs.getD 0 "") = false then
    let pos0 := lib.strtod (lBufPtrs.getD 0 "")
    let pos1 := lib.strtod (lBufPtrs.getD 1 "")
    let pos2 := lib.strtod (lBufPtrs.getD 2 "")
    ([EngineCall.dJointSetBallAnchor self.m_JointID pos0 pos1 pos2], [])
  else if count < 4 then ([], ["Error in BallJoint::SetBallAnchor\n"])
  else
    match lib.GetBody (lBufPtrs.getD 0 "") with
    | none =>
      if lBufPtrs.getD 0 "" = "World" then
        let pos0 := lib.strtod (lBufPtrs.getD 1 "")
        let pos1 := lib.strtod (lBufPtrs.getD 2 "")
        let pos2 := lib.strtod (lBufPtrs.getD 3 "")
        ([EngineCall.dJointSetBallAnchor self.m_JointID pos0 pos1 pos2], [])
      else ([], ["Error in BallJoint::SetBallAnchor\n"])
    | some theBody =>
      let pos0 := lib.strtod (lBufPtrs.getD 1 "")
      let pos1 := lib.strtod (lBufPtrs.getD 2 "")
      let pos2 := lib.strtod (lBufPtrs.getD 3 "")
      let result := lib.dBodyGetRelPointPos theBody.m_BodyID pos0 pos1 pos2
      ([EngineCall.dJointSetBallAnchor self.m_JointID result.e0 result.e1 result.e2], [])

/-- A stand-in for the library of `SetBallAnchor(const char *)`, for evaluating
the code on examples: three texts with their tokens, the numbers `"1.0"`, `"2.0"`
(anything else reads as 0), one body `"Torso"` with engine handle 7, and a body
frame that is the world frame moved by `(10, 10, 10)`. -/
def exampleAnchorLibrary : AnchorLibrary :=
  { ReturnTokens := fun buf =>
      if buf = "1.0 2.0 0.0" then ["1.0", "2.0", "0.0"]
      else if buf = "Torso 1.0 2.0 0.0" then ["Torso", "1.0", "2.0", "0.0"]
      else if buf = "World 1.0 2.0 0.0" then ["World", "1.0", "2.0", "0.0"]
      else if buf = "Head 1.0 2.0 0.0" then ["Head", "1.0", "2.0", "0.0"]
      else []
    strtod := fun s => if s = "1.0" then 1 else if s = "2.0" then 2 else 0
    GetBody := fun name => if name = "Torso" then some ⟨7⟩ else none
    dBodyGetRelPointPos := fun _ x y z => ⟨x + 10, y + 10, z + 10⟩ }

/-! ## ElementTreeWidget (ElementTreeWidget.cpp)

Each category item (`m_bodyTree`, `m_markerTree`, ...) is kept as the list of its
children, in order; a child is its name (the text of column 0) and the two check
states the insert functions set. -/

/-- The check states `Qt::Unchecked` and `Qt::Checked`. -/
inductive CheckState where
  | Unchecked
  | Checked
  deriving DecidableEq, Repr

/-- A child `QTreeWidgetItem` of a category: `text(0)` and the check states stored
in columns 1 and 2. -/
structure TreeItem where
  text0 : String
  check1 : CheckState
  check2 : CheckState
  deriving DecidableEq, Repr

/-- The children of the seven category items of `ElementTreeWidget`. -/
structure ElementTreeWidget where
  m_bodyTree : List TreeItem
  m_markerTree : List TreeItem
  m_jointTree : List TreeItem
  m_geomTree : List TreeItem
  m_muscleTree : List TreeItem
  m_fluidSacTree : List TreeItem
  m_driverTree : List TreeItem
  deriving DecidableEq, Repr

/-- The lexical comparison of two texts character by character: negative, zero or
positive as the first is less than, equal to or greater than the second. -/
def compareChars : List Char → List Char → Int
  | [], [] => 0
  | [], _ :: _ => -1
  | _ :: _, [] => 1
  | a :: as, b :: bs => if a < b then -1 else if b < a then 1 else compareChars as bs

/-- The Qt function `QString::compare(s1, s2, Qt::CaseSensitive)`: "an integer less
than, equal to, or greater than zero if `s1` is less than, equal to, or greater
than `s2`", comparing the character codes. The codes compared here are those of the
characters of the text; what is proved below uses only that the comparison is a strict
total order which is zero on equal texts alone. -/
def QString_compare (s1 s2 : String) : Int :=
  compareChars s1.data s2.data

/-- The loop of `ElementTreeWidget::BinarySearch`, from the state `low`, `high`: the
value returned and the `*index` stored. There is no result (`none`) when `fuel`
iterations do not end the loop, or when `A->child(mid)` is null. The `int` values are
integers without overflow (fewer than 2^30 children); in a run from `BinarySearch`
`low + high` is never negative, where the division of C++ and this one agree. -/
def BinarySearch_loop (A : List TreeItem) (value : String) : Nat → Int → Int → Option (Bool × Int)
  | 0, _, _ => none
  | fuel + 1, low, high =>
    if low ≤ high then
      let mid := (low + high) / 2
      if mid < 0 then none
      else
        match A[mid.toNat]? with
        | none => none
        | some child =>
          let compare := QString_compare child.text0 value
          if compare > 0 then BinarySearch_loop A value fuel low (mid - 1)
          else if compare < 0 then BinarySearch_loop A value fuel (mid + 1) high
          else some (true, mid)
    else some (false, low)

/-- The method `ElementTreeWidget::BinarySearch(A, value, &index)` on the children of
`A`: the value returned and the `*index` stored. The loop is given one more
iteration than there are children. -/
def BinarySearch (A : List TreeItem) (value : String) : Option (Bool × Int) :=
  BinarySearch_loop A value (A.length + 1) 0 ((A.length : Int) - 1)

/-- The Qt function `QTreeWidgetItem::insertChild(index, child)` on the list of
children: the child is inserted at `index`; an index below 0 or above the number
of children inserts nothing. -/
def insertChild (children : List TreeItem) (index : Int) (item : TreeItem) : List TreeItem :=
  if 0 ≤ index ∧ index ≤ children.length then
    children.take index.toNat ++ item :: children.drop index.toNat
  else children

/-- The statements `currentChild = tree->child(index); tree->removeChild(currentChild);
delete currentChild;` on the list of children: the child at `index` is taken
out; for an index outside the list `child(index)` is null and nothing is
removed. -/
def removeChildAt (children : List TreeItem) (index : Int) : List TreeItem :=
  if 0 ≤ index ∧ index < children.length then children.eraseIdx index.toNat else children

/-- The method `ElementTreeWidget::insertBody(name)`: the widget it leaves and the
index it returns. -/
def ElementTreeWidget.insertBody (self : ElementTreeWidget) (name : String) :
    Option (ElementTreeWidget × Int) :=
  match BinarySearch self.m_bodyTree name with
  | none => none
  | some (found, index) =>
    if found then some (self, index)
    else
      let item : TreeItem := ⟨name, CheckState.Checked, CheckState.Unchecked⟩
      some ({ self with m_bodyTree := insertChild self.m_bodyTree index item }, index)

/-- The method `ElementTreeWidget::insertMarker(name)`. -/
def ElementTreeWidget.insertMarker (self : ElementTreeWidget) (name : String) :
    Option (ElementTreeWidget × Int) :=
  match BinarySearch self.m_markerTree name with
  | none => none
  | some (found, index) =>
    if found then some (self, index)
    else
      let item : TreeItem := ⟨name, CheckState.Checked, CheckState.Unchecked⟩
      some ({ self with m_markerTree := insertChild self.m_markerTree index item }, index)

/-- The method `ElementTreeWidget::insertJoint(name)`. -/
def ElementTreeWidget.insertJoint (self : ElementTreeWidget) (name : String) :
    Option (ElementTreeWidget × Int) :=
  match BinarySearch self.m_jointTree name with
  | none => none
  | some (found, index) =>
    if found then some (self, index)
    else
      let item : TreeItem := ⟨name, CheckState.Checked, CheckState.Unchecked⟩
      some ({ self with m_jointTree := insertChild self.m_jointTree index item }, index)

/-- The method `ElementTreeWidget::insertMuscle(name)`. -/
def ElementTreeWidget.insertMuscle (self : ElementTreeWidget) (name : String) :
    Option (ElementTreeWidget × Int) :=
  match BinarySearch self.m_muscleTree name with
  | none => none
  | some (found, index) =>
    if found then some (self, index)
    else
      let item : TreeItem := ⟨name, CheckState.Checked, CheckState.Unchecked⟩
      some ({ self with m_muscleTree := insertChild self.m_muscleTree index item }, index)

/-- The method `ElementTreeWidget::insertGeom(name)`. -/
def ElementTreeWidget.insertGeom (self : ElementTreeWidget) (name : String) :
    Option (ElementTreeWidget × Int) :=
  match BinarySearch self.m_geomTree name with
  | none => none
  | some (found, index) =>
    if found then some (self, index)
    else
      let item : TreeItem := ⟨name, CheckState.Checked, CheckState.Unchecked⟩
      some ({ self with m_geomTree := insertChild self.m_geomTree index item }, index)

/-- The method `ElementTreeWidget::insertFluidSac(name)`. -/
def ElementTreeWidget.insertFluidSac (self : ElementTreeWidget) (name : String) :
    Option (ElementTreeWidget × Int) :=
  match BinarySearch self.m_fluidSacTree name with
  | none => none
  | some (found, index) =>
    if found then some (self, index)
    else
      let item : TreeItem := ⟨name, CheckState.Checked, CheckState.Unchecked⟩
      some ({ self with m_fluidSacTree := insertChild self.m_fluidSacTree index item }, index)

/-- The method `ElementTreeWidget::insertDriver(name)`; a new driver is unchecked in
column 1. -/
def ElementTreeWidget.insertDriver (self : ElementTreeWidget) (name : String) :
    Option (ElementTreeWidget × Int) :=
  match BinarySearch self.m_driverTree name with
  | none => none
  | some (found, index) =>
    if found then some (self, index)
    else
      let item : TreeItem := ⟨name, CheckState.Unchecked, CheckState.Unchecked⟩
      some ({ self with m_driverTree := insertChild self.m_driverTree index item }, index)

/-- The method `ElementTreeWidget::removeBody(name)`: the widget it leaves and the
index it returns. The search is made in `m_geomTree`, as in the source. -/
def ElementTreeWidget.removeBody (self : ElementTreeWidget) (name : String) :
    Option (ElementTreeWidget × Int) :=
  match BinarySearch self.m_geomTree name with
  | none => none
  | some (found, index) =>
    if ¬ found then some (self, -1)
    else some ({ self with m_bodyTree := removeChildAt self.m_bodyTree index }, index)

/-- The method `ElementTreeWidget::removeMarker(name)`. The search is made in
`m_geomTree`, as in the source. -/
def ElementTreeWidget.removeMarker (self : ElementTreeWidget) (name : String) :
    Option (ElementTreeWidget × Int) :=
  match BinarySearch self.m_geomTree name with
  | none => none
  | some (found, index) =>
    if ¬ found then some (self, -1)
    else some ({ self with m_markerTree := removeChildAt self.m_markerTree index }, index)

/-- The method `ElementTreeWidget::removeJoint(name)`. The search is made in
`m_geomTree`, as in the source. -/
def ElementTreeWidget.removeJoint (self : ElementTreeWidget) (name : String) :
    Option (ElementTreeWidget × Int) :=
  match BinarySearch self.m_geomTree name with
  | none => none
  | some (found, index) =>
    if ¬ found then some (self, -1)
    else some ({ self with m_jointTree := removeChildAt self.m_jointTree index }, index)

/-- The method `ElementTreeWidget::removeMuscle(name)`. The search is made in
`m_geomTree`, as in the source. -/
def ElementTreeWidget.removeMuscle (self : ElementTreeWidget) (name : String) :
    Option (ElementTreeWidget × Int) :=
  match BinarySearch self.m_geomTree name with
  | none => none
  | some (found, index) =>
    if ¬ found then some (self, -1)
    else some ({ self with m_muscleTree := removeChildAt self.m_muscleTree index }, index)

/-- The method `ElementTreeWidget::removeGeom(name)`. -/
def ElementTreeWidget.removeGeom (self : ElementTreeWidget) (name : String) :
    Option (ElementTreeWidget × Int) :=
  match BinarySearch self.m_geomTree name with
  | none => none
  | some (found, index) =>
    if ¬ found then some (self, -1)
    else some ({ self with m_geomTree := removeChildAt self.m_geomTree index }, index)

/-- The method `ElementTreeWidget::removeFluidSac(name)`. -/
def ElementTreeWidget.removeFluidSac (self : ElementTreeWidget) (name : String) :
    Option (ElementTreeWidget × Int) :=
  match BinarySearch self.m_fluidSacTree name with
  | none => none
  | some (found, index) =>
    if ¬ found then some (self, -1)
    else some ({ self with m_fluidSacTree := removeChildAt self.m_fluidSacTree index }, index)

/-- The method `ElementTreeWidget::removeDriver(name)`. -/
def ElementTreeWidget.removeDriver (self : ElementTreeWidget) (name : String) :
    Option (ElementTreeWidget × Int) :=
  match BinarySearch self.m_driverTree name with
  | none => none
  | some (found, index) =>
    if ¬ found then some (self, -1)
    else some ({ self with m_driverTree := removeChildAt self.m_driverTree index }, index)

/-- The seven categories of the tree. -/
inductive Category where
  | BODY
  | MARKER
  | JOINT
  | GEOM
  | MUSCLE
  | FLUIDSAC
  | DRIVER
  deriving DecidableEq, Repr

/-- The children of a category. -/
def ElementTreeWidget.tree (self : ElementTreeWidget) : Category → List TreeItem
  | Category.BODY => self.m_bodyTree
  | Category.MARKER => self.m_markerTree
  | Category.JOINT => self.m_jointTree
  | Category.GEOM => self.m_geomTree
  | Category.MUSCLE => self.m_muscleTree
  | Category.FLUIDSAC => self.m_fluidSacTree
  | Category.DRIVER => self.m_driverTree

/-- The insert function of a category. -/
def ElementTreeWidget.insert (self : ElementTreeWidget) (category : Category) (name : String) :
    Option (ElementTreeWidget × Int) :=
  match category with
  | Category.BODY => self.insertBody name
  | Category.MARKER => self.insertMarker name
  | Category.JOINT => self.insertJoint name
  | Category.GEOM => self.insertGeom name
  | Category.MUSCLE => self.insertMuscle name
  | Category.FLUIDSAC => self.insertFluidSac name
  | Category.DRIVER => self.insertDriver name

/-- The names of the children of a category are strictly ascending under the
case-sensitive comparison (so no name occurs twice). -/
def SortedNames (children : List TreeItem) : Prop :=
  children.Pairwise (fun a b => QString_compare a.text0 b.text0 < 0)

/-- A checked child with the given name. -/
def child (name : String) : TreeItem :=
  ⟨name, CheckState.Checked, CheckState.Unchecked⟩

/-- A widget for evaluating the code on examples: bodies `A`, `B`, markers `A`,
`B`, joints `A`, `B`, muscles `A`, `B`, the one geom `B`, and nothing else. -/
def exampleTree : ElementTreeWidget :=
  { m_bodyTree := [child "A", child "B"]
    m_markerTree := [child "A", child "B"]
    m_jointTree := [child "A", child "B"]
    m_geomTree := [child "B"]
    m_muscleTree := [child "A", child "B"]
    m_fluidSacTree := []
    m_driverTree := [] }

/-! ## `std::lower_bound` on a sorted vector -/

/-- In a non-decreasing list, entries are ordered like their positions. -/
theorem sorted_getD_le (v : List ℚ) (hs : v.Sorted (· ≤ ·)) (i j : Nat) (hij : i ≤ j)
    (hj : j < v.length) : v.getD i 0 ≤ v.getD j 0 := by
  have hi : i < v.length := lt_of_le_of_lt hij hj
  rw [List.getD_eq_getElem v 0 hi, List.getD_eq_getElem v 0 hj]
  rcases Nat.eq_or_lt_of_le hij with h | h
  · subst h; exact le_refl _
  · exact (List.pairwise_iff_getElem.mp hs) i j hi hj h

/-- The bisection keeps its invariant: everything before `first` is below `val`,
everything from `first + len` on is not, and the answer it returns splits the
whole list in the same way. -/
theorem lower_bound_loop_spec (v : List ℚ) (val : ℚ) (hs : v.Sorted (· ≤ ·)) :
    ∀ (fuel first len : Nat), len ≤ fuel → first + len ≤ v.length →
      (∀ j, j < first → v.getD j 0 < val) →
      (∀ j, first + len ≤ j → j < v.length → val ≤ v.getD j 0) →
      lower_bound_loop v val fuel first len ≤ v.length ∧
      (∀ j, j < lower_bound_loop v val fuel first len → v.getD j 0 < val) ∧
      (∀ j, lower_bound_loop v val fuel first len ≤ j → j < v.length → val ≤ v.getD j 0) := by
  intro fuel
  induction fuel with
  | zero =>
    intro first len hfuel hlen hlo hhi
    have hl : len = 0 := Nat.le_zero.mp hfuel
    subst hl
    simp only [lower_bound_loop]
    exact ⟨by omega, hlo, fun j hj hjl => hhi j (by omega) hjl⟩
  | succ fuel ih =>
    intro first len hfuel hlen hlo hhi
    simp only [lower_bound_loop]
    by_cases hpos : len > 0
    · rw [if_pos hpos]
      have hhalf : len / 2 < len := Nat.div_lt_self hpos (by decide)
      by_cases hmid : v.getD (first + len / 2) 0 < val
      · rw [if_pos hmid]
        apply ih
        · omega
        · omega
        · intro j hj
          exact lt_of_le_of_lt (sorted_getD_le v hs j (first + len / 2) (by omega) (by omega)) hmid
        · intro j hj hjl
          exact hhi j (by omega) hjl
      · rw [if_neg hmid]
        apply ih
        · omega
        · omega
        · exact hlo
        · intro j hj hjl
          exact le_trans (not_lt.mp hmid) (sorted_getD_le v hs (first + len / 2) j hj hjl)
    · rw [if_neg hpos]
      have hl : len = 0 := by omega
      subst hl
      exact ⟨by omega, hlo, fun j hj hjl => hhi j (by omega) hjl⟩

/-- On a non-decreasing list `std::lower_bound` returns the position that
splits the list into the entries below `val` and the entries not below it. -/
theorem lower_bound_spec (v : List ℚ) (val : ℚ) (hs : v.Sorted (· ≤ ·)) :
    lower_bound v val ≤ v.length ∧
    (∀ j, j < lower_bound v val → v.getD j 0 < val) ∧
    (∀ j, lower_bound v val ≤ j → j < v.length → val ≤ v.getD j 0) := by
  unfold lower_bound
  apply lower_bound_loop_spec v val hs
  · exact le_refl _
  · omega
  · intro j hj; omega
  · intro j hj hjl; omega

/-- On a non-decreasing list `std::lower_bound` returns the least position whose
entry is not below `val`, when there is one. -/
theorem lower_bound_eq_of_least (v : List ℚ) (val : ℚ) (hs : v.Sorted (· ≤ ·)) (i : Nat)
    (hi : i < v.length) (hge : val ≤ v.getD i 0) (hlt : ∀ j, j < i → v.getD j 0 < val) :
    lower_bound v val = i := by
  obtain ⟨hlen, hlo, hhi⟩ := lower_bound_spec v val hs
  rcases Nat.lt_trichotomy (lower_bound v val) i with h | h | h
  · exact absurd (hlt _ h) (not_lt.mpr (hhi _ (le_refl _) (by omega)))
  · exact h
  · exact absurd (hlo i h) (not_lt.mpr hge)

/-- When every entry is below `val` the bisection always moves right and ends
at `first + len`; the list need not be sorted for this. -/
theorem lower_bound_loop_all_lt (v : List ℚ) (val : ℚ) (hall : ∀ x ∈ v, x < val) :
    ∀ (fuel first len : Nat), len ≤ fuel → first + len ≤ v.length →
      lower_bound_loop v val fuel first len = first + len := by
  intro fuel
  induction fuel with
  | zero =>
    intro first len hfuel _
    have hl : len = 0 := Nat.le_zero.mp hfuel
    subst hl
    simp [lower_bound_loop]
  | succ fuel ih =>
    intro first len hfuel hlen
    simp only [lower_bound_loop]
    by_cases hpos : len > 0
    · rw [if_pos hpos]
      have hhalf : len / 2 < len := Nat.div_lt_self hpos (by decide)
      have hm : first + len / 2 < v.length := by omega
      have hmid : v.getD (first + len / 2) 0 < val := by
        rw [List.getD_eq_getElem v 0 hm]
        exact hall _ (List.getElem_mem hm)
      rw [if_pos hmid, ih _ _ (by omega) (by omega)]
      omega
    · rw [if_neg hpos]
      omega

/-- When every entry is below `val`, `std::lower_bound` returns `end()`. -/
theorem lower_bound_eq_length (v : List ℚ) (val : ℚ) (hall : ∀ x ∈ v, x < val) :
    lower_bound v val = v.length := by
  unfold lower_bound
  rw [lower_bound_loop_all_lt v val hall _ _ _ (le_refl _) (by omega)]
  omega

/-! ## The `calculateMatchValue` state machine -/

/-- C1: in Punctuated mode, on a non-decreasing `targetTimeList`, a query time
that differs from `lastTime` and whose lower-bound index `i` (the least position
with `targetTimeList[i] >= time`, every earlier entry being below `time`)
differs from `lastIndex` returns
`(intercept + slope * positiveFunction(calculateError(i)), true)`, and the only
`calculateError` call made is the index-based overload at exactly `i`. -/
theorem calculateMatchValue_punctuated_new_index (self : DataTarget) (err : ErrorSource)
    (sim : Simulation) (time : ℚ) (i : Nat)
    (hmode : self.m_interpolationType = InterpolationType.Punctuated)
    (hsorted : self.m_targetTimeList.Sorted (· ≤ ·))
    (htime : time ≠ self.m_lastTime)
    (hi : i < self.m_targetTimeList.length)
    (hge : time ≤ self.m_targetTimeList.getD i 0)
    (hlt : ∀ j, j < i → self.m_targetTimeList.getD j 0 < time)
    (hindex : i ≠ self.m_lastIndex) :
    (self.calculateMatchValue err sim time).value
        = self.m_intercept + self.m_slope * self.positiveFunction (err.calculateErrorIndex i) ∧
      (self.calculateMatchValue err sim time).valid = true ∧
      (self.calculateMatchValue err sim time).world.calls.filter Call.isCalculateError
        = [Call.calculateErrorIndex i] := by
  have hlb : lower_bound self.m_targetTimeList time = i :=
    lower_bound_eq_of_least _ _ hsorted i hi hge hlt
  have hne : ¬ i = self.m_targetTimeList.length := by omega
  refine ⟨?_, ?_, ?_⟩ <;>
    simp only [DataTarget.calculateMatchValue, if_neg htime, hmode, hlb, if_neg hne,
      if_neg hindex]
  split_ifs <;>
    simp [World.callErrorIndex, World.SetDataTargetAbort, Call.isCalculateError, List.filter]

/-- C1 at a concrete input: times `[0, 1, 2]`, query `1/2`, lower-bound index 1,
error `-3` at index 1, so the result is `(1 + 2 * |-3|, true) = (7, true)`. -/
theorem calculateMatchValue_punctuated_new_index_witness :
    ((DataTarget.loaded 1 2 MatchType.Linear InterpolationType.Punctuated (-10) 10
        [0, 1, 2] (-1)).calculateMatchValue
          ⟨fun t => t, fun k => (k : ℚ) - 4⟩ ⟨false⟩ (1 / 2)).value = 1 + 2 * 3 ∧
    ((DataTarget.loaded 1 2 MatchType.Linear InterpolationType.Punctuated (-10) 10
        [0, 1, 2] (-1)).calculateMatchValue
          ⟨fun t => t, fun k => (k : ℚ) - 4⟩ ⟨false⟩ (1 / 2)).valid = true := by
  have h := calculateMatchValue_punctuated_new_index
    (DataTarget.loaded 1 2 MatchType.Linear InterpolationType.Punctuated (-10) 10 [0, 1, 2] (-1))
    ⟨fun t => t, fun k => (k : ℚ) - 4⟩ ⟨false⟩ (1 / 2) 1 rfl
    (by simp [DataTarget.loaded])
    (by norm_num [DataTarget.loaded])
    (by simp [DataTarget.loaded])
    (by norm_num [DataTarget.loaded])
    (by
      intro j hj
      have hj0 : j = 0 := by omega
      subst hj0
      norm_num [DataTarget.loaded])
    (by simp [DataTarget.loaded, SIZE_MAX])
  refine ⟨?_, h.2.1⟩
  rw [h.1]
  norm_num [DataTarget.loaded, DataTarget.positiveFunction]

/-- C5: in Punctuated mode, a query time that differs from `lastTime` and is
strictly greater than every entry of `targetTimeList` returns
`(lastValue, false)` with the value cached before the call; the object
(`lastValue`, `lastIndex`, `lastTime` and all else) is unchanged, no
`calculateError` call is made, no abort signal is sent and the simulation is
left as it was. -/
theorem calculateMatchValue_punctuated_beyond_last (self : DataTarget) (err : ErrorSource)
    (sim : Simulation) (time : ℚ)
    (hmode : self.m_interpolationType = InterpolationType.Punctuated)
    (htime : time ≠ self.m_lastTime)
    (hbeyond : ∀ x ∈ self.m_targetTimeList, x < time) :
    self.calculateMatchValue err sim time = ⟨self.m_lastValue, false, self, ⟨sim, []⟩⟩ := by
  have hlb : lower_bound self.m_targetTimeList time = self.m_targetTimeList.length :=
    lower_bound_eq_length _ _ hbeyond
  simp only [DataTarget.calculateMatchValue, if_neg htime, hmode, hlb, if_true]

/-- C5 at a concrete input: times `[0, 1, 2]`, query `5/2`, cached value 0. -/
theorem calculateMatchValue_punctuated_beyond_last_witness :
    (DataTarget.loaded 1 2 MatchType.Linear InterpolationType.Punctuated (-10) 10
        [0, 1, 2] (-1)).calculateMatchValue ⟨fun t => t, fun k => (k : ℚ) - 4⟩ ⟨false⟩ (5 / 2)
      = ⟨0, false,
          DataTarget.loaded 1 2 MatchType.Linear InterpolationType.Punctuated (-10) 10
            [0, 1, 2] (-1),
          ⟨⟨false⟩, []⟩⟩ :=
  calculateMatchValue_punctuated_beyond_last
    (DataTarget.loaded 1 2 MatchType.Linear InterpolationType.Punctuated (-10) 10 [0, 1, 2] (-1))
    ⟨fun t => t, fun k => (k : ℚ) - 4⟩ ⟨false⟩ (5 / 2) rfl
    (by norm_num [DataTarget.loaded])
    (by
      intro x hx
      simp only [DataTarget.loaded, List.mem_cons, List.mem_singleton, List.not_mem_nil,
        or_false] at hx
      rcases hx with h | h | h <;> subst h <;> norm_num)

/-- C6: in Continuous mode every call returns `valid = true`; when `time`
differs from `lastTime` the returned value, which is also the new `lastValue`,
is `intercept + slope * positiveFunction(calculateError(time))`, the only
`calculateError` call being the time-based overload at `time`; and
`targetTimeList` is never consulted: with any other list in its place the call
returns the same tuple, makes the same calls, leaves the simulation the same,
and leaves the same object apart from the list it carries. -/
theorem calculateMatchValue_continuous (self : DataTarget) (err : ErrorSource)
    (sim : Simulation) (time : ℚ)
    (hmode : self.m_interpolationType = InterpolationType.Continuous) :
    (self.calculateMatchValue err sim time).valid = true ∧
    (time ≠ self.m_lastTime →
      (self.calculateMatchValue err sim time).value
          = self.m_intercept + self.m_slope * self.positiveFunction (err.calculateErrorTime time) ∧
        (self.calculateMatchValue err sim time).self.m_lastValue
          = (self.calculateMatchValue err sim time).value ∧
        (self.calculateMatchValue err sim time).world.calls.filter Call.isCalculateError
          = [Call.calculateErrorTime time]) ∧
    (∀ l : List ℚ,
      ({ self with m_targetTimeList := l }.calculateMatchValue err sim time).value
          = (self.calculateMatchValue err sim time).value ∧
        ({ self with m_targetTimeList := l }.calculateMatchValue err sim time).valid
          = (self.calculateMatchValue err sim time).valid ∧
        ({ self with m_targetTimeList := l }.calculateMatchValue err sim time).world
          = (self.calculateMatchValue err sim time).world ∧
        ({ self with m_targetTimeList := l }.calculateMatchValue err sim time).self
          = { (self.calculateMatchValue err sim time).self with m_targetTimeList := l }) := by
  refine ⟨?_, ?_, ?_⟩
  · by_cases htime : time = self.m_lastTime
    · simp only [DataTarget.calculateMatchValue, if_pos htime]
    · simp only [DataTarget.calculateMatchValue, if_neg htime, hmode]
  · intro htime
    refine ⟨?_, ?_, ?_⟩ <;>
      simp only [DataTarget.calculateMatchValue, if_neg htime, hmode]
    split_ifs <;>
      simp [World.callErrorTime, World.SetDataTargetAbort, Call.isCalculateError, List.filter]
  · intro l
    by_cases htime : time = self.m_lastTime
    · simp only [DataTarget.calculateMatchValue, if_pos htime, and_self]
    · simp only [DataTarget.calculateMatchValue, if_neg htime, hmode,
        DataTarget.positiveFunction, and_self]

/-- C6 at a concrete input: Continuous mode, query `1/2`, error `1/2 - 4`, so the
result is `(1 + 2 * |1/2 - 4|, true) = (8, true)`. -/
theorem calculateMatchValue_continuous_witness :
    ((DataTarget.loaded 1 2 MatchType.Linear InterpolationType.Continuous (-10) 10
        [0, 1, 2] (-1)).calculateMatchValue
          ⟨fun t => t - 4, fun k => (k : ℚ)⟩ ⟨false⟩ (1 / 2)).valid = true ∧
    ((DataTarget.loaded 1 2 MatchType.Linear InterpolationType.Continuous (-10) 10
        [0, 1, 2] (-1)).calculateMatchValue
          ⟨fun t => t - 4, fun k => (k : ℚ)⟩ ⟨false⟩ (1 / 2)).value = 8 := by
  have h := calculateMatchValue_continuous
    (DataTarget.loaded 1 2 MatchType.Linear InterpolationType.Continuous (-10) 10 [0, 1, 2] (-1))
    ⟨fun t => t - 4, fun k => (k : ℚ)⟩ ⟨false⟩ (1 / 2) rfl
  refine ⟨h.1, ?_⟩
  rw [(h.2.1 (by norm_num [DataTarget.loaded])).1]
  norm_num [DataTarget.loaded, DataTarget.positiveFunction]

/-- Every path of `calculateMatchValue` leaves the object as it was apart from
`m_lastValue`, and the value it returns is the `m_lastValue` it leaves. -/
theorem calculateMatchValue_self (self : DataTarget) (err : ErrorSource) (sim : Simulation)
    (time : ℚ) :
    (self.calculateMatchValue err sim time).self
      = { self with m_lastValue := (self.calculateMatchValue err sim time).value } := by
  obtain ⟨a, b, mt, it, lo, hi, l, li, lv, lt⟩ := self
  unfold DataTarget.calculateMatchValue
  cases it <;> simp only [] <;> split_ifs <;> rfl

/-- In Punctuated mode a call whose lower bound is inside the list and differs
from `m_lastIndex` is answered with `valid = true`. -/
theorem calculateMatchValue_punctuated_valid (self : DataTarget) (err : ErrorSource)
    (sim : Simulation) (time : ℚ)
    (hmode : self.m_interpolationType = InterpolationType.Punctuated)
    (hend : lower_bound self.m_targetTimeList time ≠ self.m_targetTimeList.length)
    (hindex : lower_bound self.m_targetTimeList time ≠ self.m_lastIndex) :
    (self.calculateMatchValue err sim time).valid = true := by
  by_cases htime : time = self.m_lastTime
  · simp only [DataTarget.calculateMatchValue, if_pos htime]
  · simp only [DataTarget.calculateMatchValue, if_neg htime, hmode, if_neg hend, if_neg hindex]

/-- A call leaves the abort flag set when it finds it set. -/
theorem calculateMatchValue_keeps_abort (self : DataTarget) (err : ErrorSource)
    (sim : Simulation) (time : ℚ) (hflag : sim.m_DataTargetAbort = true) :
    (self.calculateMatchValue err sim time).world.simulation.m_DataTargetAbort = true := by
  unfold DataTarget.calculateMatchValue
  cases hmode : self.m_interpolationType <;> simp only [] <;> split_ifs <;>
    simp [World.callErrorIndex, World.callErrorTime, World.SetDataTargetAbort,
      Simulation.SetDataTargetAbort, hflag]

/-- C7: the abort signal `SetDataTargetAbort(true)` is sent exactly by the calls
that compute a new value `v` (the query time differs from `lastTime` and the
result is valid; these are the calls that invoke `calculateError`) with
`v < abortBelow` or `v > abortAbove`. So a computed value inside the closed
interval `[abortBelow, abortAbove]`, its end points included, sends no signal,
and neither does a call that returns the cached value or an invalid result. -/
theorem calculateMatchValue_abort_signal (self : DataTarget) (err : ErrorSource)
    (sim : Simulation) (time : ℚ) :
    (Call.SetDataTargetAbort true ∈ (self.calculateMatchValue err sim time).world.calls ↔
      (time ≠ self.m_lastTime ∧ (self.calculateMatchValue err sim time).valid = true) ∧
        ((self.calculateMatchValue err sim time).value < self.m_abortBelow ∨
          (self.calculateMatchValue err sim time).value > self.m_abortAbove)) ∧
    ((time ≠ self.m_lastTime ∧ (self.calculateMatchValue err sim time).valid = true) ↔
      ∃ c ∈ (self.calculateMatchValue err sim time).world.calls, c.isCalculateError = true) ∧
    (self.m_abortBelow ≤ (self.calculateMatchValue err sim time).value ∧
        (self.calculateMatchValue err sim time).value ≤ self.m_abortAbove →
      Call.SetDataTargetAbort true ∉ (self.calculateMatchValue err sim time).world.calls) ∧
    (time = self.m_lastTime ∨ (self.calculateMatchValue err sim time).valid = false →
      ∀ flag, Call.SetDataTargetAbort flag ∉
        (self.calculateMatchValue err sim time).world.calls) := by
  unfold DataTarget.calculateMatchValue
  cases hmode : self.m_interpolationType <;> simp only [] <;> split_ifs <;>
    simp_all [World.callErrorIndex, World.callErrorTime, World.SetDataTargetAbort,
      Call.isCalculateError, not_lt, not_le]

/-- A sequence of calls leaves the abort flag set when it finds it set. -/
theorem calculateMatchValues_keeps_abort (queries : List (ErrorSource × ℚ)) :
    ∀ (self : DataTarget) (sim : Simulation), sim.m_DataTargetAbort = true →
      (self.calculateMatchValues sim queries).2.m_DataTargetAbort = true := by
  induction queries with
  | nil =>
    intro self sim hflag
    simpa only [DataTarget.calculateMatchValues] using hflag
  | cons q rest ih =>
    intro self sim hflag
    obtain ⟨err, time⟩ := q
    simp only [DataTarget.calculateMatchValues]
    exact ih _ _ (calculateMatchValue_keeps_abort self err sim time hflag)

/-- C8: `DataTarget` never resets the abort flag. No `calculateMatchValue` call
ever sends `SetDataTargetAbort(false)`; one call never turns a set flag off and
never changes the flag unless it sends `SetDataTargetAbort(true)`; and over every
sequence of `calculateMatchValue` calls a flag that is true stays true. -/
theorem calculateMatchValue_never_resets_abort (self : DataTarget) (sim : Simulation)
    (queries : List (ErrorSource × ℚ)) :
    (∀ (err : ErrorSource) (time : ℚ),
      Call.SetDataTargetAbort false ∉ (self.calculateMatchValue err sim time).world.calls) ∧
    (∀ (err : ErrorSource) (time : ℚ),
      (self.calculateMatchValue err sim time).world.simulation.m_DataTargetAbort
        = (sim.m_DataTargetAbort ||
            decide (Call.SetDataTargetAbort true ∈
              (self.calculateMatchValue err sim time).world.calls))) ∧
    (sim.m_DataTargetAbort = true →
      (self.calculateMatchValues sim queries).2.m_DataTargetAbort = true) := by
  refine ⟨?_, ?_, calculateMatchValues_keeps_abort queries self sim⟩
  · intro err time
    unfold DataTarget.calculateMatchValue
    cases hmode : self.m_interpolationType <;> simp only [] <;> split_ifs <;>
      simp [World.callErrorIndex, World.callErrorTime, World.SetDataTargetAbort]
  · intro err time
    unfold DataTarget.calculateMatchValue
    cases hmode : self.m_interpolationType <;> simp only [] <;> split_ifs <;>
      simp [World.callErrorIndex, World.callErrorTime, World.SetDataTargetAbort,
        Simulation.SetDataTargetAbort]

/-! ## The error metric -/

/-- C9: over exact rational arithmetic `positiveFunction(v)` is `|v|` when
`matchType` is Linear and `v * v` when it is Square. The function reads
`m_matchType` and its argument only and returns a number: it has no access to
the simulation and returns no changed object. -/
theorem positiveFunction_linear_square (self : DataTarget) (v : ℚ) :
    { self with m_matchType := MatchType.Linear }.positiveFunction v = |v| ∧
    { self with m_matchType := MatchType.Square }.positiveFunction v = v * v := by
  refine ⟨?_, rfl⟩
  simp only [DataTarget.positiveFunction]
  split_ifs with h
  · exact (abs_of_pos h).symm
  · exact (abs_of_nonpos (not_lt.mp h)).symm

/-- C10: `positiveFunction` is even and non-negative, for Linear and for Square:
`positiveFunction(-v) = positiveFunction(v)` and `positiveFunction(v) >= 0`. -/
theorem positiveFunction_even_nonneg (self : DataTarget) (v : ℚ) :
    ({ self with m_matchType := MatchType.Linear }.positiveFunction (-v)
        = { self with m_matchType := MatchType.Linear }.positiveFunction v ∧
      0 ≤ { self with m_matchType := MatchType.Linear }.positiveFunction v) ∧
    ({ self with m_matchType := MatchType.Square }.positiveFunction (-v)
        = { self with m_matchType := MatchType.Square }.positiveFunction v ∧
      0 ≤ { self with m_matchType := MatchType.Square }.positiveFunction v) := by
  refine ⟨⟨?_, ?_⟩, ⟨?_, ?_⟩⟩
  · simp only [DataTarget.positiveFunction]
    split_ifs <;> linarith
  · simp only [DataTarget.positiveFunction]
    split_ifs <;> linarith
  · simp only [DataTarget.positiveFunction]
    ring
  · simp only [DataTarget.positiveFunction]
    exact mul_self_nonneg v

/-! ## The cache keys `m_lastIndex` and `m_lastTime`

`calculateMatchValue` compares the query with `m_lastTime` and the lower-bound
index with `m_lastIndex`, but no path assigns either member
(`calculateMatchValue_self`). The next three theorems evaluate the code on the
example scenario of the specification. -/

/-- The lower bound of `1/2` in `[0, 1, 2]` is position 1. -/
theorem lower_bound_scenario_half : lower_bound [0, 1, 2] (1 / 2) = 1 := by
  norm_num [lower_bound, lower_bound_loop]

/-- The lower bound of `9/10` in `[0, 1, 2]` is position 1. -/
theorem lower_bound_scenario_nine_tenths : lower_bound [0, 1, 2] (9 / 10) = 1 := by
  norm_num [lower_bound, lower_bound_loop]

/-- C2 (the code on the scenario of the claim): with
`targetTimeList = [0.0, 1.0, 2.0]`, Linear, Punctuated, intercept 0, slope 1 on a
fresh object, the query `0.9` that follows the query `0.5` (both have lower-bound
index 1) is answered with `valid = true`, whatever `m_lastTime` started as; and
unless `m_lastTime` is `0.9` itself the second call invokes `calculateError(1)`
again and returns the recomputed `|calculateError(1)|`, not the first value. -/
theorem calculateMatchValue_same_bucket_recomputes (abortBelow abortAbove lastTime : ℚ)
    (err1 err2 : ErrorSource) (sim : Simulation) :
    (((scenarioTarget InterpolationType.Punctuated abortBelow abortAbove lastTime
        ).calculateMatchValue err1 sim (1 / 2)).self.calculateMatchValue err2
      ((scenarioTarget InterpolationType.Punctuated abortBelow abortAbove lastTime
        ).calculateMatchValue err1 sim (1 / 2)).world.simulation (9 / 10)).valid = true ∧
    (lastTime ≠ 9 / 10 →
      (((scenarioTarget InterpolationType.Punctuated abortBelow abortAbove lastTime
          ).calculateMatchValue err1 sim (1 / 2)).self.calculateMatchValue err2
        ((scenarioTarget InterpolationType.Punctuated abortBelow abortAbove lastTime
          ).calculateMatchValue err1 sim (1 / 2)).world.simulation
            (9 / 10)).world.calls.filter Call.isCalculateError
          = [Call.calculateErrorIndex 1] ∧
      (((scenarioTarget InterpolationType.Punctuated abortBelow abortAbove lastTime
          ).calculateMatchValue err1 sim (1 / 2)).self.calculateMatchValue err2
        ((scenarioTarget InterpolationType.Punctuated abortBelow abortAbove lastTime
          ).calculateMatchValue err1 sim (1 / 2)).world.simulation (9 / 10)).value
          = |err2.calculateErrorIndex 1|) := by
  rw [calculateMatchValue_self]
  generalize ((scenarioTarget InterpolationType.Punctuated abortBelow abortAbove lastTime
    ).calculateMatchValue err1 sim (1 / 2)).value = v1
  generalize ((scenarioTarget InterpolationType.Punctuated abortBelow abortAbove lastTime
    ).calculateMatchValue err1 sim (1 / 2)).world.simulation = sim1
  have hend : lower_bound [0, 1, 2] (9 / 10) ≠ ([0, 1, 2] : List ℚ).length := by
    rw [lower_bound_scenario_nine_tenths]; decide
  have hindex : lower_bound [0, 1, 2] (9 / 10) ≠ SIZE_MAX := by
    rw [lower_bound_scenario_nine_tenths]; decide
  refine ⟨calculateMatchValue_punctuated_valid _ err2 sim1 (9 / 10) rfl hend hindex, ?_⟩
  intro hlast
  have htime : ¬ ((9 : ℚ) / 10 = lastTime) := fun h => hlast h.symm
  have hend1 : ¬ (1 = ([0, 1, 2] : List ℚ).length) := by decide
  have hindex1 : ¬ (1 = SIZE_MAX) := by decide
  refine ⟨?_, ?_⟩ <;>
    simp only [DataTarget.calculateMatchValue, scenarioTarget, DataTarget.loaded, if_neg htime,
      lower_bound_scenario_nine_tenths, if_neg hend1, if_neg hindex1]
  · split_ifs <;>
      simp [World.callErrorIndex, World.SetDataTargetAbort, Call.isCalculateError, List.filter]
  · simp only [DataTarget.positiveFunction, zero_add, one_mul]
    by_cases h : err2.calculateErrorIndex 1 > 0
    · rw [if_pos h]
      exact (abs_of_pos h).symm
    · rw [if_neg h]
      exact (abs_of_nonpos (not_lt.mp h)).symm

/-- The first query of the scenario, at `1/2` with `m_lastTime` elsewhere,
computes: it returns `(|e|, true)` for the error `e` reported now, in either
interpolation mode. -/
theorem calculateMatchValue_scenario_first (interpolationType : InterpolationType)
    (abortBelow abortAbove lastTime e : ℚ) (sim : Simulation) (hlast : lastTime ≠ 1 / 2) :
    ((scenarioTarget interpolationType abortBelow abortAbove lastTime).calculateMatchValue
        (constantError e) sim (1 / 2)).value = |e| ∧
    ((scenarioTarget interpolationType abortBelow abortAbove lastTime).calculateMatchValue
        (constantError e) sim (1 / 2)).valid = true ∧
    ((scenarioTarget interpolationType abortBelow abortAbove lastTime).calculateMatchValue
        (constantError e) sim (1 / 2)).world.calls.filter Call.isCalculateError ≠ [] := by
  have htime : ¬ ((1 : ℚ) / 2 = lastTime) := fun h => hlast h.symm
  have hend1 : ¬ (1 = ([0, 1, 2] : List ℚ).length) := by decide
  have hindex1 : ¬ (1 = SIZE_MAX) := by decide
  have habs : (if e > 0 then e else -e) = |e| := by
    by_cases h : e > 0
    · rw [if_pos h]
      exact (abs_of_pos h).symm
    · rw [if_neg h]
      exact (abs_of_nonpos (not_lt.mp h)).symm
  cases interpolationType <;> refine ⟨?_, ?_, ?_⟩ <;>
    simp only [DataTarget.calculateMatchValue, scenarioTarget, DataTarget.loaded, constantError,
      if_neg htime, lower_bound_scenario_half, if_neg hend1, if_neg hindex1,
      DataTarget.positiveFunction, zero_add, one_mul, habs] <;>
    split_ifs <;>
    simp [World.callErrorIndex, World.callErrorTime, World.SetDataTargetAbort,
      Call.isCalculateError, List.filter]

/-- C3 (the code on a failing input): on the scenario of the specification, in
either interpolation mode and with `m_lastTime` anywhere but at `0.5`, the query
`0.5` computes `(1, true)` while the error is 1; the immediately following query
at exactly the same time `0.5`, made when the error has become 2, invokes
`calculateError` again and returns `(2, true)`, not the cached `(1, true)`. -/
theorem calculateMatchValue_same_time_recomputes (interpolationType : InterpolationType)
    (abortBelow abortAbove lastTime : ℚ) (sim : Simulation) (hlast : lastTime ≠ 1 / 2) :
    (((scenarioTarget interpolationType abortBelow abortAbove lastTime).calculateMatchValue
        (constantError 1) sim (1 / 2)).value = 1 ∧
      ((scenarioTarget interpolationType abortBelow abortAbove lastTime).calculateMatchValue
        (constantError 1) sim (1 / 2)).valid = true) ∧
    ((((scenarioTarget interpolationType abortBelow abortAbove lastTime).calculateMatchValue
        (constantError 1) sim (1 / 2)).self.calculateMatchValue (constantError 2)
      ((scenarioTarget interpolationType abortBelow abortAbove lastTime).calculateMatchValue
        (constantError 1) sim (1 / 2)).world.simulation (1 / 2)).value = 2 ∧
      (((scenarioTarget interpolationType abortBelow abortAbove lastTime).calculateMatchValue
        (constantError 1) sim (1 / 2)).self.calculateMatchValue (constantError 2)
      ((scenarioTarget interpolationType abortBelow abortAbove lastTime).calculateMatchValue
        (constantError 1) sim (1 / 2)).world.simulation (1 / 2)).valid = true ∧
      (((scenarioTarget interpolationType abortBelow abortAbove lastTime).calculateMatchValue
        (constantError 1) sim (1 / 2)).self.calculateMatchValue (constantError 2)
      ((scenarioTarget interpolationType abortBelow abortAbove lastTime).calculateMatchValue
        (constantError 1) sim (1 / 2)).world.simulation
          (1 / 2)).world.calls.filter Call.isCalculateError ≠ []) := by
  have h1 := calculateMatchValue_scenario_first interpolationType abortBelow abortAbove
    lastTime 1 sim hlast
  refine ⟨⟨by rw [h1.1]; norm_num, h1.2.1⟩, ?_⟩
  rw [calculateMatchValue_self, h1.1]
  generalize ((scenarioTarget interpolationType abortBelow abortAbove lastTime
    ).calculateMatchValue (constantError 1) sim (1 / 2)).world.simulation = sim1
  have hsame : { scenarioTarget interpolationType abortBelow abortAbove lastTime with
      m_lastValue := |(1 : ℚ)| }
      = { scenarioTarget interpolationType abortBelow abortAbove lastTime with
          m_lastValue := 1 } := by
    rw [abs_one]
  rw [hsame]
  have htime : ¬ ((1 : ℚ) / 2 = lastTime) := fun h => hlast h.symm
  have hend1 : ¬ (1 = ([0, 1, 2] : List ℚ).length) := by decide
  have hindex1 : ¬ (1 = SIZE_MAX) := by decide
  have hpos : (2 : ℚ) > 0 := by norm_num
  cases interpolationType <;> refine ⟨?_, ?_, ?_⟩ <;>
    simp only [DataTarget.calculateMatchValue, scenarioTarget, DataTarget.loaded, constantError,
      if_neg htime, lower_bound_scenario_half, if_neg hend1, if_neg hindex1,
      DataTarget.positiveFunction, zero_add, one_mul, if_pos hpos] <;>
    split_ifs <;>
    simp [World.callErrorIndex, World.callErrorTime, World.SetDataTargetAbort,
      Call.isCalculateError, List.filter]

/-- C3 at a concrete start: `m_lastTime = -1`, abort bounds `-10` and `10`,
Continuous mode. -/
theorem calculateMatchValue_same_time_recomputes_witness :
    (((scenarioTarget InterpolationType.Continuous (-10) 10 (-1)).calculateMatchValue
        (constantError 1) ⟨false⟩ (1 / 2)).self.calculateMatchValue (constantError 2)
      ((scenarioTarget InterpolationType.Continuous (-10) 10 (-1)).calculateMatchValue
        (constantError 1) ⟨false⟩ (1 / 2)).world.simulation (1 / 2)).value = 2 :=
  (calculateMatchValue_same_time_recomputes InterpolationType.Continuous (-10) 10 (-1) ⟨false⟩
    (by norm_num)).2.1

/-- C4 (the code on a failing input): on the scenario of the specification in
Punctuated mode, with `m_lastTime` anywhere but at `0.5`, the query `0.5`
computes a new value at lower-bound index 1 (it calls `calculateError(1)` and
returns `valid = true`) and stores it in `lastValue`, but afterwards `lastIndex`
is still `SIZE_MAX`, not 1, and `lastTime` is still its old value, not `0.5`. -/
theorem calculateMatchValue_cache_keys_not_updated (abortBelow abortAbove lastTime : ℚ)
    (err : ErrorSource) (sim : Simulation) (hlast : lastTime ≠ 1 / 2) :
    ((scenarioTarget InterpolationType.Punctuated abortBelow abortAbove lastTime
      ).calculateMatchValue err sim (1 / 2)).valid = true ∧
    ((scenarioTarget InterpolationType.Punctuated abortBelow abortAbove lastTime
      ).calculateMatchValue err sim (1 / 2)).world.calls.filter Call.isCalculateError
        = [Call.calculateErrorIndex 1] ∧
    ((scenarioTarget InterpolationType.Punctuated abortBelow abortAbove lastTime
      ).calculateMatchValue err sim (1 / 2)).self.m_lastValue
        = ((scenarioTarget InterpolationType.Punctuated abortBelow abortAbove lastTime
            ).calculateMatchValue err sim (1 / 2)).value ∧
    ((scenarioTarget InterpolationType.Punctuated abortBelow abortAbove lastTime
      ).calculateMatchValue err sim (1 / 2)).self.m_lastIndex = SIZE_MAX ∧
    ((scenarioTarget InterpolationType.Punctuated abortBelow abortAbove lastTime
      ).calculateMatchValue err sim (1 / 2)).self.m_lastIndex ≠ 1 ∧
    ((scenarioTarget InterpolationType.Punctuated abortBelow abortAbove lastTime
      ).calculateMatchValue err sim (1 / 2)).self.m_lastTime = lastTime ∧
    ((scenarioTarget InterpolationType.Punctuated abortBelow abortAbove lastTime
      ).calculateMatchValue err sim (1 / 2)).self.m_lastTime ≠ 1 / 2 := by
  have htime : ¬ ((1 : ℚ) / 2 = lastTime) := fun h => hlast h.symm
  have hend1 : ¬ (1 = ([0, 1, 2] : List ℚ).length) := by decide
  have hindex1 : ¬ (1 = SIZE_MAX) := by decide
  have hindex2 : SIZE_MAX ≠ 1 := by decide
  refine ⟨?_, ?_, ?_, ?_, ?_, ?_, ?_⟩ <;>
    simp only [DataTarget.calculateMatchValue, scenarioTarget, DataTarget.loaded,
      if_neg htime, lower_bound_scenario_half, if_neg hend1, if_neg hindex1]
  · split_ifs <;>
      simp [World.callErrorIndex, World.SetDataTargetAbort, Call.isCalculateError, List.filter]
  · exact hindex2
  · exact hlast

/-- C4 at a concrete start: `m_lastTime = -1`, abort bounds `-10` and `10`. -/
theorem calculateMatchValue_cache_keys_not_updated_witness :
    ((scenarioTarget InterpolationType.Punctuated (-10) 10 (-1)).calculateMatchValue
        (constantError 1) ⟨false⟩ (1 / 2)).self.m_lastIndex = SIZE_MAX ∧
    ((scenarioTarget InterpolationType.Punctuated (-10) 10 (-1)).calculateMatchValue
        (constantError 1) ⟨false⟩ (1 / 2)).self.m_lastTime = -1 :=
  ⟨(calculateMatchValue_cache_keys_not_updated (-10) 10 (-1) (constantError 1) ⟨false⟩
      (by norm_num)).2.2.2.1,
    (calculateMatchValue_cache_keys_not_updated (-10) 10 (-1) (constantError 1) ⟨false⟩
      (by norm_num)).2.2.2.2.2.1⟩

/-! ## Loading a DataTarget -/

/-- A failed lookup leaves the attribute map as it was. -/
theorem findAttribute_findAttributeFailed (base : NamedObject) (lib : Library)
    (missing name : String) :
    (base.findAttributeFailed lib missing).findAttribute name = base.findAttribute name := rfl

/-- A failed lookup leaves the name as it was. -/
theorem m_name_findAttributeFailed (base : NamedObject) (lib : Library) (missing : String) :
    (base.findAttributeFailed lib missing).m_name = base.m_name := rfl

/-- What the `MatchType` loop leaves: the index and enumerator of the name that
equals `buf`, or `matchTypeCount` and the old `m_matchType`. -/
theorem matchTypeLoop_eq (buf : String) (m : MatchType) :
    matchTypeLoop buf matchTypeCount 0 m =
      if buf = "Linear" then (0, MatchType.Linear)
      else if buf = "Square" then (1, MatchType.Square)
      else if buf = "Raw" then (2, MatchType.Raw)
      else (3, m) := by
  simp only [matchTypeLoop, matchTypeCount, matchTypeStrings, MatchType.ofIndex]
  split_ifs <;> simp_all

/-- What the `InterpolationType` loop leaves: the index and enumerator of the
name that equals `buf`, or `interpolationTypeCount` and the old
`m_interpolationType`. -/
theorem interpolationTypeLoop_eq (buf : String) (m : InterpolationType) :
    interpolationTypeLoop buf interpolationTypeCount 0 m =
      if buf = "Punctuated" then (0, InterpolationType.Punctuated)
      else if buf = "Continuous" then (1, InterpolationType.Continuous)
      else (2, m) := by
  simp only [interpolationTypeLoop, interpolationTypeCount, interpolationTypeStrings,
    InterpolationType.ofIndex]
  split_ifs <;> simp_all

/-- The walk of `std::is_sorted` answers `true` exactly on the non-decreasing
lists. -/
theorem is_sorted_iff (v : List ℚ) : is_sorted v = true ↔ v.Sorted (· ≤ ·) := by
  unfold List.Sorted
  rw [← List.chain'_iff_pairwise]
  induction v with
  | nil => simp [is_sorted]
  | cons a t ih =>
    cases t with
    | nil => simp [is_sorted]
    | cons b rest =>
      rw [List.chain'_cons, ← ih]
      by_cases h : b < a
      · simp [is_sorted, h, not_le.mpr h]
      · simp [is_sorted, h, not_lt.mp h]

/-- C11: when the base load succeeds and `Intercept`, `Slope`, `TargetTimes`,
`MatchType` and `InterpolationType` are present with recognised enum names,
`createFromAttributes` returns the error pointer, with the message stored, when
`TargetTimes` holds no token and when the parsed times are not in non-decreasing
order; otherwise it returns `nullptr` and `targetTimeList` is exactly the parsed
list, which is non-empty and non-decreasing. -/
theorem createFromAttributes_targetTimes (lib : Library) (base base1 : NamedObject)
    (self : DataTarget) (sIntercept sSlope sTimes sMatch sInterpolation : String)
    (hbase : lib.NamedObject_createFromAttributes base = (base1, false))
    (hIntercept : base1.findAttribute "Intercept" = some sIntercept)
    (hSlope : base1.findAttribute "Slope" = some sSlope)
    (hTimes : base1.findAttribute "TargetTimes" = some sTimes)
    (hMatch : base1.findAttribute "MatchType" = some sMatch)
    (hInterpolation : base1.findAttribute "InterpolationType" = some sInterpolation)
    (hMatchName : sMatch = "Linear" ∨ sMatch = "Square" ∨ sMatch = "Raw")
    (hInterpolationName : sInterpolation = "Punctuated" ∨ sInterpolation = "Continuous") :
    (lib.pystring_split sTimes = [] →
      (DataTarget.createFromAttributes lib base self).error
          = some ("DataTarget ID=\"" ++ base1.m_name ++ "\" No times found in TargetTimes") ∧
        (DataTarget.createFromAttributes lib base self).base.m_lastError
          = "DataTarget ID=\"" ++ base1.m_name ++ "\" No times found in TargetTimes") ∧
    (lib.pystring_split sTimes ≠ [] →
      ¬ ((lib.pystring_split sTimes).map lib.GSUtil_Double).Sorted (· ≤ ·) →
      (DataTarget.createFromAttributes lib base self).error
          = some ("DataTarget ID=\"" ++ base1.m_name
              ++ "\" TargetTimes are not in ascending order") ∧
        (DataTarget.createFromAttributes lib base self).base.m_lastError
          = "DataTarget ID=\"" ++ base1.m_name ++ "\" TargetTimes are not in ascending order") ∧
    (lib.pystring_split sTimes ≠ [] →
      ((lib.pystring_split sTimes).map lib.GSUtil_Double).Sorted (· ≤ ·) →
      (DataTarget.createFromAttributes lib base self).error = none ∧
        (DataTarget.createFromAttributes lib base self).self.m_targetTimeList
          = (lib.pystring_split sTimes).map lib.GSUtil_Double ∧
        (DataTarget.createFromAttributes lib base self).self.m_targetTimeList ≠ [] ∧
        (DataTarget.createFromAttributes lib base self).self.m_targetTimeList.Sorted (· ≤ ·)) := by
  refine ⟨?_, ?_, ?_⟩
  · intro hempty
    cases hA : base1.findAttribute "AbortAbove" <;> cases hB : base1.findAttribute "AbortBelow" <;>
      simp [DataTarget.createFromAttributes, hbase, hIntercept, hSlope, hTimes, hA, hB, hempty,
        findAttribute_findAttributeFailed, m_name_findAttributeFailed, LoadResult.lastErrorPtr,
        NamedObject.setLastError]
  · intro hne hunsorted
    have hlen : ¬ (lib.pystring_split sTimes).length = 0 := by
      simpa [List.length_eq_zero] using hne
    have hs : is_sorted ((lib.pystring_split sTimes).map lib.GSUtil_Double) = false := by
      rw [← Bool.not_eq_true, is_sorted_iff]; exact hunsorted
    cases hA : base1.findAttribute "AbortAbove" <;> cases hB : base1.findAttribute "AbortBelow" <;>
      simp [DataTarget.createFromAttributes, hbase, hIntercept, hSlope, hTimes, hA, hB, hlen, hs,
        findAttribute_findAttributeFailed, m_name_findAttributeFailed, LoadResult.lastErrorPtr,
        NamedObject.setLastError]
  · intro hne hsorted
    have hlen : ¬ (lib.pystring_split sTimes).length = 0 := by
      simpa [List.length_eq_zero] using hne
    have hs : is_sorted ((lib.pystring_split sTimes).map lib.GSUtil_Double) = true :=
      (is_sorted_iff _).mpr hsorted
    have hm : ¬ (matchTypeLoop sMatch matchTypeCount 0 self.m_matchType).1 ≥ matchTypeCount := by
      rw [matchTypeLoop_eq]
      rcases hMatchName with h | h | h <;> subst h <;> simp [matchTypeCount]
    have hp : ¬ (interpolationTypeLoop sInterpolation interpolationTypeCount 0
        self.m_interpolationType).1 ≥ interpolationTypeCount := by
      rw [interpolationTypeLoop_eq]
      rcases hInterpolationName with h | h <;> subst h <;> simp [interpolationTypeCount]
    cases hA : base1.findAttribute "AbortAbove" <;> cases hB : base1.findAttribute "AbortBelow" <;>
      simp [DataTarget.createFromAttributes, hbase, hIntercept, hSlope, hTimes, hA, hB, hlen, hs,
        hMatch, hInterpolation, hm, hp, hne, hsorted,
        findAttribute_findAttributeFailed, m_name_findAttributeFailed, LoadResult.lastErrorPtr,
        NamedObject.setLastError]

/-- C11 at concrete inputs: `TargetTimes = "1.0 0.5 2.0"`, the unsorted list of the
specification, is rejected, and `TargetTimes = "0.0 1.0 2.0"` is accepted with
`targetTimeList = [0, 1, 2]`. -/
theorem createFromAttributes_targetTimes_witness :
    (DataTarget.createFromAttributes exampleLibrary
        (exampleAttributes "1.0 0.5 2.0" "Linear" "Punctuated") (DataTarget.fresh (-1))).error
      = some "DataTarget ID=\"T\" TargetTimes are not in ascending order" ∧
    ((DataTarget.createFromAttributes exampleLibrary
        (exampleAttributes "0.0 1.0 2.0" "Linear" "Punctuated") (DataTarget.fresh (-1))).error
      = none ∧
    (DataTarget.createFromAttributes exampleLibrary
        (exampleAttributes "0.0 1.0 2.0" "Linear" "Punctuated")
          (DataTarget.fresh (-1))).self.m_targetTimeList = [0, 1, 2]) := by
  have hsplit1 : exampleLibrary.pystring_split "1.0 0.5 2.0" = ["1.0", "0.5", "2.0"] := by decide
  have hsplit2 : exampleLibrary.pystring_split "0.0 1.0 2.0" = ["0.0", "1.0", "2.0"] := by decide
  have hparsed1 : (exampleLibrary.pystring_split "1.0 0.5 2.0").map exampleLibrary.GSUtil_Double
      = [1, 1 / 2, 2] := by
    rw [hsplit1]; simp [exampleLibrary]
  have hparsed2 : (exampleLibrary.pystring_split "0.0 1.0 2.0").map exampleLibrary.GSUtil_Double
      = [0, 1, 2] := by
    rw [hsplit2]; simp [exampleLibrary]
  have h1 := (createFromAttributes_targetTimes exampleLibrary
    (exampleAttributes "1.0 0.5 2.0" "Linear" "Punctuated")
    (exampleAttributes "1.0 0.5 2.0" "Linear" "Punctuated") (DataTarget.fresh (-1))
    "0.0" "1.0" "1.0 0.5 2.0" "Linear" "Punctuated" rfl (by decide) (by decide) (by decide)
    (by decide) (by decide) (Or.inl rfl) (Or.inl rfl)).2.1
    (by rw [hsplit1]; decide)
    (by rw [hparsed1]; norm_num [List.Sorted])
  have h2 := (createFromAttributes_targetTimes exampleLibrary
    (exampleAttributes "0.0 1.0 2.0" "Linear" "Punctuated")
    (exampleAttributes "0.0 1.0 2.0" "Linear" "Punctuated") (DataTarget.fresh (-1))
    "0.0" "1.0" "0.0 1.0 2.0" "Linear" "Punctuated" rfl (by decide) (by decide) (by decide)
    (by decide) (by decide) (Or.inl rfl) (Or.inl rfl)).2.2
    (by rw [hsplit2]; decide)
    (by rw [hparsed2]; norm_num [List.Sorted])
  exact ⟨h1.1, h2.1, h2.2.1.trans hparsed2⟩

/-- C12: once the load has reached the enum attributes (base load succeeded,
`Intercept`, `Slope` present, `TargetTimes` present, non-empty and
non-decreasing), `createFromAttributes` succeeds if and only if the `MatchType`
string is exactly `"Linear"`, `"Square"` or `"Raw"` and the `InterpolationType`
string is exactly `"Punctuated"` or `"Continuous"`; on success `matchType` and
`interpolationType` are the enumerators of those names; any other `MatchType`
string fails with the message `Unrecognised MatchType <s>` and, after a good
`MatchType`, any other `InterpolationType` string fails with
`Unrecognised InterpolationType <s>` (each message follows the object's
`DataTarget ID="<name>"` tag). -/
theorem createFromAttributes_enum_names (lib : Library) (base base1 : NamedObject)
    (self : DataTarget) (sIntercept sSlope sTimes sMatch sInterpolation : String)
    (hbase : lib.NamedObject_createFromAttributes base = (base1, false))
    (hIntercept : base1.findAttribute "Intercept" = some sIntercept)
    (hSlope : base1.findAttribute "Slope" = some sSlope)
    (hTimes : base1.findAttribute "TargetTimes" = some sTimes)
    (hne : lib.pystring_split sTimes ≠ [])
    (hsorted : ((lib.pystring_split sTimes).map lib.GSUtil_Double).Sorted (· ≤ ·))
    (hMatch : base1.findAttribute "MatchType" = some sMatch)
    (hInterpolation : base1.findAttribute "InterpolationType" = some sInterpolation) :
    ((DataTarget.createFromAttributes lib base self).error = none ↔
      (sMatch = "Linear" ∨ sMatch = "Square" ∨ sMatch = "Raw") ∧
        (sInterpolation = "Punctuated" ∨ sInterpolation = "Continuous")) ∧
    ((DataTarget.createFromAttributes lib base self).error = none →
      matchTypeStrings (DataTarget.createFromAttributes lib base self).self.m_matchType.toIndex
          = sMatch ∧
        interpolationTypeStrings
            (DataTarget.createFromAttributes lib base self).self.m_interpolationType.toIndex
          = sInterpolation) ∧
    (¬ (sMatch = "Linear" ∨ sMatch = "Square" ∨ sMatch = "Raw") →
      (DataTarget.createFromAttributes lib base self).error
        = some ("DataTarget ID=\"" ++ base1.m_name ++ "\" Unrecognised MatchType " ++ sMatch)) ∧
    ((sMatch = "Linear" ∨ sMatch = "Square" ∨ sMatch = "Raw") →
      ¬ (sInterpolation = "Punctuated" ∨ sInterpolation = "Continuous") →
      (DataTarget.createFromAttributes lib base self).error
        = some ("DataTarget ID=\"" ++ base1.m_name ++ "\" Unrecognised InterpolationType "
            ++ sInterpolation)) := by
  have hlen : ¬ (lib.pystring_split sTimes).length = 0 := by
    simpa [List.length_eq_zero] using hne
  have hs : is_sorted ((lib.pystring_split sTimes).map lib.GSUtil_Double) = true :=
    (is_sorted_iff _).mpr hsorted
  cases hA : base1.findAttribute "AbortAbove" <;> cases hB : base1.findAttribute "AbortBelow" <;>
    simp only [DataTarget.createFromAttributes, hbase, hIntercept, hSlope, hTimes, hA, hB, hlen,
      hs, hMatch, hInterpolation, findAttribute_findAttributeFailed, m_name_findAttributeFailed,
      LoadResult.lastErrorPtr, NamedObject.setLastError, matchTypeLoop_eq,
      interpolationTypeLoop_eq] <;>
    by_cases h1 : sMatch = "Linear" <;> by_cases h2 : sMatch = "Square" <;>
    by_cases h3 : sMatch = "Raw" <;> by_cases h4 : sInterpolation = "Punctuated" <;>
    by_cases h5 : sInterpolation = "Continuous" <;>
    simp_all [matchTypeCount, interpolationTypeCount, matchTypeStrings, interpolationTypeStrings,
      MatchType.toIndex, InterpolationType.toIndex]

/-- C12 at concrete inputs: the lower-case `"linear"` is rejected with its
message, and `"Raw"` with `"Continuous"` is accepted. -/
theorem createFromAttributes_enum_names_witness :
    (DataTarget.createFromAttributes exampleLibrary
        (exampleAttributes "0.0 1.0 2.0" "linear" "Punctuated") (DataTarget.fresh (-1))).error
      = some "DataTarget ID=\"T\" Unrecognised MatchType linear" ∧
    (DataTarget.createFromAttributes exampleLibrary
        (exampleAttributes "0.0 1.0 2.0" "Raw" "Continuous") (DataTarget.fresh (-1))).error
      = none := by
  have hsplit : exampleLibrary.pystring_split "0.0 1.0 2.0" = ["0.0", "1.0", "2.0"] := by decide
  have hparsed : (exampleLibrary.pystring_split "0.0 1.0 2.0").map exampleLibrary.GSUtil_Double
      = [0, 1, 2] := by
    rw [hsplit]; simp [exampleLibrary]
  have h1 := (createFromAttributes_enum_names exampleLibrary
    (exampleAttributes "0.0 1.0 2.0" "linear" "Punctuated")
    (exampleAttributes "0.0 1.0 2.0" "linear" "Punctuated") (DataTarget.fresh (-1))
    "0.0" "1.0" "0.0 1.0 2.0" "linear" "Punctuated" rfl (by decide) (by decide) (by decide)
    (by rw [hsplit]; decide) (by rw [hparsed]; norm_num [List.Sorted])
    (by decide) (by decide)).2.2.1 (by decide)
  have h2 := (createFromAttributes_enum_names exampleLibrary
    (exampleAttributes "0.0 1.0 2.0" "Raw" "Continuous")
    (exampleAttributes "0.0 1.0 2.0" "Raw" "Continuous") (DataTarget.fresh (-1))
    "0.0" "1.0" "0.0 1.0 2.0" "Raw" "Continuous" rfl (by decide) (by decide) (by decide)
    (by rw [hsplit]; decide) (by rw [hparsed]; norm_num [List.Sorted])
    (by decide) (by decide)).1.mpr ⟨Or.inr (Or.inr rfl), Or.inr rfl⟩
  exact ⟨h1, h2⟩

/-- The abort bounds a load leaves, on every path that gets past `Slope`: the
parsed attribute where it is present, the old member where it is absent. -/
theorem createFromAttributes_bounds (lib : Library) (base base1 : NamedObject)
    (self : DataTarget) (sIntercept sSlope : String)
    (hbase : lib.NamedObject_createFromAttributes base = (base1, false))
    (hIntercept : base1.findAttribute "Intercept" = some sIntercept)
    (hSlope : base1.findAttribute "Slope" = some sSlope) :
    (DataTarget.createFromAttributes lib base self).self.m_abortAbove
        = (match base1.findAttribute "AbortAbove" with
          | some buf => lib.GSUtil_Double buf
          | none => self.m_abortAbove) ∧
    (DataTarget.createFromAttributes lib base self).self.m_abortBelow
        = (match base1.findAttribute "AbortBelow" with
          | some buf => lib.GSUtil_Double buf
          | none => self.m_abortBelow) := by
  cases hA : base1.findAttribute "AbortAbove" <;> cases hB : base1.findAttribute "AbortBelow" <;>
    simp only [DataTarget.createFromAttributes, hbase, hIntercept, hSlope, hA, hB,
      findAttribute_findAttributeFailed, m_name_findAttributeFailed, LoadResult.lastErrorPtr,
      Bool.false_eq_true, if_false] <;>
    (refine ⟨?_, ?_⟩ <;> (repeat' split) <;> rfl)

/-- A load that finds everything it needs succeeds and leaves exactly the parsed
configuration; the cache members are not touched. -/
theorem createFromAttributes_success (lib : Library) (base base1 : NamedObject)
    (self : DataTarget) (sIntercept sSlope sTimes : String) (mt : MatchType)
    (it : InterpolationType)
    (hbase : lib.NamedObject_createFromAttributes base = (base1, false))
    (hIntercept : base1.findAttribute "Intercept" = some sIntercept)
    (hSlope : base1.findAttribute "Slope" = some sSlope)
    (hTimes : base1.findAttribute "TargetTimes" = some sTimes)
    (hne : lib.pystring_split sTimes ≠ [])
    (hsorted : ((lib.pystring_split sTimes).map lib.GSUtil_Double).Sorted (· ≤ ·))
    (hMatch : base1.findAttribute "MatchType" = some (matchTypeStrings mt.toIndex))
    (hInterpolation : base1.findAttribute "InterpolationType"
      = some (interpolationTypeStrings it.toIndex)) :
    (DataTarget.createFromAttributes lib base self).error = none ∧
    (DataTarget.createFromAttributes lib base self).self =
      { m_intercept := lib.GSUtil_Double sIntercept
        m_slope := lib.GSUtil_Double sSlope
        m_matchType := mt
        m_interpolationType := it
        m_abortBelow := (match base1.findAttribute "AbortBelow" with
          | some buf => lib.GSUtil_Double buf
          | none => self.m_abortBelow)
        m_abortAbove := (match base1.findAttribute "AbortAbove" with
          | some buf => lib.GSUtil_Double buf
          | none => self.m_abortAbove)
        m_targetTimeList := (lib.pystring_split sTimes).map lib.GSUtil_Double
        m_lastIndex := self.m_lastIndex
        m_lastValue := self.m_lastValue
        m_lastTime := self.m_lastTime } := by
  have hlen : ¬ (lib.pystring_split sTimes).length = 0 := by
    simpa [List.length_eq_zero] using hne
  have hs : is_sorted ((lib.pystring_split sTimes).map lib.GSUtil_Double) = true :=
    (is_sorted_iff _).mpr hsorted
  cases hA : base1.findAttribute "AbortAbove" <;> cases hB : base1.findAttribute "AbortBelow" <;>
    simp only [DataTarget.createFromAttributes, hbase, hIntercept, hSlope, hTimes, hA, hB, hlen,
      hs, hMatch, hInterpolation, findAttribute_findAttributeFailed, m_name_findAttributeFailed,
      LoadResult.lastErrorPtr, NamedObject.setLastError, matchTypeLoop_eq,
      interpolationTypeLoop_eq] <;>
    cases mt <;> cases it <;>
    simp [matchTypeCount, interpolationTypeCount, matchTypeStrings, interpolationTypeStrings,
      MatchType.toIndex, InterpolationType.toIndex]

/-- A computed or cached value inside the closed interval of the abort bounds
sends no abort signal. -/
theorem calculateMatchValue_no_abort_inside (self : DataTarget) (err : ErrorSource)
    (sim : Simulation) (time : ℚ)
    (hlow : self.m_abortBelow ≤ (self.calculateMatchValue err sim time).value)
    (hhigh : (self.calculateMatchValue err sim time).value ≤ self.m_abortAbove) :
    Call.SetDataTargetAbort true ∉ (self.calculateMatchValue err sim time).world.calls := by
  revert hlow hhigh
  unfold DataTarget.calculateMatchValue
  cases hmode : self.m_interpolationType <;> simp only [] <;> split_ifs <;>
    simp_all [World.callErrorIndex, World.callErrorTime, World.SetDataTargetAbort,
      Call.isCalculateError, not_lt, not_le]

/-- The largest finite `double` is above 1. -/
theorem one_lt_DBL_MAX : (1 : ℚ) < DBL_MAX := by
  norm_num [DBL_MAX]

/-- C13 (the claim fails): a `DataTarget` loaded on a fresh object without
`AbortAbove` and `AbortBelow` has the finite bound `abortAbove = DBL_MAX`, and a
computed match value can exceed it: with `MatchType = Square`, intercept 0, slope
1 and the error `DBL_MAX`, the value `DBL_MAX * DBL_MAX` is computed and
`SetDataTargetAbort(true)` is sent. -/
theorem createFromAttributes_default_bounds_can_abort :
    (DataTarget.createFromAttributes exampleLibrary
        (exampleAttributes "0.0 1.0 2.0" "Square" "Continuous") (DataTarget.fresh (-1))).error
      = none ∧
    (DataTarget.createFromAttributes exampleLibrary
        (exampleAttributes "0.0 1.0 2.0" "Square" "Continuous")
          (DataTarget.fresh (-1))).self.m_abortAbove = DBL_MAX ∧
    ((DataTarget.createFromAttributes exampleLibrary
        (exampleAttributes "0.0 1.0 2.0" "Square" "Continuous")
          (DataTarget.fresh (-1))).self.calculateMatchValue (constantError DBL_MAX) ⟨false⟩
            (1 / 2)).value = DBL_MAX * DBL_MAX ∧
    Call.SetDataTargetAbort true ∈
      ((DataTarget.createFromAttributes exampleLibrary
        (exampleAttributes "0.0 1.0 2.0" "Square" "Continuous")
          (DataTarget.fresh (-1))).self.calculateMatchValue (constantError DBL_MAX) ⟨false⟩
            (1 / 2)).world.calls := by
  have hsplit : exampleLibrary.pystring_split "0.0 1.0 2.0" = ["0.0", "1.0", "2.0"] := by decide
  have hparsed : (exampleLibrary.pystring_split "0.0 1.0 2.0").map exampleLibrary.GSUtil_Double
      = [0, 1, 2] := by
    rw [hsplit]; simp [exampleLibrary]
  have hsucc := createFromAttributes_success exampleLibrary
    (exampleAttributes "0.0 1.0 2.0" "Square" "Continuous")
    (exampleAttributes "0.0 1.0 2.0" "Square" "Continuous") (DataTarget.fresh (-1))
    "0.0" "1.0" "0.0 1.0 2.0" MatchType.Square InterpolationType.Continuous rfl (by decide)
    (by decide) (by decide) (by rw [hsplit]; decide) (by rw [hparsed]; norm_num [List.Sorted])
    (by decide) (by decide)
  have hA : (exampleAttributes "0.0 1.0 2.0" "Square" "Continuous").findAttribute "AbortAbove"
      = none := by decide
  have hB : (exampleAttributes "0.0 1.0 2.0" "Square" "Continuous").findAttribute "AbortBelow"
      = none := by decide
  have hI : exampleLibrary.GSUtil_Double "0.0" = 0 := by simp [exampleLibrary]
  have hS : exampleLibrary.GSUtil_Double "1.0" = 1 := by simp [exampleLibrary]
  have h1 := one_lt_DBL_MAX
  have hbig : DBL_MAX < DBL_MAX * DBL_MAX := by nlinarith
  have hpos : ¬ (DBL_MAX * DBL_MAX < -DBL_MAX) := by nlinarith
  have htime : ¬ ((2 : ℚ)⁻¹ = -1) := by norm_num
  refine ⟨hsucc.1, ?_, ?_, ?_⟩ <;> rw [hsucc.2]
  · simp [hA, DataTarget.fresh]
  · simp [DataTarget.calculateMatchValue, hA, hB, hI, hS, DataTarget.fresh, htime,
      constantError, DataTarget.positiveFunction]
  · simp [DataTarget.calculateMatchValue, hA, hB, hI, hS, DataTarget.fresh, htime,
      constantError, DataTarget.positiveFunction, hbig, hpos, World.callErrorTime,
      World.SetDataTargetAbort]

/-- C13 (amended): loading on a fresh object gives `abortAbove = DBL_MAX` and
`abortBelow = -DBL_MAX`, the largest finite `double` and its negative, where the
`AbortAbove`, `AbortBelow` attribute is absent, and the parsed attribute value
where it is present; with both absent, no match value in the closed interval
from `-DBL_MAX` to `DBL_MAX` sends an abort signal. -/
theorem createFromAttributes_abort_bounds (lib : Library) (base base1 : NamedObject)
    (lastTime : ℚ) (sIntercept sSlope : String)
    (hbase : lib.NamedObject_createFromAttributes base = (base1, false))
    (hIntercept : base1.findAttribute "Intercept" = some sIntercept)
    (hSlope : base1.findAttribute "Slope" = some sSlope) :
    (base1.findAttribute "AbortAbove" = none →
      (DataTarget.createFromAttributes lib base (DataTarget.fresh lastTime)).self.m_abortAbove
        = DBL_MAX) ∧
    (base1.findAttribute "AbortBelow" = none →
      (DataTarget.createFromAttributes lib base (DataTarget.fresh lastTime)).self.m_abortBelow
        = -DBL_MAX) ∧
    (∀ s, base1.findAttribute "AbortAbove" = some s →
      (DataTarget.createFromAttributes lib base (DataTarget.fresh lastTime)).self.m_abortAbove
        = lib.GSUtil_Double s) ∧
    (∀ s, base1.findAttribute "AbortBelow" = some s →
      (DataTarget.createFromAttributes lib base (DataTarget.fresh lastTime)).self.m_abortBelow
        = lib.GSUtil_Double s) ∧
    (base1.findAttribute "AbortAbove" = none → base1.findAttribute "AbortBelow" = none →
      ∀ (err : ErrorSource) (sim : Simulation) (time : ℚ),
        -DBL_MAX ≤ ((DataTarget.createFromAttributes lib base
            (DataTarget.fresh lastTime)).self.calculateMatchValue err sim time).value →
        ((DataTarget.createFromAttributes lib base
            (DataTarget.fresh lastTime)).self.calculateMatchValue err sim time).value ≤ DBL_MAX →
        Call.SetDataTargetAbort true ∉
          ((DataTarget.createFromAttributes lib base
            (DataTarget.fresh lastTime)).self.calculateMatchValue err sim time).world.calls) := by
  obtain ⟨habove, hbelow⟩ := createFromAttributes_bounds lib base base1 (DataTarget.fresh lastTime)
    sIntercept sSlope hbase hIntercept hSlope
  refine ⟨?_, ?_, ?_, ?_, ?_⟩
  · intro h
    rw [habove, h]
    rfl
  · intro h
    rw [hbelow, h]
    rfl
  · intro s h
    rw [habove, h]
  · intro s h
    rw [hbelow, h]
  · intro hA hB err sim time hlow hhigh
    apply calculateMatchValue_no_abort_inside
    · rw [hbelow, hB]
      exact hlow
    · rw [habove, hA]
      exact hhigh

/-- C13 (amended) at a concrete input: the example attributes carry no abort
bounds, so the loaded bounds are `-DBL_MAX` and `DBL_MAX`. -/
theorem createFromAttributes_abort_bounds_witness :
    (DataTarget.createFromAttributes exampleLibrary
        (exampleAttributes "0.0 1.0 2.0" "Linear" "Punctuated")
          (DataTarget.fresh (-1))).self.m_abortAbove = DBL_MAX ∧
    (DataTarget.createFromAttributes exampleLibrary
        (exampleAttributes "0.0 1.0 2.0" "Linear" "Punctuated")
          (DataTarget.fresh (-1))).self.m_abortBelow = -DBL_MAX :=
  ⟨(createFromAttributes_abort_bounds exampleLibrary
      (exampleAttributes "0.0 1.0 2.0" "Linear" "Punctuated")
      (exampleAttributes "0.0 1.0 2.0" "Linear" "Punctuated") (-1) "0.0" "1.0" rfl (by decide)
      (by decide)).1 (by decide),
    (createFromAttributes_abort_bounds exampleLibrary
      (exampleAttributes "0.0 1.0 2.0" "Linear" "Punctuated")
      (exampleAttributes "0.0 1.0 2.0" "Linear" "Punctuated") (-1) "0.0" "1.0" rfl (by decide)
      (by decide)).2.1 (by decide)⟩

/-! ## Saving and reloading a DataTarget -/

/-- Dropping the entries stored under another name does not change a lookup. -/
theorem lookup_filter_ne (m : List (String × String)) (k name : String) (h : name ≠ k) :
    (m.filter (fun kv => kv.1 != k)).lookup name = m.lookup name := by
  induction m with
  | nil => rfl
  | cons kv rest ih =>
    obtain ⟨k1, v1⟩ := kv
    by_cases hk : k1 = k
    · subst hk
      have hne : (name == k1) = false := by simpa using h
      simp [List.filter, List.lookup, hne, ih]
    · have hk1 : (k1 != k) = true := by simpa using hk
      simp only [List.filter, hk1, List.lookup, ih]

/-- A lookup after `setAttribute`: the value just stored under that name, and
what was stored before under every other name. -/
theorem findAttribute_setAttribute (base : NamedObject) (k v name : String) :
    (base.setAttribute k v).findAttribute name
      = if name = k then some v else base.findAttribute name := by
  by_cases h : name = k
  · subst h
    simp [NamedObject.setAttribute, NamedObject.findAttribute, List.lookup]
  · have hne : (name == k) = false := by simpa using h
    simp only [NamedObject.setAttribute, NamedObject.findAttribute, List.lookup, hne, if_neg h]
    exact lookup_filter_ne _ _ _ h

/-- C14: round trip. For a `DataTarget` with a non-empty non-decreasing
`targetTimeList` and any `matchType` and `interpolationType`, `appendToAttributes`
followed by `createFromAttributes` on a fresh object that carries the emitted
attributes succeeds and reproduces `intercept`, `slope`, `abortBelow`,
`abortAbove`, `matchType`, `interpolationType` and `targetTimeList`, provided the
base class load succeeds on the emitted attributes and leaves them in place, and
the string-to-number conversion inverts the number-to-string conversion on the
four numbers and, token by token, on the list. -/
theorem appendToAttributes_createFromAttributes (lib : Library)
    (saved freshBase base1 : NamedObject) (self : DataTarget) (lastTime : ℚ)
    (hne : self.m_targetTimeList ≠ [])
    (hsorted : self.m_targetTimeList.Sorted (· ≤ ·))
    (hemitted : freshBase.m_attributeMap
      = (DataTarget.appendToAttributes lib saved self).m_attributeMap)
    (hbase : lib.NamedObject_createFromAttributes freshBase = (base1, false))
    (hkept : base1.m_attributeMap = freshBase.m_attributeMap)
    (hintercept : lib.GSUtil_Double (lib.GSUtil_ToString self.m_intercept) = self.m_intercept)
    (hslope : lib.GSUtil_Double (lib.GSUtil_ToString self.m_slope) = self.m_slope)
    (habove : lib.GSUtil_Double (lib.GSUtil_ToString self.m_abortAbove) = self.m_abortAbove)
    (hbelow : lib.GSUtil_Double (lib.GSUtil_ToString self.m_abortBelow) = self.m_abortBelow)
    (htimes : (lib.pystring_split (lib.GSUtil_ToStringArray self.m_targetTimeList)).map
      lib.GSUtil_Double = self.m_targetTimeList) :
    (DataTarget.createFromAttributes lib freshBase (DataTarget.fresh lastTime)).error = none ∧
    (DataTarget.createFromAttributes lib freshBase (DataTarget.fresh lastTime)).self.m_intercept
      = self.m_intercept ∧
    (DataTarget.createFromAttributes lib freshBase (DataTarget.fresh lastTime)).self.m_slope
      = self.m_slope ∧
    (DataTarget.createFromAttributes lib freshBase (DataTarget.fresh lastTime)).self.m_abortBelow
      = self.m_abortBelow ∧
    (DataTarget.createFromAttributes lib freshBase (DataTarget.fresh lastTime)).self.m_abortAbove
      = self.m_abortAbove ∧
    (DataTarget.createFromAttributes lib freshBase (DataTarget.fresh lastTime)).self.m_matchType
      = self.m_matchType ∧
    (DataTarget.createFromAttributes lib freshBase
      (DataTarget.fresh lastTime)).self.m_interpolationType = self.m_interpolationType ∧
    (DataTarget.createFromAttributes lib freshBase
      (DataTarget.fresh lastTime)).self.m_targetTimeList = self.m_targetTimeList := by
  have hfind : ∀ name, base1.findAttribute name
      = (DataTarget.appendToAttributes lib saved self).findAttribute name := by
    intro name
    simp only [NamedObject.findAttribute, hkept, hemitted]
  have hI : base1.findAttribute "Intercept" = some (lib.GSUtil_ToString self.m_intercept) := by
    rw [hfind]
    simp [DataTarget.appendToAttributes, findAttribute_setAttribute]
  have hS : base1.findAttribute "Slope" = some (lib.GSUtil_ToString self.m_slope) := by
    rw [hfind]
    simp [DataTarget.appendToAttributes, findAttribute_setAttribute]
  have hA : base1.findAttribute "AbortAbove" = some (lib.GSUtil_ToString self.m_abortAbove) := by
    rw [hfind]
    simp [DataTarget.appendToAttributes, findAttribute_setAttribute]
  have hB : base1.findAttribute "AbortBelow" = some (lib.GSUtil_ToString self.m_abortBelow) := by
    rw [hfind]
    simp [DataTarget.appendToAttributes, findAttribute_setAttribute]
  have hT : base1.findAttribute "TargetTimes"
      = some (lib.GSUtil_ToStringArray self.m_targetTimeList) := by
    rw [hfind]
    simp [DataTarget.appendToAttributes, findAttribute_setAttribute]
  have hM : base1.findAttribute "MatchType"
      = some (matchTypeStrings self.m_matchType.toIndex) := by
    rw [hfind]
    simp [DataTarget.appendToAttributes, findAttribute_setAttribute]
  have hP : base1.findAttribute "InterpolationType"
      = some (interpolationTypeStrings self.m_interpolationType.toIndex) := by
    rw [hfind]
    simp [DataTarget.appendToAttributes, findAttribute_setAttribute]
  have hsplit : lib.pystring_split (lib.GSUtil_ToStringArray self.m_targetTimeList) ≠ [] := by
    intro h
    rw [h] at htimes
    exact hne htimes.symm
  obtain ⟨herr, hself⟩ := createFromAttributes_success lib freshBase base1
    (DataTarget.fresh lastTime) _ _ _ self.m_matchType self.m_interpolationType hbase hI hS hT
    hsplit (by rw [htimes]; exact hsorted) hM hP
  refine ⟨herr, ?_, ?_, ?_, ?_, ?_, ?_, ?_⟩ <;> rw [hself] <;>
    simp only [hA, hB, hintercept, hslope, habove, hbelow, htimes]

/-- C14 at a concrete input: intercept 0, slope 1, bounds `1/2` and 1, Square,
Continuous, times `[0, 1, 2]`, saved with the example library and reloaded. -/
theorem appendToAttributes_createFromAttributes_witness :
    (DataTarget.createFromAttributes exampleLibrary
      (DataTarget.appendToAttributes exampleLibrary (exampleAttributes "" "" "")
        (DataTarget.loaded 0 1 MatchType.Square InterpolationType.Continuous (1 / 2) 1
          [0, 1, 2] 0))
      (DataTarget.fresh (-1))).error = none ∧
    (DataTarget.createFromAttributes exampleLibrary
      (DataTarget.appendToAttributes exampleLibrary (exampleAttributes "" "" "")
        (DataTarget.loaded 0 1 MatchType.Square InterpolationType.Continuous (1 / 2) 1
          [0, 1, 2] 0))
      (DataTarget.fresh (-1))).self.m_targetTimeList = [0, 1, 2] := by
  have h := appendToAttributes_createFromAttributes exampleLibrary (exampleAttributes "" "" "")
    (DataTarget.appendToAttributes exampleLibrary (exampleAttributes "" "" "")
      (DataTarget.loaded 0 1 MatchType.Square InterpolationType.Continuous (1 / 2) 1
        [0, 1, 2] 0))
    (DataTarget.appendToAttributes exampleLibrary (exampleAttributes "" "" "")
      (DataTarget.loaded 0 1 MatchType.Square InterpolationType.Continuous (1 / 2) 1
        [0, 1, 2] 0))
    (DataTarget.loaded 0 1 MatchType.Square InterpolationType.Continuous (1 / 2) 1 [0, 1, 2] 0)
    (-1)
    (by simp [DataTarget.loaded])
    (by norm_num [DataTarget.loaded, List.Sorted])
    rfl rfl rfl
    (by simp [DataTarget.loaded, exampleLibrary])
    (by simp [DataTarget.loaded, exampleLibrary])
    (by simp [DataTarget.loaded, exampleLibrary])
    (by simp [DataTarget.loaded, exampleLibrary])
    (by simp [DataTarget.loaded, exampleLibrary])
  exact ⟨h.1, h.2.2.2.2.2.2.2⟩

/-! ## BallJoint: stops, axes and attachment -/

/-- The ODE constants `dAMotorUser` and `dAMotorEuler` differ. -/
theorem dAMotorUser_ne_dAMotorEuler : dAMotorUser ≠ dAMotorEuler := by
  decide

/-- The example values of the mode enumerators agree with the ODE constants. -/
theorem exampleModeValue_agree : ModeValuesAgree exampleModeValue :=
  ⟨rfl, rfl, by decide, by decide⟩

/-- C15: for a joint whose mode is `NoStops`, `SetStops` with any six bounds
issues no engine call, so every motor parameter of the engine (the six stop
limits and the three bounce values among them) is what it was. The integer
values of the mode enumerators are taken to agree with the ODE constants. -/
theorem SetStops_NoStops (self : BallJoint) (modeValue : Mode → Int)
    (a0Low a0High a1Low a1High a2Low a2High : ℚ) (store : MotorParams)
    (hmode : self.m_Mode = Mode.NoStops) (hvalues : ModeValuesAgree modeValue) :
    self.SetStops modeValue a0Low a0High a1Low a1High a2Low a2High = [] ∧
    store.applyAll (self.SetStops modeValue a0Low a0High a1Low a1High a2Low a2High)
      = store := by
  obtain ⟨_, _, hu, he⟩ := hvalues
  have hcalls : self.SetStops modeValue a0Low a0High a1Low a1High a2Low a2High = [] := by
    simp only [BallJoint.SetStops, hmode]
    rw [if_neg]
    rintro (h | h)
    · exact he h
    · exact hu h
  rw [hcalls]
  exact ⟨rfl, rfl⟩

/-- C15 at a concrete input: the example joint in mode `NoStops`. -/
theorem SetStops_NoStops_witness :
    (exampleJoint Mode.NoStops []).SetStops exampleModeValue 1 2 3 4 5 6 = [] :=
  (SetStops_NoStops (exampleJoint Mode.NoStops []) exampleModeValue 1 2 3 4 5 6
    (fun _ _ => 0) rfl exampleModeValue_agree).1

/-- C16: for a joint whose mode is `AMotorUser` or `AMotorEuler`, `SetStops`
issues to the motor joint exactly the writes `LoStop1, HiStop1, LoStop2, HiStop2,
LoStop3, HiStop3` with the given values, the same six writes again in the same
order, and then `Bounce1, Bounce2, Bounce3 = 0`; on an engine that stores what
is written the six limits end as the arguments and the three bounce values as
zero. The integer values of the mode enumerators are taken to agree with the
ODE constants. -/
theorem SetStops_motor_modes (self : BallJoint) (modeValue : Mode → Int)
    (a0Low a0High a1Low a1High a2Low a2High : ℚ) (store : MotorParams)
    (hmode : self.m_Mode = Mode.AMotorUser ∨ self.m_Mode = Mode.AMotorEuler)
    (hvalues : ModeValuesAgree modeValue) :
    self.SetStops modeValue a0Low a0High a1Low a1High a2Low a2High =
      [EngineCall.dJointSetAMotorParam self.m_MotorJointID dParam.dParamLoStop1 a0Low,
        EngineCall.dJointSetAMotorParam self.m_MotorJointID dParam.dParamHiStop1 a0High,
        EngineCall.dJointSetAMotorParam self.m_MotorJointID dParam.dParamLoStop2 a1Low,
        EngineCall.dJointSetAMotorParam self.m_MotorJointID dParam.dParamHiStop2 a1High,
        EngineCall.dJointSetAMotorParam self.m_MotorJointID dParam.dParamLoStop3 a2Low,
        EngineCall.dJointSetAMotorParam self.m_MotorJointID dParam.dParamHiStop3 a2High,
        EngineCall.dJointSetAMotorParam self.m_MotorJointID dParam.dParamLoStop1 a0Low,
        EngineCall.dJointSetAMotorParam self.m_MotorJointID dParam.dParamHiStop1 a0High,
        EngineCall.dJointSetAMotorParam self.m_MotorJointID dParam.dParamLoStop2 a1Low,
        EngineCall.dJointSetAMotorParam self.m_MotorJointID dParam.dParamHiStop2 a1High,
        EngineCall.dJointSetAMotorParam self.m_MotorJointID dParam.dParamLoStop3 a2Low,
        EngineCall.dJointSetAMotorParam self.m_MotorJointID dParam.dParamHiStop3 a2High,
        EngineCall.dJointSetAMotorParam self.m_MotorJointID dParam.dParamBounce1 0,
        EngineCall.dJointSetAMotorParam self.m_MotorJointID dParam.dParamBounce2 0,
        EngineCall.dJointSetAMotorParam self.m_MotorJointID dParam.dParamBounce3 0] ∧
    (store.applyAll (self.SetStops modeValue a0Low a0High a1Low a1High a2Low a2High)
        self.m_MotorJointID dParam.dParamLoStop1 = a0Low ∧
      store.applyAll (self.SetStops modeValue a0Low a0High a1Low a1High a2Low a2High)
        self.m_MotorJointID dParam.dParamHiStop1 = a0High ∧
      store.applyAll (self.SetStops modeValue a0Low a0High a1Low a1High a2Low a2High)
        self.m_MotorJointID dParam.dParamLoStop2 = a1Low ∧
      store.applyAll (self.SetStops modeValue a0Low a0High a1Low a1High a2Low a2High)
        self.m_MotorJointID dParam.dParamHiStop2 = a1High ∧
      store.applyAll (self.SetStops modeValue a0Low a0High a1Low a1High a2Low a2High)
        self.m_MotorJointID dParam.dParamLoStop3 = a2Low ∧
      store.applyAll (self.SetStops modeValue a0Low a0High a1Low a1High a2Low a2High)
        self.m_MotorJointID dParam.dParamHiStop3 = a2High ∧
      store.applyAll (self.SetStops modeValue a0Low a0High a1Low a1High a2Low a2High)
        self.m_MotorJointID dParam.dParamBounce1 = 0 ∧
      store.applyAll (self.SetStops modeValue a0Low a0High a1Low a1High a2Low a2High)
        self.m_MotorJointID dParam.dParamBounce2 = 0 ∧
      store.applyAll (self.SetStops modeValue a0Low a0High a1Low a1High a2Low a2High)
        self.m_MotorJointID dParam.dParamBounce3 = 0) := by
  obtain ⟨hu, he, _, _⟩ := hvalues
  have hcond : modeValue self.m_Mode = dAMotorEuler ∨ modeValue self.m_Mode = dAMotorUser := by
    rcases hmode with h | h
    · exact Or.inr (by rw [h, hu])
    · exact Or.inl (by rw [h, he])
  unfold BallJoint.SetStops
  rw [if_pos hcond]
  refine ⟨rfl, ?_⟩
  simp [MotorParams.applyAll, MotorParams.apply]

/-- C16 at a concrete input: the example joint in mode `AMotorEuler`; the last
three calls zero the bounce values. -/
theorem SetStops_motor_modes_witness :
    ((exampleJoint Mode.AMotorEuler []).SetStops exampleModeValue 1 2 3 4 5 6).drop 12 =
      [EngineCall.dJointSetAMotorParam 11 dParam.dParamBounce1 0,
        EngineCall.dJointSetAMotorParam 11 dParam.dParamBounce2 0,
        EngineCall.dJointSetAMotorParam 11 dParam.dParamBounce3 0] := by
  rw [(SetStops_motor_modes (exampleJoint Mode.AMotorEuler []) exampleModeValue 1 2 3 4 5 6
    (fun _ _ => 0) (Or.inr rfl) exampleModeValue_agree).1]
  rfl

/-- C17: for a joint whose mode is `AMotorEuler`, `SetAxes` sets the motor to
Euler mode and assigns axis 0 relative to body 1 from `(x0, y0, z0)` and axis 2
relative to body 2 from `(x2, y2, z2)`, and nothing else: no call assigns
axis 1, and the calls are the same whatever the axis-1 vector and `axisMode`
are. The integer values of the mode enumerators are taken to agree with the
ODE constants. -/
theorem SetAxes_AMotorEuler (self : BallJoint) (modeValue : Mode → Int)
    (x0 y0 z0 x1 y1 z1 x2 y2 z2 : ℚ) (axisMode : Int)
    (hmode : self.m_Mode = Mode.AMotorEuler) (hvalues : ModeValuesAgree modeValue) :
    self.SetAxes modeValue x0 y0 z0 x1 y1 z1 x2 y2 z2 axisMode =
      [EngineCall.dJointSetAMotorMode self.m_MotorJointID dAMotorEuler,
        EngineCall.dJointSetAMotorAxis self.m_MotorJointID 0 1 x0 y0 z0,
        EngineCall.dJointSetAMotorAxis self.m_MotorJointID 2 2 x2 y2 z2] ∧
    (∀ (joint : Nat) (rel : Int) (x y z : ℚ),
      EngineCall.dJointSetAMotorAxis joint 1 rel x y z ∉
        self.SetAxes modeValue x0 y0 z0 x1 y1 z1 x2 y2 z2 axisMode) ∧
    (∀ (x1' y1' z1' : ℚ) (axisMode' : Int),
      self.SetAxes modeValue x0 y0 z0 x1' y1' z1' x2 y2 z2 axisMode'
        = self.SetAxes modeValue x0 y0 z0 x1 y1 z1 x2 y2 z2 axisMode) := by
  obtain ⟨_, he, _, _⟩ := hvalues
  have hcond : modeValue self.m_Mode = dAMotorEuler := by rw [hmode, he]
  have hcalls : ∀ (a b c : ℚ) (m : Int), self.SetAxes modeValue x0 y0 z0 a b c x2 y2 z2 m =
      [EngineCall.dJointSetAMotorMode self.m_MotorJointID dAMotorEuler,
        EngineCall.dJointSetAMotorAxis self.m_MotorJointID 0 1 x0 y0 z0,
        EngineCall.dJointSetAMotorAxis self.m_MotorJointID 2 2 x2 y2 z2] := by
    intro a b c m
    unfold BallJoint.SetAxes
    rw [if_pos hcond]
  refine ⟨hcalls _ _ _ _, ?_, ?_⟩
  · intro joint rel x y z
    rw [hcalls]
    simp
  · intro a b c m
    rw [hcalls, hcalls]

/-- C17 at a concrete input: the example joint in mode `AMotorEuler`. -/
theorem SetAxes_AMotorEuler_witness :
    (exampleJoint Mode.AMotorEuler []).SetAxes exampleModeValue 1 0 0 0 1 0 0 0 1 1 =
      [EngineCall.dJointSetAMotorMode 11 1,
        EngineCall.dJointSetAMotorAxis 11 0 1 1 0 0,
        EngineCall.dJointSetAMotorAxis 11 2 2 0 0 1] :=
  (SetAxes_AMotorEuler (exampleJoint Mode.AMotorEuler []) exampleModeValue 1 0 0 0 1 0 0 0 1 1
    rfl exampleModeValue_agree).1

/-- C18: for a joint whose mode is `AMotorUser`, `SetAxes` sets the motor to user
mode with 3 axes and assigns axis 0, axis 1 and axis 2 to the three given
vectors, each with the given `axisMode` as its reference frame. The integer
values of the mode enumerators are taken to agree with the ODE constants. -/
theorem SetAxes_AMotorUser (self : BallJoint) (modeValue : Mode → Int)
    (x0 y0 z0 x1 y1 z1 x2 y2 z2 : ℚ) (axisMode : Int)
    (hmode : self.m_Mode = Mode.AMotorUser) (hvalues : ModeValuesAgree modeValue) :
    self.SetAxes modeValue x0 y0 z0 x1 y1 z1 x2 y2 z2 axisMode =
      [EngineCall.dJointSetAMotorMode self.m_MotorJointID dAMotorUser,
        EngineCall.dJointSetAMotorNumAxes self.m_MotorJointID 3,
        EngineCall.dJointSetAMotorAxis self.m_MotorJointID 0 axisMode x0 y0 z0,
        EngineCall.dJointSetAMotorAxis self.m_MotorJointID 1 axisMode x1 y1 z1,
        EngineCall.dJointSetAMotorAxis self.m_MotorJointID 2 axisMode x2 y2 z2] := by
  obtain ⟨hu, _, _, _⟩ := hvalues
  have hcond : modeValue self.m_Mode = dAMotorUser := by rw [hmode, hu]
  have hnot : ¬ modeValue self.m_Mode = dAMotorEuler := by
    rw [hcond]
    exact dAMotorUser_ne_dAMotorEuler
  unfold BallJoint.SetAxes
  rw [if_neg hnot, if_pos hcond]

/-- C18 at a concrete input: the example joint in mode `AMotorUser`, axes given
relative to body 2. -/
theorem SetAxes_AMotorUser_witness :
    (exampleJoint Mode.AMotorUser []).SetAxes exampleModeValue 1 0 0 0 1 0 0 0 1 2 =
      [EngineCall.dJointSetAMotorMode 11 0,
        EngineCall.dJointSetAMotorNumAxes 11 3,
        EngineCall.dJointSetAMotorAxis 11 0 2 1 0 0,
        EngineCall.dJointSetAMotorAxis 11 1 2 0 1 0,
        EngineCall.dJointSetAMotorAxis 11 2 2 0 0 1] :=
  SetAxes_AMotorUser (exampleJoint Mode.AMotorUser []) exampleModeValue 1 0 0 0 1 0 0 0 1 2
    rfl exampleModeValue_agree

/-- C19: for bodies that are not both null, `Attach(body1, body2)` returns
normally (no assertion failure, no null dereference) whether or not the
assertion is compiled in, records the two bodies as the joint's bodies, and
attaches the ball joint and then the motor joint to the same pair of engine
bodies, a null body being passed to the engine as null. The assertion fails
exactly when both bodies are null, and with the assertion compiled out that is
the call that dereferences a null body. -/
theorem Attach_bodies (self : BallJoint) (NDEBUG : Bool) (body1 body2 : Option Body)
    (hbodies : body1 ≠ none ∨ body2 ≠ none) :
    self.Attach NDEBUG body1 body2 =
      Except.ok ({ self with m_Body1 := body1, m_Body2 := body2 },
        [EngineCall.dJointAttach self.m_JointID (body1.map Body.m_BodyID)
            (body2.map Body.m_BodyID),
          EngineCall.dJointAttach self.m_MotorJointID (body1.map Body.m_BodyID)
            (body2.map Body.m_BodyID)]) ∧
    (∀ b1 b2 : Option Body,
      self.Attach false b1 b2 = Except.error Fault.assertionFailed ↔ b1 = none ∧ b2 = none) ∧
    self.Attach true none none = Except.error Fault.nullDereference := by
  refine ⟨?_, ?_, ?_⟩
  · cases body1 <;> cases body2 <;>
      simp_all [BallJoint.Attach, BallJoint.setBody1, BallJoint.setBody2, GetBodyID, bind,
        Except.bind, pure, Except.pure]
  · intro b1 b2
    cases b1 <;> cases b2 <;>
      simp [BallJoint.Attach, BallJoint.setBody1, BallJoint.setBody2, GetBodyID, bind,
        Except.bind, pure, Except.pure]
  · simp [BallJoint.Attach, BallJoint.setBody1, BallJoint.setBody2, GetBodyID, bind,
      Except.bind]

/-- C19 at a concrete input: the example joint attached to the world and to the
body with engine handle 5. -/
theorem Attach_bodies_witness :
    (exampleJoint Mode.NoStops []).Attach false none (some ⟨5⟩) =
      Except.ok ({ exampleJoint Mode.NoStops [] with m_Body1 := none, m_Body2 := some ⟨5⟩ },
        [EngineCall.dJointAttach 10 none (some 5), EngineCall.dJointAttach 11 none (some 5)]) :=
  (Attach_bodies (exampleJoint Mode.NoStops []) false none (some ⟨5⟩)
    (Or.inr (by decide))).1

/-! ## Loading a BallJoint -/

/-- The three mode names are the attribute values of the three modes. -/
theorem exists_mode_attributeValue (s : String) :
    (∃ mode : Mode, s = mode.attributeValue) ↔
      s = "NoStops" ∨ s = "AMotorUser" ∨ s = "AMotorEuler" := by
  constructor
  · rintro ⟨mode, h⟩
    cases mode
    · exact Or.inl h
    · exact Or.inr (Or.inl h)
    · exact Or.inr (Or.inr h)
  · rintro (h | h | h)
    · exact ⟨Mode.NoStops, h⟩
    · exact ⟨Mode.AMotorUser, h⟩
    · exact ⟨Mode.AMotorEuler, h⟩

/-- A load whose `Mode` attribute is missing or names no mode fails; a name that
is not a mode leaves the `unrecognised Mode` message. -/
theorem BallJoint_CreateFromAttributes_bad_mode (lib : Library) (modeValue : Mode → Int)
    (jointLoad : BallJoint → BallJoint × Bool) (self self1 : BallJoint)
    (hbase : jointLoad self = (self1, false)) :
    (self1.base.findAttribute "Mode" = none →
      (BallJoint.CreateFromAttributes lib modeValue jointLoad self).error ≠ none) ∧
    (∀ s, self1.base.findAttribute "Mode" = some s →
      ¬ (s = "NoStops" ∨ s = "AMotorUser" ∨ s = "AMotorEuler") →
      (BallJoint.CreateFromAttributes lib modeValue jointLoad self).error
          = some ("Joint ID=\"" ++ self1.base.m_name ++ "\" unrecognised Mode") ∧
        (BallJoint.CreateFromAttributes lib modeValue jointLoad self).self.base.m_lastError
          = "Joint ID=\"" ++ self1.base.m_name ++ "\" unrecognised Mode") := by
  refine ⟨?_, ?_⟩
  · intro hM
    simp [BallJoint.CreateFromAttributes, hbase, hM, JointLoadResult.lastErrorPtr]
  · intro s hM hs
    have h1 : ¬ s = "NoStops" := fun h => hs (Or.inl h)
    have h2 : ¬ s = "AMotorUser" := fun h => hs (Or.inr (Or.inl h))
    have h3 : ¬ s = "AMotorEuler" := fun h => hs (Or.inr (Or.inr h))
    simp [BallJoint.CreateFromAttributes, hbase, hM, h1, h2, h3, JointLoadResult.lastErrorPtr,
      NamedObject.setLastError]

/-- A load whose `Mode` attribute is `NoStops` succeeds, sets the mode and issues
the anchor and axes calls only. -/
theorem BallJoint_CreateFromAttributes_NoStops (lib : Library) (modeValue : Mode → Int)
    (jointLoad : BallJoint → BallJoint × Bool) (self self1 : BallJoint)
    (hbase : jointLoad self = (self1, false))
    (hM : self1.base.findAttribute "Mode" = some "NoStops") :
    BallJoint.CreateFromAttributes lib modeValue jointLoad self
      = ⟨{ self1 with m_Mode := Mode.NoStops }, self1.CreateFromAttributes_setup modeValue,
          none⟩ := by
  simp [BallJoint.CreateFromAttributes, hbase, hM]

/-- A load whose `Mode` attribute names a stop mode: it succeeds exactly when all
six stop attributes are present, and then it sets the mode and follows the
anchor and axes calls with one `SetStops` on the six converted angles. -/
theorem BallJoint_CreateFromAttributes_stops (lib : Library) (modeValue : Mode → Int)
    (jointLoad : BallJoint → BallJoint × Bool) (self self1 : BallJoint) (mode : Mode)
    (hbase : jointLoad self = (self1, false))
    (hmode : mode ≠ Mode.NoStops)
    (hM : self1.base.findAttribute "Mode" = some mode.attributeValue) :
    ((BallJoint.CreateFromAttributes lib modeValue jointLoad self).error = none ↔
      ∀ name ∈ ["LowStop0", "HighStop0", "LowStop1", "HighStop1", "LowStop2", "HighStop2"],
        self1.base.findAttribute name ≠ none) ∧
    (∀ s0 s1 s2 s3 s4 s5 : String,
      self1.base.findAttribute "LowStop0" = some s0 →
      self1.base.findAttribute "HighStop0" = some s1 →
      self1.base.findAttribute "LowStop1" = some s2 →
      self1.base.findAttribute "HighStop1" = some s3 →
      self1.base.findAttribute "LowStop2" = some s4 →
      self1.base.findAttribute "HighStop2" = some s5 →
      BallJoint.CreateFromAttributes lib modeValue jointLoad self
        = ⟨{ self1 with m_Mode := mode },
            self1.CreateFromAttributes_setup modeValue ++
              { self1 with m_Mode := mode }.SetStops modeValue
                (lib.GSUtil_GetAngle s0) (lib.GSUtil_GetAngle s1) (lib.GSUtil_GetAngle s2)
                (lib.GSUtil_GetAngle s3) (lib.GSUtil_GetAngle s4) (lib.GSUtil_GetAngle s5),
            none⟩) := by
  refine ⟨?_, ?_⟩
  · cases mode with
    | NoStops => exact absurd rfl hmode
    | AMotorUser =>
      cases h0 : self1.base.findAttribute "LowStop0" <;>
      cases h1 : self1.base.findAttribute "HighStop0" <;>
      cases h2 : self1.base.findAttribute "LowStop1" <;>
      cases h3 : self1.base.findAttribute "HighStop1" <;>
      cases h4 : self1.base.findAttribute "LowStop2" <;>
      cases h5 : self1.base.findAttribute "HighStop2" <;>
      simp [BallJoint.CreateFromAttributes, hbase, hM, Mode.attributeValue, h0, h1, h2, h3, h4,
        h5, JointLoadResult.lastErrorPtr]
    | AMotorEuler =>
      cases h0 : self1.base.findAttribute "LowStop0" <;>
      cases h1 : self1.base.findAttribute "HighStop0" <;>
      cases h2 : self1.base.findAttribute "LowStop1" <;>
      cases h3 : self1.base.findAttribute "HighStop1" <;>
      cases h4 : self1.base.findAttribute "LowStop2" <;>
      cases h5 : self1.base.findAttribute "HighStop2" <;>
      simp [BallJoint.CreateFromAttributes, hbase, hM, Mode.attributeValue, h0, h1, h2, h3, h4,
        h5, JointLoadResult.lastErrorPtr]
  · intro s0 s1 s2 s3 s4 s5 h0 h1 h2 h3 h4 h5
    cases mode with
    | NoStops => exact absurd rfl hmode
    | AMotorUser =>
      simp [BallJoint.CreateFromAttributes, hbase, hM, Mode.attributeValue, h0, h1, h2, h3, h4,
        h5]
    | AMotorEuler =>
      simp [BallJoint.CreateFromAttributes, hbase, hM, Mode.attributeValue, h0, h1, h2, h3, h4,
        h5]

/-- C20: when the base `Joint` load succeeds, `BallJoint::CreateFromAttributes`
succeeds if and only if the `Mode` attribute is present and is exactly
`"NoStops"`, `"AMotorUser"` or `"AMotorEuler"` and, for the two stop modes, all
of `LowStop0`, `HighStop0`, `LowStop1`, `HighStop1`, `LowStop2`, `HighStop2` are
present. On success the joint's mode is the named mode; for `NoStops` only the
anchor and axes calls are issued, and for a stop mode they are followed by one
`SetStops` on the six converted angles in the order low0, high0, low1, high1,
low2, high2. A `Mode` that is none of the three names fails with the message
`Joint ID="<name>" unrecognised Mode`. -/
theorem BallJoint_CreateFromAttributes_mode (lib : Library) (modeValue : Mode → Int)
    (jointLoad : BallJoint → BallJoint × Bool) (self self1 : BallJoint)
    (hbase : jointLoad self = (self1, false)) :
    ((BallJoint.CreateFromAttributes lib modeValue jointLoad self).error = none ↔
      ∃ mode : Mode, self1.base.findAttribute "Mode" = some mode.attributeValue ∧
        (mode ≠ Mode.NoStops →
          ∀ name ∈ ["LowStop0", "HighStop0", "LowStop1", "HighStop1", "LowStop2", "HighStop2"],
            self1.base.findAttribute name ≠ none)) ∧
    (∀ mode : Mode, self1.base.findAttribute "Mode" = some mode.attributeValue →
      (BallJoint.CreateFromAttributes lib modeValue jointLoad self).error = none →
      (BallJoint.CreateFromAttributes lib modeValue jointLoad self).self.m_Mode = mode ∧
        (mode = Mode.NoStops →
          (BallJoint.CreateFromAttributes lib modeValue jointLoad self).calls
            = self1.CreateFromAttributes_setup modeValue)) ∧
    (∀ (mode : Mode) (s0 s1 s2 s3 s4 s5 : String), mode ≠ Mode.NoStops →
      self1.base.findAttribute "Mode" = some mode.attributeValue →
      self1.base.findAttribute "LowStop0" = some s0 →
      self1.base.findAttribute "HighStop0" = some s1 →
      self1.base.findAttribute "LowStop1" = some s2 →
      self1.base.findAttribute "HighStop1" = some s3 →
      self1.base.findAttribute "LowStop2" = some s4 →
      self1.base.findAttribute "HighStop2" = some s5 →
      (BallJoint.CreateFromAttributes lib modeValue jointLoad self).error = none ∧
        (BallJoint.CreateFromAttributes lib modeValue jointLoad self).self.m_Mode = mode ∧
        (BallJoint.CreateFromAttributes lib modeValue jointLoad self).calls
          = self1.CreateFromAttributes_setup modeValue ++
              { self1 with m_Mode := mode }.SetStops modeValue
                (lib.GSUtil_GetAngle s0) (lib.GSUtil_GetAngle s1) (lib.GSUtil_GetAngle s2)
                (lib.GSUtil_GetAngle s3) (lib.GSUtil_GetAngle s4) (lib.GSUtil_GetAngle s5)) ∧
    (∀ s, self1.base.findAttribute "Mode" = some s →
      ¬ (s = "NoStops" ∨ s = "AMotorUser" ∨ s = "AMotorEuler") →
      (BallJoint.CreateFromAttributes lib modeValue jointLoad self).error
          = some ("Joint ID=\"" ++ self1.base.m_name ++ "\" unrecognised Mode") ∧
        (BallJoint.CreateFromAttributes lib modeValue jointLoad self).self.base.m_lastError
          = "Joint ID=\"" ++ self1.base.m_name ++ "\" unrecognised Mode") := by
  obtain ⟨hmissing, hbad⟩ :=
    BallJoint_CreateFromAttributes_bad_mode lib modeValue jointLoad self self1 hbase
  have hstops : ∀ (mode : Mode) (s0 s1 s2 s3 s4 s5 : String), mode ≠ Mode.NoStops →
      self1.base.findAttribute "Mode" = some mode.attributeValue →
      self1.base.findAttribute "LowStop0" = some s0 →
      self1.base.findAttribute "HighStop0" = some s1 →
      self1.base.findAttribute "LowStop1" = some s2 →
      self1.base.findAttribute "HighStop1" = some s3 →
      self1.base.findAttribute "LowStop2" = some s4 →
      self1.base.findAttribute "HighStop2" = some s5 →
      (BallJoint.CreateFromAttributes lib modeValue jointLoad self).error = none ∧
        (BallJoint.CreateFromAttributes lib modeValue jointLoad self).self.m_Mode = mode ∧
        (BallJoint.CreateFromAttributes lib modeValue jointLoad self).calls
          = self1.CreateFromAttributes_setup modeValue ++
              { self1 with m_Mode := mode }.SetStops modeValue
                (lib.GSUtil_GetAngle s0) (lib.GSUtil_GetAngle s1) (lib.GSUtil_GetAngle s2)
                (lib.GSUtil_GetAngle s3) (lib.GSUtil_GetAngle s4) (lib.GSUtil_GetAngle s5) := by
    intro mode s0 s1 s2 s3 s4 s5 hmode hM h0 h1 h2 h3 h4 h5
    rw [(BallJoint_CreateFromAttributes_stops lib modeValue jointLoad self self1 mode hbase hmode
      hM).2 s0 s1 s2 s3 s4 s5 h0 h1 h2 h3 h4 h5]
    exact ⟨rfl, rfl, rfl⟩
  refine ⟨⟨?_, ?_⟩, ?_, hstops, hbad⟩
  · intro herr
    cases hM : self1.base.findAttribute "Mode" with
    | none => exact absurd herr (hmissing hM)
    | some s =>
      by_cases hs : s = "NoStops" ∨ s = "AMotorUser" ∨ s = "AMotorEuler"
      · obtain ⟨mode, hname⟩ := (exists_mode_attributeValue s).mpr hs
        subst hname
        refine ⟨mode, rfl, fun hmode => ?_⟩
        exact (BallJoint_CreateFromAttributes_stops lib modeValue jointLoad self self1 mode hbase
          hmode hM).1.mp herr
      · rw [(hbad s hM hs).1] at herr
        exact absurd herr (by simp)
  · rintro ⟨mode, hM, hall⟩
    by_cases hmode : mode = Mode.NoStops
    · subst hmode
      rw [BallJoint_CreateFromAttributes_NoStops lib modeValue jointLoad self self1 hbase hM]
    · exact (BallJoint_CreateFromAttributes_stops lib modeValue jointLoad self self1 mode hbase
        hmode hM).1.mpr (hall hmode)
  · intro mode hM herr
    by_cases hmode : mode = Mode.NoStops
    · subst hmode
      rw [BallJoint_CreateFromAttributes_NoStops lib modeValue jointLoad self self1 hbase hM]
      exact ⟨rfl, fun _ => rfl⟩
    · have hall := (BallJoint_CreateFromAttributes_stops lib modeValue jointLoad self self1 mode
        hbase hmode hM).1.mp herr
      obtain ⟨s0, h0⟩ := Option.ne_none_iff_exists'.mp (hall "LowStop0" (by simp))
      obtain ⟨s1, h1⟩ := Option.ne_none_iff_exists'.mp (hall "HighStop0" (by simp))
      obtain ⟨s2, h2⟩ := Option.ne_none_iff_exists'.mp (hall "LowStop1" (by simp))
      obtain ⟨s3, h3⟩ := Option.ne_none_iff_exists'.mp (hall "HighStop1" (by simp))
      obtain ⟨s4, h4⟩ := Option.ne_none_iff_exists'.mp (hall "LowStop2" (by simp))
      obtain ⟨s5, h5⟩ := Option.ne_none_iff_exists'.mp (hall "HighStop2" (by simp))
      exact ⟨(hstops mode s0 s1 s2 s3 s4 s5 hmode hM h0 h1 h2 h3 h4 h5).2.1,
        fun h => absurd h hmode⟩

/-- C20 at concrete inputs: a joint constructed in mode `NoStops` whose
attributes name `AMotorUser` and carry all six stops loads and ends in mode
`AMotorUser`; the lower-case `"nostops"` is rejected with the message. -/
theorem BallJoint_CreateFromAttributes_mode_witness :
    ((BallJoint.CreateFromAttributes exampleLibrary exampleModeValue (fun joint => (joint, false))
        (exampleJoint Mode.NoStops (exampleStops "AMotorUser"))).error = none ∧
      (BallJoint.CreateFromAttributes exampleLibrary exampleModeValue
        (fun joint => (joint, false))
        (exampleJoint Mode.NoStops (exampleStops "AMotorUser"))).self.m_Mode
          = Mode.AMotorUser) ∧
    (BallJoint.CreateFromAttributes exampleLibrary exampleModeValue (fun joint => (joint, false))
        (exampleJoint Mode.NoStops (exampleStops "nostops"))).error
      = some "Joint ID=\"J\" unrecognised Mode" := by
  have h1 := (BallJoint_CreateFromAttributes_mode exampleLibrary exampleModeValue
    (fun joint => (joint, false)) (exampleJoint Mode.NoStops (exampleStops "AMotorUser"))
    (exampleJoint Mode.NoStops (exampleStops "AMotorUser")) rfl).2.2.1 Mode.AMotorUser
    "0.5" "1.0" "0.5" "1.0" "0.5" "2.0" (by decide) (by decide) (by decide) (by decide)
    (by decide) (by decide) (by decide) (by decide)
  have h2 := (BallJoint_CreateFromAttributes_mode exampleLibrary exampleModeValue
    (fun joint => (joint, false)) (exampleJoint Mode.NoStops (exampleStops "nostops"))
    (exampleJoint Mode.NoStops (exampleStops "nostops")) rfl).2.2.2 "nostops" (by decide)
    (by decide)
  exact ⟨⟨h1.1, h1.2.1⟩, h2.1⟩

/-! ## Further properties of the DataTarget and the BallJoint load -/

/-- C25: when `matchType` is `Raw`, a name that the `MatchType` loop of
`createFromAttributes` accepts, `positiveFunction` returns 0 for every `v`, so
every computed match value (a valid answer to a query time other than
`lastTime`) equals `intercept`, whatever the error and the slope are. -/
theorem positiveFunction_Raw (self : DataTarget) (err : ErrorSource) (sim : Simulation)
    (time : ℚ) (hraw : self.m_matchType = MatchType.Raw) :
    (∀ v, self.positiveFunction v = 0) ∧
    (time ≠ self.m_lastTime → (self.calculateMatchValue err sim time).valid = true →
      (self.calculateMatchValue err sim time).value = self.m_intercept) ∧
    (∀ m, (matchTypeLoop "Raw" matchTypeCount 0 m).1 < matchTypeCount ∧
      (matchTypeLoop "Raw" matchTypeCount 0 m).2 = MatchType.Raw) := by
  have hzero : ∀ v, self.positiveFunction v = 0 := by
    intro v
    simp only [DataTarget.positiveFunction, hraw]
  refine ⟨hzero, ?_, ?_⟩
  · intro htime
    unfold DataTarget.calculateMatchValue
    cases hmode : self.m_interpolationType <;> simp only [if_neg htime] <;> (try split_ifs) <;>
      simp [hzero]
  · intro m
    rw [matchTypeLoop_eq]
    simp [matchTypeCount]

/-- C25 at a concrete input: `Raw`, intercept 3, slope 5, error 7 at query
`1/2` gives the value 3. -/
theorem positiveFunction_Raw_witness :
    ((DataTarget.loaded 3 5 MatchType.Raw InterpolationType.Continuous (-10) 10 [0, 1, 2]
        (-1)).calculateMatchValue (constantError 7) ⟨false⟩ (1 / 2)).value = 3 :=
  (positiveFunction_Raw
    (DataTarget.loaded 3 5 MatchType.Raw InterpolationType.Continuous (-10) 10 [0, 1, 2] (-1))
    (constantError 7) ⟨false⟩ (1 / 2) rfl).2.1 (by norm_num [DataTarget.loaded])
    (by norm_num [DataTarget.calculateMatchValue, DataTarget.loaded])

/-- C27: a failing `createFromAttributes` is not atomic. When the load gets as
far as a non-empty `TargetTimes` and then fails, because the parsed times are not
non-decreasing, or because `MatchType` is unrecognised, or because
`InterpolationType` is unrecognised, the object it leaves has `intercept` and
`slope` overwritten with the parsed values, each supplied abort bound
overwritten with its parsed value, and `targetTimeList` overwritten with the
parsed list; after the first kind of failure that is the rejected unsorted
list. -/
theorem createFromAttributes_failure_not_atomic (lib : Library) (base base1 : NamedObject)
    (self : DataTarget) (sIntercept sSlope sTimes : String)
    (hbase : lib.NamedObject_createFromAttributes base = (base1, false))
    (hIntercept : base1.findAttribute "Intercept" = some sIntercept)
    (hSlope : base1.findAttribute "Slope" = some sSlope)
    (hTimes : base1.findAttribute "TargetTimes" = some sTimes)
    (hne : lib.pystring_split sTimes ≠ [])
    (hfails : ¬ ((lib.pystring_split sTimes).map lib.GSUtil_Double).Sorted (· ≤ ·) ∨
      (∃ sMatch, base1.findAttribute "MatchType" = some sMatch ∧
        ¬ (sMatch = "Linear" ∨ sMatch = "Square" ∨ sMatch = "Raw")) ∨
      (∃ sMatch sInterpolation, base1.findAttribute "MatchType" = some sMatch ∧
        (sMatch = "Linear" ∨ sMatch = "Square" ∨ sMatch = "Raw") ∧
        base1.findAttribute "InterpolationType" = some sInterpolation ∧
        ¬ (sInterpolation = "Punctuated" ∨ sInterpolation = "Continuous"))) :
    (DataTarget.createFromAttributes lib base self).error ≠ none ∧
    (DataTarget.createFromAttributes lib base self).self.m_intercept
      = lib.GSUtil_Double sIntercept ∧
    (DataTarget.createFromAttributes lib base self).self.m_slope = lib.GSUtil_Double sSlope ∧
    (∀ s, base1.findAttribute "AbortAbove" = some s →
      (DataTarget.createFromAttributes lib base self).self.m_abortAbove = lib.GSUtil_Double s) ∧
    (∀ s, base1.findAttribute "AbortBelow" = some s →
      (DataTarget.createFromAttributes lib base self).self.m_abortBelow = lib.GSUtil_Double s) ∧
    (DataTarget.createFromAttributes lib base self).self.m_targetTimeList
      = (lib.pystring_split sTimes).map lib.GSUtil_Double := by
  have hlen : ¬ (lib.pystring_split sTimes).length = 0 := by
    simpa [List.length_eq_zero] using hne
  obtain ⟨habove, hbelow⟩ := createFromAttributes_bounds lib base base1 self sIntercept sSlope
    hbase hIntercept hSlope
  refine ⟨?_, ?_, ?_, fun s h => by rw [habove, h], fun s h => by rw [hbelow, h], ?_⟩ <;>
  · by_cases hsorted : ((lib.pystring_split sTimes).map lib.GSUtil_Double).Sorted (· ≤ ·)
    · have hs : is_sorted ((lib.pystring_split sTimes).map lib.GSUtil_Double) = true :=
        (is_sorted_iff _).mpr hsorted
      rcases hfails with h | ⟨sMatch, hM, hbad⟩ | ⟨sMatch, sInterpolation, hM, hgood, hP, hbad⟩
      · exact absurd hsorted h
      · have h1 : ¬ sMatch = "Linear" := fun h => hbad (Or.inl h)
        have h2 : ¬ sMatch = "Square" := fun h => hbad (Or.inr (Or.inl h))
        have h3 : ¬ sMatch = "Raw" := fun h => hbad (Or.inr (Or.inr h))
        have hm : (matchTypeLoop sMatch matchTypeCount 0 self.m_matchType).1
            ≥ matchTypeCount := by
          rw [matchTypeLoop_eq]
          simp [h1, h2, h3, matchTypeCount]
        cases hA : base1.findAttribute "AbortAbove" <;>
          cases hB : base1.findAttribute "AbortBelow" <;>
          simp only [DataTarget.createFromAttributes, hbase, hIntercept, hSlope, hTimes, hA, hB,
            hlen, hs, hM, hm, findAttribute_findAttributeFailed, m_name_findAttributeFailed,
            LoadResult.lastErrorPtr, NamedObject.setLastError, if_true, if_false,
            Bool.false_eq_true] <;>
          simp
      · have h4 : ¬ sInterpolation = "Punctuated" := fun h => hbad (Or.inl h)
        have h5 : ¬ sInterpolation = "Continuous" := fun h => hbad (Or.inr h)
        have hm : ¬ (matchTypeLoop sMatch matchTypeCount 0 self.m_matchType).1
            ≥ matchTypeCount := by
          rw [matchTypeLoop_eq]
          rcases hgood with h | h | h <;> subst h <;> simp [matchTypeCount]
        have hp : ∀ m, (interpolationTypeLoop sInterpolation interpolationTypeCount 0 m).1
            ≥ interpolationTypeCount := by
          intro m
          rw [interpolationTypeLoop_eq]
          simp [h4, h5, interpolationTypeCount]
        cases hA : base1.findAttribute "AbortAbove" <;>
          cases hB : base1.findAttribute "AbortBelow" <;>
          simp only [DataTarget.createFromAttributes, hbase, hIntercept, hSlope, hTimes, hA, hB,
            hlen, hs, hM, hP, hm, hp, findAttribute_findAttributeFailed,
            m_name_findAttributeFailed, LoadResult.lastErrorPtr, NamedObject.setLastError,
            if_true, if_false, Bool.false_eq_true] <;>
          simp
    · have hs : is_sorted ((lib.pystring_split sTimes).map lib.GSUtil_Double) = false := by
        rw [← Bool.not_eq_true, is_sorted_iff]; exact hsorted
      cases hA : base1.findAttribute "AbortAbove" <;>
        cases hB : base1.findAttribute "AbortBelow" <;>
        simp [DataTarget.createFromAttributes, hbase, hIntercept, hSlope, hTimes, hA, hB, hlen,
          hs, findAttribute_findAttributeFailed, m_name_findAttributeFailed,
          LoadResult.lastErrorPtr, NamedObject.setLastError]

/-- C27 at a concrete input: after the load of `TargetTimes = "1.0 0.5 2.0"` has
failed, `targetTimeList` is the rejected list `[1, 1/2, 2]`. -/
theorem createFromAttributes_failure_not_atomic_witness :
    (DataTarget.createFromAttributes exampleLibrary
        (exampleAttributes "1.0 0.5 2.0" "Linear" "Punctuated")
          (DataTarget.fresh (-1))).self.m_targetTimeList = [1, 1 / 2, 2] := by
  have hsplit : exampleLibrary.pystring_split "1.0 0.5 2.0" = ["1.0", "0.5", "2.0"] := by decide
  have hparsed : (exampleLibrary.pystring_split "1.0 0.5 2.0").map exampleLibrary.GSUtil_Double
      = [1, 1 / 2, 2] := by
    rw [hsplit]; simp [exampleLibrary]
  have h := createFromAttributes_failure_not_atomic exampleLibrary
    (exampleAttributes "1.0 0.5 2.0" "Linear" "Punctuated")
    (exampleAttributes "1.0 0.5 2.0" "Linear" "Punctuated") (DataTarget.fresh (-1))
    "0.0" "1.0" "1.0 0.5 2.0" rfl (by decide) (by decide) (by decide)
    (by rw [hsplit]; decide) (Or.inl (by rw [hparsed]; norm_num [List.Sorted]))
  exact h.2.2.2.2.2.trans hparsed

/-- The calls of `SetStops` set motor parameters only. -/
theorem SetStops_no_motor_axes (self : BallJoint) (modeValue : Mode → Int)
    (a0Low a0High a1Low a1High a2Low a2High : ℚ) :
    ∀ call ∈ self.SetStops modeValue a0Low a0High a1Low a1High a2Low a2High,
      call.isMotorAxesCall = false := by
  unfold BallJoint.SetStops
  split_ifs <;> simp [EngineCall.isMotorAxesCall]

/-- The statements before the read of the `Mode` attribute issue the anchor call, then
the calls of `SetAxes` on the basis of the first marker with `axisMode` 1, then at most
the two ball parameters `CFM` and `ERP`. -/
theorem CreateFromAttributes_setup_eq (self : BallJoint) (modeValue : Mode → Int) :
    ∃ rest : List EngineCall,
      self.CreateFromAttributes_setup modeValue =
        EngineCall.dJointSetBallAnchor self.m_JointID self.m_body1Marker.worldPosition.x
            self.m_body1Marker.worldPosition.y self.m_body1Marker.worldPosition.z ::
          (self.SetAxes modeValue
              self.m_body1Marker.worldBasisX.x self.m_body1Marker.worldBasisX.y
              self.m_body1Marker.worldBasisX.z
              self.m_body1Marker.worldBasisY.x self.m_body1Marker.worldBasisY.y
              self.m_body1Marker.worldBasisY.z
              self.m_body1Marker.worldBasisZ.x self.m_body1Marker.worldBasisZ.y
              self.m_body1Marker.worldBasisZ.z 1 ++ rest) ∧
      ∀ call ∈ rest, call.isMotorAxesCall = false := by
  unfold BallJoint.CreateFromAttributes_setup BallJoint.SetBallAnchor
  by_cases hc : self.m_CFM ≥ 0 <;> by_cases he : self.m_ERP ≥ 0
  · exact ⟨[EngineCall.dJointSetBallParam self.m_JointID dParam.dParamCFM self.m_CFM,
      EngineCall.dJointSetBallParam self.m_JointID dParam.dParamERP self.m_ERP],
      by simp [hc, he], by simp [EngineCall.isMotorAxesCall]⟩
  · exact ⟨[EngineCall.dJointSetBallParam self.m_JointID dParam.dParamCFM self.m_CFM],
      by simp [hc, he], by simp [EngineCall.isMotorAxesCall]⟩
  · exact ⟨[EngineCall.dJointSetBallParam self.m_JointID dParam.dParamERP self.m_ERP],
      by simp [hc, he], by simp [EngineCall.isMotorAxesCall]⟩
  · exact ⟨[], by simp [hc, he], by simp⟩

/-- Whatever the attributes are, a load that gets past the base class load issues the
calls made before the read of the `Mode` attribute, followed at most by the calls of one
`SetStops`. -/
theorem BallJoint_CreateFromAttributes_calls (lib : Library) (modeValue : Mode → Int)
    (jointLoad : BallJoint → BallJoint × Bool) (self self1 : BallJoint)
    (hbase : jointLoad self = (self1, false)) :
    ∃ rest : List EngineCall,
      (BallJoint.CreateFromAttributes lib modeValue jointLoad self).calls =
        self1.CreateFromAttributes_setup modeValue ++ rest ∧
      ∀ call ∈ rest, call.isMotorAxesCall = false := by
  unfold BallJoint.CreateFromAttributes
  simp only [hbase, Bool.false_eq_true, if_false]
  repeat' split
  all_goals
    first
      | exact ⟨_, rfl, SetStops_no_motor_axes _ _ _ _ _ _ _ _⟩
      | exact ⟨[], (List.append_nil _).symm, fun _ h => absurd h (List.not_mem_nil _)⟩

/-- C26: `BallJoint::CreateFromAttributes` configures the motor axes before it
reads the `Mode` attribute, so the axes follow the mode the joint was
constructed with (and kept through the base class load) and not the `Mode`
attribute. Whatever the attributes are, the calls of a load that gets past the base
class load are the anchor call, then the motor calls of the constructed mode (none for
`NoStops`; user mode, 3 axes and the three axes of the first marker relative to body 1
for `AMotorUser`; Euler mode, axis 0 relative to body 1 and axis 2 relative to body 2
for `AMotorEuler`), then calls none of which sets a motor mode, a number of motor axes
or a motor axis. When the `Mode` attribute names `AMotorUser` or `AMotorEuler` and the
six stops are present, the load succeeds, changes the mode to the named one and writes
the six stops (they read back from a storing engine as the converted angles); for a
joint constructed with `NoStops` this changes the mode, yet no call sets a motor mode
or a motor axis. When the `Mode` attribute is `NoStops` the load succeeds and leaves
the mode `NoStops`, with the motor calls of the constructed mode made all the same. The
integer values of the mode enumerators are taken to agree with the ODE constants. -/
theorem BallJoint_CreateFromAttributes_axes_before_mode (lib : Library)
    (modeValue : Mode → Int) (jointLoad : BallJoint → BallJoint × Bool)
    (self self1 : BallJoint)
    (hbase : jointLoad self = (self1, false))
    (hkept : self1.m_Mode = self.m_Mode)
    (hvalues : ModeValuesAgree modeValue) :
    (∃ rest : List EngineCall,
      (BallJoint.CreateFromAttributes lib modeValue jointLoad self).calls =
        EngineCall.dJointSetBallAnchor self1.m_JointID self1.m_body1Marker.worldPosition.x
            self1.m_body1Marker.worldPosition.y self1.m_body1Marker.worldPosition.z ::
          ((match self.m_Mode with
            | Mode.NoStops => []
            | Mode.AMotorUser =>
              [EngineCall.dJointSetAMotorMode self1.m_MotorJointID dAMotorUser,
                EngineCall.dJointSetAMotorNumAxes self1.m_MotorJointID 3,
                EngineCall.dJointSetAMotorAxis self1.m_MotorJointID 0 1
                  self1.m_body1Marker.worldBasisX.x self1.m_body1Marker.worldBasisX.y
                  self1.m_body1Marker.worldBasisX.z,
                EngineCall.dJointSetAMotorAxis self1.m_MotorJointID 1 1
                  self1.m_body1Marker.worldBasisY.x self1.m_body1Marker.worldBasisY.y
                  self1.m_body1Marker.worldBasisY.z,
                EngineCall.dJointSetAMotorAxis self1.m_MotorJointID 2 1
                  self1.m_body1Marker.worldBasisZ.x self1.m_body1Marker.worldBasisZ.y
                  self1.m_body1Marker.worldBasisZ.z]
            | Mode.AMotorEuler =>
              [EngineCall.dJointSetAMotorMode self1.m_MotorJointID dAMotorEuler,
                EngineCall.dJointSetAMotorAxis self1.m_MotorJointID 0 1
                  self1.m_body1Marker.worldBasisX.x self1.m_body1Marker.worldBasisX.y
                  self1.m_body1Marker.worldBasisX.z,
                EngineCall.dJointSetAMotorAxis self1.m_MotorJointID 2 2
                  self1.m_body1Marker.worldBasisZ.x self1.m_body1Marker.worldBasisZ.y
                  self1.m_body1Marker.worldBasisZ.z]) ++ rest) ∧
      ∀ call ∈ rest, call.isMotorAxesCall = false) ∧
    (∀ (mode : Mode) (s0 s1 s2 s3 s4 s5 : String) (store : MotorParams),
      mode = Mode.AMotorUser ∨ mode = Mode.AMotorEuler →
      self1.base.findAttribute "Mode" = some mode.attributeValue →
      self1.base.findAttribute "LowStop0" = some s0 →
      self1.base.findAttribute "HighStop0" = some s1 →
      self1.base.findAttribute "LowStop1" = some s2 →
      self1.base.findAttribute "HighStop1" = some s3 →
      self1.base.findAttribute "LowStop2" = some s4 →
      self1.base.findAttribute "HighStop2" = some s5 →
      (BallJoint.CreateFromAttributes lib modeValue jointLoad self).error = none ∧
      (BallJoint.CreateFromAttributes lib modeValue jointLoad self).self.m_Mode = mode ∧
      (store.applyAll (BallJoint.CreateFromAttributes lib modeValue jointLoad self).calls
          self1.m_MotorJointID dParam.dParamLoStop1 = lib.GSUtil_GetAngle s0 ∧
        store.applyAll (BallJoint.CreateFromAttributes lib modeValue jointLoad self).calls
          self1.m_MotorJointID dParam.dParamHiStop1 = lib.GSUtil_GetAngle s1 ∧
        store.applyAll (BallJoint.CreateFromAttributes lib modeValue jointLoad self).calls
          self1.m_MotorJointID dParam.dParamLoStop2 = lib.GSUtil_GetAngle s2 ∧
        store.applyAll (BallJoint.CreateFromAttributes lib modeValue jointLoad self).calls
          self1.m_MotorJointID dParam.dParamHiStop2 = lib.GSUtil_GetAngle s3 ∧
        store.applyAll (BallJoint.CreateFromAttributes lib modeValue jointLoad self).calls
          self1.m_MotorJointID dParam.dParamLoStop3 = lib.GSUtil_GetAngle s4 ∧
        store.applyAll (BallJoint.CreateFromAttributes lib modeValue jointLoad self).calls
          self1.m_MotorJointID dParam.dParamHiStop3 = lib.GSUtil_GetAngle s5) ∧
      (self.m_Mode = Mode.NoStops →
        (BallJoint.CreateFromAttributes lib modeValue jointLoad self).self.m_Mode
            ≠ self.m_Mode ∧
          ∀ call ∈ (BallJoint.CreateFromAttributes lib modeValue jointLoad self).calls,
            call.isMotorAxesCall = false)) ∧
    (self1.base.findAttribute "Mode" = some "NoStops" →
      (BallJoint.CreateFromAttributes lib modeValue jointLoad self).error = none ∧
      (BallJoint.CreateFromAttributes lib modeValue jointLoad self).self.m_Mode
        = Mode.NoStops) := by
  obtain ⟨hu, he, hnu, hneu⟩ := hvalues
  have hue : ¬ dAMotorUser = dAMotorEuler := dAMotorUser_ne_dAMotorEuler
  obtain ⟨rest1, hcalls, hrest1⟩ :=
    BallJoint_CreateFromAttributes_calls lib modeValue jointLoad self self1 hbase
  obtain ⟨rest2, hsetup, hrest2⟩ := CreateFromAttributes_setup_eq self1 modeValue
  have hprefix : ∃ rest : List EngineCall,
      (BallJoint.CreateFromAttributes lib modeValue jointLoad self).calls =
        EngineCall.dJointSetBallAnchor self1.m_JointID self1.m_body1Marker.worldPosition.x
            self1.m_body1Marker.worldPosition.y self1.m_body1Marker.worldPosition.z ::
          (self1.SetAxes modeValue
              self1.m_body1Marker.worldBasisX.x self1.m_body1Marker.worldBasisX.y
              self1.m_body1Marker.worldBasisX.z
              self1.m_body1Marker.worldBasisY.x self1.m_body1Marker.worldBasisY.y
              self1.m_body1Marker.worldBasisY.z
              self1.m_body1Marker.worldBasisZ.x self1.m_body1Marker.worldBasisZ.y
              self1.m_body1Marker.worldBasisZ.z 1 ++ rest) ∧
      ∀ call ∈ rest, call.isMotorAxesCall = false := by
    refine ⟨rest2 ++ rest1, ?_, ?_⟩
    · rw [hcalls, hsetup]
      simp
    · intro call hcall
      rcases List.mem_append.mp hcall with h | h
      · exact hrest2 call h
      · exact hrest1 call h
  have hA : ∃ rest : List EngineCall,
      (BallJoint.CreateFromAttributes lib modeValue jointLoad self).calls =
        EngineCall.dJointSetBallAnchor self1.m_JointID self1.m_body1Marker.worldPosition.x
            self1.m_body1Marker.worldPosition.y self1.m_body1Marker.worldPosition.z ::
          ((match self.m_Mode with
            | Mode.NoStops => []
            | Mode.AMotorUser =>
              [EngineCall.dJointSetAMotorMode self1.m_MotorJointID dAMotorUser,
                EngineCall.dJointSetAMotorNumAxes self1.m_MotorJointID 3,
                EngineCall.dJointSetAMotorAxis self1.m_MotorJointID 0 1
                  self1.m_body1Marker.worldBasisX.x self1.m_body1Marker.worldBasisX.y
                  self1.m_body1Marker.worldBasisX.z,
                EngineCall.dJointSetAMotorAxis self1.m_MotorJointID 1 1
                  self1.m_body1Marker.worldBasisY.x self1.m_body1Marker.worldBasisY.y
                  self1.m_body1Marker.worldBasisY.z,
                EngineCall.dJointSetAMotorAxis self1.m_MotorJointID 2 1
                  self1.m_body1Marker.worldBasisZ.x self1.m_body1Marker.worldBasisZ.y
                  self1.m_body1Marker.worldBasisZ.z]
            | Mode.AMotorEuler =>
              [EngineCall.dJointSetAMotorMode self1.m_MotorJointID dAMotorEuler,
                EngineCall.dJointSetAMotorAxis self1.m_MotorJointID 0 1
                  self1.m_body1Marker.worldBasisX.x self1.m_body1Marker.worldBasisX.y
                  self1.m_body1Marker.worldBasisX.z,
                EngineCall.dJointSetAMotorAxis self1.m_MotorJointID 2 2
                  self1.m_body1Marker.worldBasisZ.x self1.m_body1Marker.worldBasisZ.y
                  self1.m_body1Marker.worldBasisZ.z]) ++ rest) ∧
      ∀ call ∈ rest, call.isMotorAxesCall = false := by
    obtain ⟨rest, hc, hr⟩ := hprefix
    refine ⟨rest, ?_, hr⟩
    rw [hc, ← hkept]
    cases hm : self1.m_Mode
    · simp only [BallJoint.SetAxes, hm, if_neg hneu, if_neg hnu]
    · simp only [BallJoint.SetAxes, hm, hu, if_neg hue, if_true]
    · simp only [BallJoint.SetAxes, hm, he, if_true]
  refine ⟨hA, ?_, ?_⟩
  · intro mode s0 s1 s2 s3 s4 s5 store hmode hM h0 h1 h2 h3 h4 h5
    have hne : mode ≠ Mode.NoStops := by
      rcases hmode with h | h <;> rw [h] <;> decide
    have hall : ∀ call ∈ (BallJoint.CreateFromAttributes lib modeValue jointLoad self).calls,
        self.m_Mode = Mode.NoStops → call.isMotorAxesCall = false := by
      intro call hcall hcons
      obtain ⟨rest, hc, hr⟩ := hA
      rw [hc, hcons] at hcall
      rcases List.mem_cons.mp hcall with h | h
      · rw [h]
        rfl
      · exact hr call (by simpa using h)
    have hres := (BallJoint_CreateFromAttributes_stops lib modeValue jointLoad self self1 mode
      hbase hne hM).2 s0 s1 s2 s3 s4 s5 h0 h1 h2 h3 h4 h5
    have hcond : modeValue mode = dAMotorEuler ∨ modeValue mode = dAMotorUser := by
      rcases hmode with h | h
      · exact Or.inr (by rw [h, hu])
      · exact Or.inl (by rw [h, he])
    refine ⟨by rw [hres], by rw [hres], ?_, fun hcons => ⟨?_, fun call hcall => hall call hcall hcons⟩⟩
    · rw [hres]
      simp only [BallJoint.CreateFromAttributes_setup, BallJoint.SetBallAnchor,
        BallJoint.SetAxes, BallJoint.SetStops, if_pos hcond]
      split_ifs <;> simp [MotorParams.applyAll, MotorParams.apply]
    · rw [hres, hcons]
      exact hne
  · intro hM
    rw [BallJoint_CreateFromAttributes_NoStops lib modeValue jointLoad self self1 hbase hM]
    exact ⟨rfl, rfl⟩

/-- C26 at concrete inputs. The example joint constructed with `AMotorUser` and loaded
from attributes that name `AMotorEuler` ends in mode `AMotorEuler`, yet its calls are the
anchor call followed by the five motor calls of user mode. The example joint constructed
with `NoStops` and loaded from the same attributes ends in mode `AMotorEuler` and no
call sets a motor mode or a motor axis. -/
theorem BallJoint_CreateFromAttributes_axes_before_mode_witness :
    (∃ rest : List EngineCall,
      (BallJoint.CreateFromAttributes exampleLibrary exampleModeValue
        (fun joint => (joint, false))
        (exampleJoint Mode.AMotorUser (exampleStops "AMotorEuler"))).calls =
        EngineCall.dJointSetBallAnchor 10 0 0 0 ::
          ([EngineCall.dJointSetAMotorMode 11 0,
            EngineCall.dJointSetAMotorNumAxes 11 3,
            EngineCall.dJointSetAMotorAxis 11 0 1 1 0 0,
            EngineCall.dJointSetAMotorAxis 11 1 1 0 1 0,
            EngineCall.dJointSetAMotorAxis 11 2 1 0 0 1] ++ rest) ∧
      ∀ call ∈ rest, call.isMotorAxesCall = false) ∧
    (BallJoint.CreateFromAttributes exampleLibrary exampleModeValue
        (fun joint => (joint, false))
        (exampleJoint Mode.AMotorUser (exampleStops "AMotorEuler"))).self.m_Mode
      = Mode.AMotorEuler ∧
    (BallJoint.CreateFromAttributes exampleLibrary exampleModeValue (fun joint => (joint, false))
        (exampleJoint Mode.NoStops (exampleStops "AMotorEuler"))).self.m_Mode
      = Mode.AMotorEuler ∧
    ∀ call ∈ (BallJoint.CreateFromAttributes exampleLibrary exampleModeValue
        (fun joint => (joint, false))
        (exampleJoint Mode.NoStops (exampleStops "AMotorEuler"))).calls,
      call.isMotorAxesCall = false := by
  have hU := BallJoint_CreateFromAttributes_axes_before_mode exampleLibrary exampleModeValue
    (fun joint => (joint, false)) (exampleJoint Mode.AMotorUser (exampleStops "AMotorEuler"))
    (exampleJoint Mode.AMotorUser (exampleStops "AMotorEuler")) rfl rfl exampleModeValue_agree
  have hN := BallJoint_CreateFromAttributes_axes_before_mode exampleLibrary exampleModeValue
    (fun joint => (joint, false)) (exampleJoint Mode.NoStops (exampleStops "AMotorEuler"))
    (exampleJoint Mode.NoStops (exampleStops "AMotorEuler")) rfl rfl exampleModeValue_agree
  have hU2 := hU.2.1 Mode.AMotorEuler "0.5" "1.0" "0.5" "1.0" "0.5" "2.0" (fun _ _ => 0)
    (Or.inr rfl) (by decide) (by decide) (by decide) (by decide) (by decide) (by decide)
    (by decide)
  have hN2 := hN.2.1 Mode.AMotorEuler "0.5" "1.0" "0.5" "1.0" "0.5" "2.0" (fun _ _ => 0)
    (Or.inr rfl) (by decide) (by decide) (by decide) (by decide) (by decide) (by decide)
    (by decide)
  exact ⟨hU.1, hU2.2.1, hN2.2.1, (hN2.2.2.2 rfl).2⟩

/-! ## The rows written by BallJoint::Dump -/

/-- Splitting never gives an empty list of pieces. -/
theorem splitOnChar_ne_nil (sep : Char) (text : List Char) : splitOnChar sep text ≠ [] := by
  cases text with
  | nil => simp [splitOnChar]
  | cons c cs =>
    simp only [splitOnChar]
    split_ifs
    · simp
    · split <;> simp

/-- A piece without the separator, followed by the separator, is the first
piece of the split. -/
theorem splitOnChar_append (sep : Char) (field rest : List Char) (h : sep ∉ field) :
    splitOnChar sep (field ++ sep :: rest) = field :: splitOnChar sep rest := by
  induction field with
  | nil => simp [splitOnChar]
  | cons c cs ih =>
    have hc : ¬ c = sep := fun e => h (by simp [e])
    have hcs : sep ∉ cs := fun e => h (by simp [e])
    rw [List.cons_append]
    simp only [splitOnChar, if_neg hc]
    rw [ih hcs]

/-- Pieces without the separator, each followed by the separator, split into
themselves and one empty piece after the last separator. -/
theorem splitOnChar_flatten (sep : Char) (fields : List (List Char))
    (h : ∀ field ∈ fields, sep ∉ field) :
    splitOnChar sep ((fields.map (fun field => field ++ [sep])).flatten) = fields ++ [[]] := by
  induction fields with
  | nil => simp [splitOnChar]
  | cons field rest ih =>
    have hrest : ∀ f ∈ rest, sep ∉ f := fun f hf => h f (by simp [hf])
    simp only [List.map_cons, List.flatten_cons, List.append_assoc, List.singleton_append,
      List.cons_append]
    rw [splitOnChar_append sep field _ (h field (by simp)), List.nil_append, ih hrest]

/-- The text before the newline of a row made of pieces without a newline. -/
theorem takeWhile_flatten (fields : List (List Char))
    (h : ∀ field ∈ fields, '\n' ∉ field) :
    ((fields.map (fun field => field ++ ['\t'])).flatten ++ ['\n']).takeWhile
        (fun c => c != '\n')
      = (fields.map (fun field => field ++ ['\t'])).flatten := by
  have hall : ∀ c ∈ (fields.map (fun field => field ++ ['\t'])).flatten,
      (fun c => c != '\n') c = true := by
    intro c hc
    simp only [List.mem_flatten, List.mem_map] at hc
    obtain ⟨l, ⟨field, hfield, rfl⟩, hcl⟩ := hc
    rcases List.mem_append.mp hcl with hin | hin
    · have : c ≠ '\n' := fun e => h field hfield (e ▸ hin)
      simpa using this
    · have : c = '\t' := by simpa using hin
      subst this
      decide
  rw [List.takeWhile_append_of_pos hall]
  simp

/-- The characters of a data row: each of the 31 values, formatted and followed
by a tab, and then the newline. -/
theorem dumpRow_data (format : ℚ → String) (r : DumpReadings) :
    (BallJoint.dumpRow format r).data
      = ((r.values.map fun v => (format v).data).map fun field => field ++ ['\t']).flatten
          ++ ['\n'] := by
  simp [BallJoint.dumpRow, DumpReadings.values, String.data_join]

/-- The tab-separated fields of a data row, when the formatted numbers hold
neither a tab nor a newline: the 31 formatted values in order and then one empty
field after the last tab. -/
theorem tabFields_dumpRow (format : ℚ → String) (r : DumpReadings)
    (hformat : ∀ v, '\t' ∉ (format v).data ∧ '\n' ∉ (format v).data) :
    tabFields (BallJoint.dumpRow format r) = r.values.map format ++ [""] := by
  unfold tabFields
  rw [dumpRow_data, takeWhile_flatten, splitOnChar_flatten]
  · simp [List.map_append, Function.comp_def]
  · intro field hfield
    obtain ⟨v, _, rfl⟩ := List.mem_map.mp hfield
    exact (hformat v).1
  · intro field hfield
    obtain ⟨v, _, rfl⟩ := List.mem_map.mp hfield
    exact (hformat v).2
/-- The example formatting writes neither a tab nor a newline. -/
theorem exampleFormat_plain (v : ℚ) :
    '\t' ∉ (exampleFormat v).data ∧ '\n' ∉ (exampleFormat v).data := by
  unfold exampleFormat
  split_ifs <;> decide

/-- C30 (the code on every input): the header row has 31 tab-separated fields,
and every data row has 32: the 31 values, each under its column name, and one
more, empty, field after the tab that the row ends with. The formatted numbers
are taken to hold neither a tab nor a newline. -/
theorem dumpRow_one_field_more (format : ℚ → String) (r : DumpReadings)
    (hformat : ∀ v, '\t' ∉ (format v).data ∧ '\n' ∉ (format v).data) :
    tabFields BallJoint.dumpHeader =
      ["Time", "XP", "YP", "ZP", "theta0", "theta1", "theta2",
        "FX1", "FY1", "FZ1", "TX1", "TY1", "TZ1", "FX2", "FY2", "FZ2", "TX2", "TY2", "TZ2",
        "MotorFX1", "MotorFY1", "MotorFZ1", "MotorTX1", "MotorTY1", "MotorTZ1",
        "MotorFX2", "MotorFY2", "MotorFZ2", "MotorTX2", "MotorTY2", "MotorTZ2"] ∧
    (tabFields BallJoint.dumpHeader).length = 31 ∧
    (tabFields (BallJoint.dumpRow format r)).length = 32 ∧
    tabFields (BallJoint.dumpRow format r) = r.values.map format ++ [""] := by
  refine ⟨by decide, by decide, ?_, tabFields_dumpRow format r hformat⟩
  rw [tabFields_dumpRow format r hformat]
  simp [DumpReadings.values]

/-- C30 at a concrete input: the example row has 32 fields. -/
theorem dumpRow_one_field_more_witness :
    (tabFields (BallJoint.dumpRow exampleFormat exampleReadings)).length = 32 :=
  (dumpRow_one_field_more exampleFormat exampleReadings exampleFormat_plain).2.2.1
/-- C23: `SetBallAnchor(const char *)` on a text with tokens `t0 t1 t2 ...`. With
fewer than 3 tokens the anchor is not set. If the first character of `t0` is no
letter, the anchor is set to `(t0, t1, t2)` read as world coordinates. Otherwise
4 tokens are needed (with 3 the anchor is not set), and then: if `t0` names a
body, the anchor is set to the point `(t1, t2, t3)` of that body converted to
world coordinates; if it names no body and is exactly `"World"`, the anchor is
set to `(t1, t2, t3)` as world coordinates; in every other case the anchor is
not set. -/
theorem SetBallAnchorBuf_cases (self : BallJoint) (lib : AnchorLibrary) (buf : String) :
    ((lib.ReturnTokens buf).length < 3 → (self.SetBallAnchorBuf lib buf).1 = []) ∧
    (∀ t0 t1 t2 rest, lib.ReturnTokens buf = t0 :: t1 :: t2 :: rest →
      isalphaFirst t0 = false →
      (self.SetBallAnchorBuf lib buf).1
        = [EngineCall.dJointSetBallAnchor self.m_JointID (lib.strtod t0) (lib.strtod t1)
            (lib.strtod t2)]) ∧
    (∀ t0 t1 t2, lib.ReturnTokens buf = [t0, t1, t2] → isalphaFirst t0 = true →
      (self.SetBallAnchorBuf lib buf).1 = []) ∧
    (∀ t0 t1 t2 t3 rest theBody, lib.ReturnTokens buf = t0 :: t1 :: t2 :: t3 :: rest →
      isalphaFirst t0 = true → lib.GetBody t0 = some theBody →
      (self.SetBallAnchorBuf lib buf).1
        = [EngineCall.dJointSetBallAnchor self.m_JointID
            (lib.dBodyGetRelPointPos theBody.m_BodyID (lib.strtod t1) (lib.strtod t2)
              (lib.strtod t3)).e0
            (lib.dBodyGetRelPointPos theBody.m_BodyID (lib.strtod t1) (lib.strtod t2)
              (lib.strtod t3)).e1
            (lib.dBodyGetRelPointPos theBody.m_BodyID (lib.strtod t1) (lib.strtod t2)
              (lib.strtod t3)).e2]) ∧
    (∀ t0 t1 t2 t3 rest, lib.ReturnTokens buf = t0 :: t1 :: t2 :: t3 :: rest →
      isalphaFirst t0 = true → lib.GetBody t0 = none → t0 = "World" →
      (self.SetBallAnchorBuf lib buf).1
        = [EngineCall.dJointSetBallAnchor self.m_JointID (lib.strtod t1) (lib.strtod t2)
            (lib.strtod t3)]) ∧
    (∀ t0 t1 t2 t3 rest, lib.ReturnTokens buf = t0 :: t1 :: t2 :: t3 :: rest →
      isalphaFirst t0 = true → lib.GetBody t0 = none → t0 ≠ "World" →
      (self.SetBallAnchorBuf lib buf).1 = []) := by
  refine ⟨?_, ?_, ?_, ?_, ?_, ?_⟩
  · intro h
    simp [BallJoint.SetBallAnchorBuf, h]
  · intro t0 t1 t2 rest htokens halpha
    simp [BallJoint.SetBallAnchorBuf, htokens, halpha]
    split_ifs <;> first | rfl | omega
  · intro t0 t1 t2 htokens halpha
    simp [BallJoint.SetBallAnchorBuf, htokens, halpha]
  · intro t0 t1 t2 t3 rest theBody htokens halpha hbody
    simp [BallJoint.SetBallAnchorBuf, htokens, halpha, hbody]
    split_ifs <;> first | rfl | omega
  · intro t0 t1 t2 t3 rest htokens halpha hbody hworld
    subst hworld
    simp [BallJoint.SetBallAnchorBuf, htokens, halpha, hbody]
    split_ifs <;> first | rfl | omega
  · intro t0 t1 t2 t3 rest htokens halpha hbody hworld
    simp [BallJoint.SetBallAnchorBuf, htokens, halpha, hbody, hworld]

/-- C23 at a concrete input: `"Torso 1.0 2.0 0.0"` names the body with engine
handle 7, whose frame is the world frame moved by `(10, 10, 10)`. -/
theorem SetBallAnchorBuf_cases_witness :
    ((exampleJoint Mode.NoStops []).SetBallAnchorBuf exampleAnchorLibrary
        "Torso 1.0 2.0 0.0").1 = [EngineCall.dJointSetBallAnchor 10 11 12 10] := by
  have h := (SetBallAnchorBuf_cases (exampleJoint Mode.NoStops []) exampleAnchorLibrary
    "Torso 1.0 2.0 0.0").2.2.2.1 "Torso" "1.0" "2.0" "0.0" [] ⟨7⟩ (by decide) (by decide)
    (by decide)
  rw [h]
  simp [exampleAnchorLibrary, exampleJoint]
  norm_num

/-! ## The case-sensitive comparison of names -/

/-- A text compares equal to itself. -/
theorem compareChars_self (a : List Char) : compareChars a a = 0 := by
  induction a with
  | nil => rfl
  | cons x xs ih => simp [compareChars, ih]

/-- Two texts that compare equal are the same text. -/
theorem compareChars_eq_zero : ∀ (a b : List Char), compareChars a b = 0 → a = b
  | [], [], _ => rfl
  | [], _ :: _, h => by simp [compareChars] at h
  | _ :: _, [], h => by simp [compareChars] at h
  | x :: xs, y :: ys, h => by
    simp only [compareChars] at h
    by_cases h1 : x < y
    · simp [h1] at h
    · by_cases h2 : y < x
      · simp [h1, h2] at h
      · simp only [h1, h2, if_false] at h
        have hxy : x = y := le_antisymm (not_lt.mp h2) (not_lt.mp h1)
        rw [hxy, compareChars_eq_zero xs ys h]

/-- The first text is less than the second exactly when the second is greater than the
first. -/
theorem compareChars_swap : ∀ (a b : List Char), compareChars a b < 0 ↔ 0 < compareChars b a
  | [], [] => by simp [compareChars]
  | [], _ :: _ => by simp [compareChars]
  | _ :: _, [] => by simp [compareChars]
  | x :: xs, y :: ys => by
    simp only [compareChars]
    split_ifs with h1 h2 h3
    · exact absurd h2 (lt_asymm h1)
    · simp
    · simp
    · exact compareChars_swap xs ys

/-- Being less is transitive. -/
theorem compareChars_trans : ∀ (a b c : List Char), compareChars a b < 0 → compareChars b c < 0 →
    compareChars a c < 0
  | [], [], _, _, h => h
  | [], _ :: _, [], _, h => by simp [compareChars] at h
  | [], _ :: _, _ :: _, _, _ => by simp [compareChars]
  | _ :: _, [], _, h, _ => by simp [compareChars] at h
  | _ :: _, _ :: _, [], _, h => by simp [compareChars] at h
  | x :: xs, y :: ys, z :: zs, h1, h2 => by
    simp only [compareChars] at h1 h2 ⊢
    by_cases hyz : y < z
    · by_cases hxy : x < y
      · simp [lt_trans hxy hyz]
      · by_cases hyx : y < x
        · simp [hxy, hyx] at h1
        · have hxy2 : x = y := le_antisymm (not_lt.mp hyx) (not_lt.mp hxy)
          subst hxy2
          simp [hyz]
    · by_cases hzy : z < y
      · simp [hyz, hzy] at h2
      · have hyz2 : y = z := le_antisymm (not_lt.mp hzy) (not_lt.mp hyz)
        subst hyz2
        simp only [hyz, if_false] at h2
        by_cases hxy : x < y
        · simp [hxy]
        · by_cases hyx : y < x
          · simp [hxy, hyx] at h1
          · simp only [hxy, hyx, if_false] at h1 ⊢
            exact compareChars_trans xs ys zs h1 h2

/-- A name compares equal to itself. -/
theorem QString_compare_self (s : String) : QString_compare s s = 0 :=
  compareChars_self s.data

/-- Two names that compare equal are the same name. -/
theorem QString_compare_eq_zero (s t : String) (h : QString_compare s t = 0) : s = t :=
  String.ext (compareChars_eq_zero s.data t.data h)

/-- The first name is less than the second exactly when the second is greater than the
first. -/
theorem QString_compare_swap (s t : String) : QString_compare s t < 0 ↔ 0 < QString_compare t s :=
  compareChars_swap s.data t.data

/-- Being less is transitive. -/
theorem QString_compare_trans (s t u : String) (h1 : QString_compare s t < 0)
    (h2 : QString_compare t u < 0) : QString_compare s u < 0 :=
  compareChars_trans s.data t.data u.data h1 h2
/-! ## ElementTreeWidget::BinarySearch -/

/-- In a list with strictly ascending names an earlier child is less than a later
one. -/
theorem SortedNames_lt (A : List TreeItem) (hs : SortedNames A) (i j : Nat) (a b : TreeItem)
    (hij : i < j) (ha : A[i]? = some a) (hb : A[j]? = some b) :
    QString_compare a.text0 b.text0 < 0 := by
  unfold SortedNames at hs
  rw [List.pairwise_iff_getElem] at hs
  obtain ⟨hi, rfl⟩ := List.getElem?_eq_some.mp ha
  obtain ⟨hj, rfl⟩ := List.getElem?_eq_some.mp hb
  exact hs i j hi hj hij

/-- The loop of `BinarySearch` ends on every list of children, sorted or not, when it
is given more iterations than there are candidates between `low` and `high`. -/
theorem BinarySearch_loop_terminates (A : List TreeItem) (value : String) :
    ∀ (fuel : Nat) (low high : Int), 0 ≤ low → high < A.length →
      (high + 1 - low).toNat < fuel →
      ∃ result, BinarySearch_loop A value fuel low high = some result := by
  intro fuel
  induction fuel with
  | zero => intro low high _ _ hf; omega
  | succ fuel ih =>
    intro low high hlow hhigh hf
    simp only [BinarySearch_loop]
    by_cases hlh : low ≤ high
    · rw [if_pos hlh]
      obtain ⟨mid, hmid⟩ : ∃ m : Int, m = (low + high) / 2 := ⟨_, rfl⟩
      rw [← hmid]
      have hmid1 : low ≤ mid := by omega
      have hmid2 : mid ≤ high := by omega
      rw [if_neg (by omega)]
      have hlt : mid.toNat < A.length := by omega
      rw [List.getElem?_eq_getElem hlt]
      simp only
      split_ifs
      · exact ih low (mid - 1) hlow (by omega) (by omega)
      · exact ih (mid + 1) high (by omega) hhigh (by omega)
      · exact ⟨_, rfl⟩
    · rw [if_neg hlh]
      exact ⟨_, rfl⟩

/-- The loop of `BinarySearch` on children with strictly ascending names keeps the two
invariants written in the source (every child before `low` is less than `value`, every
child after `high` is greater), ends, and returns either `true` with the position of a
child named `value`, or `false` with a position that separates the children less than
`value` from the children greater than it. -/
theorem BinarySearch_loop_spec (A : List TreeItem) (value : String) (hs : SortedNames A) :
    ∀ (fuel : Nat) (low high : Int), 0 ≤ low → high < A.length → low ≤ high + 1 →
      (high + 1 - low).toNat < fuel →
      (∀ (i : Nat) (item : TreeItem), (i : Int) < low → A[i]? = some item →
        QString_compare item.text0 value < 0) →
      (∀ (i : Nat) (item : TreeItem), high < (i : Int) → A[i]? = some item →
        0 < QString_compare item.text0 value) →
      ∃ found index, BinarySearch_loop A value fuel low high = some (found, index) ∧
        0 ≤ index ∧ index ≤ A.length ∧
        (found = true → ∃ item, A[index.toNat]? = some item ∧ item.text0 = value) ∧
        (found = false →
          (∀ (i : Nat) (item : TreeItem), (i : Int) < index → A[i]? = some item →
            QString_compare item.text0 value < 0) ∧
          (∀ (i : Nat) (item : TreeItem), index ≤ (i : Int) → A[i]? = some item →
            0 < QString_compare item.text0 value)) := by
  intro fuel
  induction fuel with
  | zero => intro low high _ _ _ hf; omega
  | succ fuel ih =>
    intro low high hlow hhigh hle hf hbelow habove
    simp only [BinarySearch_loop]
    by_cases hlh : low ≤ high
    · rw [if_pos hlh]
      obtain ⟨mid, hmid⟩ : ∃ m : Int, m = (low + high) / 2 := ⟨_, rfl⟩
      rw [← hmid]
      have hmid1 : low ≤ mid := by omega
      have hmid2 : mid ≤ high := by omega
      rw [if_neg (by omega)]
      have hlt : mid.toNat < A.length := by omega
      have hchild : A[mid.toNat]? = some A[mid.toNat] := List.getElem?_eq_getElem hlt
      rw [hchild]
      simp only
      by_cases hgt : QString_compare A[mid.toNat].text0 value > 0
      · rw [if_pos hgt]
        refine ih low (mid - 1) hlow (by omega) (by omega) (by omega) hbelow ?_
        intro i item hi hitem
        by_cases him : i = mid.toNat
        · subst him
          rw [hchild] at hitem
          cases hitem
          exact hgt
        · have h1 : QString_compare A[mid.toNat].text0 item.text0 < 0 :=
            SortedNames_lt A hs mid.toNat i _ _ (by omega) hchild hitem
          have h2 : QString_compare value A[mid.toNat].text0 < 0 :=
            (QString_compare_swap _ _).mpr hgt
          exact (QString_compare_swap _ _).mp (QString_compare_trans _ _ _ h2 h1)
      · rw [if_neg hgt]
        by_cases hlt2 : QString_compare A[mid.toNat].text0 value < 0
        · rw [if_pos hlt2]
          refine ih (mid + 1) high (by omega) hhigh (by omega) (by omega) ?_ habove
          intro i item hi hitem
          by_cases him : i = mid.toNat
          · subst him
            rw [hchild] at hitem
            cases hitem
            exact hlt2
          · have h1 : QString_compare item.text0 A[mid.toNat].text0 < 0 :=
              SortedNames_lt A hs i mid.toNat _ _ (by omega) hitem hchild
            exact QString_compare_trans _ _ _ h1 hlt2
        · rw [if_neg hlt2]
          refine ⟨true, mid, rfl, by omega, by omega, ?_, ?_⟩
          · intro _
            exact ⟨_, hchild, QString_compare_eq_zero _ _ (by omega)⟩
          · intro h
            cases h
    · rw [if_neg hlh]
      refine ⟨false, low, rfl, hlow, by omega, ?_, ?_⟩
      · intro h
        cases h
      · intro _
        exact ⟨hbelow, fun i item hi hitem => habove i item (by omega) hitem⟩
/-- The method `BinarySearch` returns on every list of children. -/
theorem BinarySearch_terminates (A : List TreeItem) (value : String) :
    ∃ result, BinarySearch A value = some result :=
  BinarySearch_loop_terminates A value (A.length + 1) 0 ((A.length : Int) - 1)
    (le_refl 0) (by omega) (by omega)

/-- The method `BinarySearch` on children with strictly ascending names: what it
returns. -/
theorem BinarySearch_sorted (A : List TreeItem) (value : String) (hs : SortedNames A) :
    ∃ found index, BinarySearch A value = some (found, index) ∧
      0 ≤ index ∧ index ≤ A.length ∧
      (found = true → ∃ item, A[index.toNat]? = some item ∧ item.text0 = value) ∧
      (found = false →
        (∀ (i : Nat) (item : TreeItem), (i : Int) < index → A[i]? = some item →
          QString_compare item.text0 value < 0) ∧
        (∀ (i : Nat) (item : TreeItem), index ≤ (i : Int) → A[i]? = some item →
          0 < QString_compare item.text0 value)) := by
  refine BinarySearch_loop_spec A value hs (A.length + 1) 0 ((A.length : Int) - 1)
    (le_refl 0) (by omega) (by omega) (by omega) ?_ ?_
  · intro i item hi _
    omega
  · intro i item hi hitem
    have := (List.getElem?_eq_some.mp hitem).1
    omega

/-- On children with strictly ascending names, `BinarySearch` for the name of the
child at position `i` returns `true` and stores `i`. -/
theorem BinarySearch_found (A : List TreeItem) (value : String) (hs : SortedNames A)
    (i : Nat) (item : TreeItem) (hitem : A[i]? = some item) (hname : item.text0 = value) :
    BinarySearch A value = some (true, (i : Int)) := by
  obtain ⟨found, index, hres, h0, hlen, htrue, hfalse⟩ := BinarySearch_sorted A value hs
  have hself : QString_compare item.text0 value = 0 := by
    rw [hname]
    exact QString_compare_self value
  cases found with
  | true =>
    obtain ⟨item2, hitem2, hname2⟩ := htrue rfl
    have hself2 : QString_compare item.text0 item2.text0 = 0 := by
      rw [hname, hname2]
      exact QString_compare_self value
    have hself3 : QString_compare item2.text0 item.text0 = 0 := by
      rw [hname, hname2]
      exact QString_compare_self value
    have hidx : index = (i : Int) := by
      rcases lt_trichotomy i index.toNat with h | h | h
      · have := SortedNames_lt A hs i index.toNat _ _ h hitem hitem2
        omega
      · omega
      · have := SortedNames_lt A hs index.toNat i _ _ h hitem2 hitem
        omega
    rw [hres, hidx]
  | false =>
    obtain ⟨hbelow, habove⟩ := hfalse rfl
    by_cases h : (i : Int) < index
    · have := hbelow i item h hitem
      omega
    · have := habove i item (by omega) hitem
      omega

/-- On children with strictly ascending names none of which is named `value`,
`BinarySearch` returns `false` and stores the position that separates the children
less than `value` from the children greater than it. -/
theorem BinarySearch_not_found (A : List TreeItem) (value : String) (hs : SortedNames A)
    (hnone : ∀ item ∈ A, item.text0 ≠ value) :
    ∃ index : Int, BinarySearch A value = some (false, index) ∧
      0 ≤ index ∧ index ≤ A.length ∧
      (∀ (i : Nat) (item : TreeItem), (i : Int) < index → A[i]? = some item →
        QString_compare item.text0 value < 0) ∧
      (∀ (i : Nat) (item : TreeItem), index ≤ (i : Int) → A[i]? = some item →
        0 < QString_compare item.text0 value) := by
  obtain ⟨found, index, hres, h0, hlen, htrue, hfalse⟩ := BinarySearch_sorted A value hs
  cases found with
  | true =>
    obtain ⟨item, hitem, hname⟩ := htrue rfl
    obtain ⟨hlt, rfl⟩ := List.getElem?_eq_some.mp hitem
    exact absurd hname (hnone _ (List.getElem_mem hlt))
  | false =>
    exact ⟨index, hres, h0, hlen, (hfalse rfl).1, (hfalse rfl).2⟩

/-- C24: `ElementTreeWidget::BinarySearch` returns on every list of children, and
on children sorted strictly ascending under the case-sensitive comparison: for a child
equal to `value` at position `i` it returns `true` with `*index = i`; when no child is
equal to `value` it returns `false` with `*index` between 0 and the number of children,
every child before `*index` less than `value` and every child at or after `*index`
greater than `value`. -/
theorem BinarySearch_correct (A : List TreeItem) (value : String) :
    (∃ found index, BinarySearch A value = some (found, index)) ∧
    (SortedNames A →
      (∀ (i : Nat) (item : TreeItem), A[i]? = some item → item.text0 = value →
        BinarySearch A value = some (true, (i : Int))) ∧
      ((∀ item ∈ A, item.text0 ≠ value) →
        ∃ index : Int, BinarySearch A value = some (false, index) ∧
          0 ≤ index ∧ index ≤ A.length ∧
          (∀ (i : Nat) (item : TreeItem), (i : Int) < index → A[i]? = some item →
            QString_compare item.text0 value < 0) ∧
          (∀ (i : Nat) (item : TreeItem), index ≤ (i : Int) → A[i]? = some item →
            0 < QString_compare item.text0 value))) := by
  refine ⟨?_, fun hs => ⟨fun i item hitem hname => BinarySearch_found A value hs i item hitem hname,
    fun hnone => BinarySearch_not_found A value hs hnone⟩⟩
  obtain ⟨⟨found, index⟩, h⟩ := BinarySearch_terminates A value
  exact ⟨found, index, h⟩

/-- The children `A`, `B`, `D` have strictly ascending names. -/
theorem SortedNames_example : SortedNames [child "A", child "B", child "D"] := by
  unfold SortedNames
  decide

/-- C24 at a concrete input, the children `A`, `B`, `D`: the search for `B` returns `true` with
index 1, and the search for `C`, which is not there, returns `false` with an index
from 0 to 3 that has `B` before it and `D` at it. -/
theorem BinarySearch_correct_witness :
    SortedNames [child "A", child "B", child "D"] ∧
    BinarySearch [child "A", child "B", child "D"] "B" = some (true, 1) ∧
    ∃ index : Int, BinarySearch [child "A", child "B", child "D"] "C" = some (false, index) ∧
      0 ≤ index ∧ index ≤ 3 ∧
      (∀ (i : Nat) (item : TreeItem), (i : Int) < index →
        [child "A", child "B", child "D"][i]? = some item →
        QString_compare item.text0 "C" < 0) ∧
      (∀ (i : Nat) (item : TreeItem), index ≤ (i : Int) →
        [child "A", child "B", child "D"][i]? = some item →
        0 < QString_compare item.text0 "C") :=
  ⟨SortedNames_example,
    ((BinarySearch_correct [child "A", child "B", child "D"] "B").2 SortedNames_example).1
      1 (child "B") rfl rfl,
    ((BinarySearch_correct [child "A", child "B", child "D"] "C").2 SortedNames_example).2
      (by decide)⟩

/-! ## The insert functions of ElementTreeWidget -/

/-- In a list with strictly ascending names a name stands at one position only. -/
theorem SortedNames_unique (A : List TreeItem) (hs : SortedNames A) (name : String)
    (j : Nat) (x : TreeItem) (hx : A[j]? = some x) (hname : x.text0 = name)
    (i : Nat) (item : TreeItem) (hitem : A[i]? = some item) :
    item.text0 = name ↔ i = j := by
  constructor
  · intro h
    have h1 : QString_compare item.text0 x.text0 = 0 := by
      rw [h, hname]
      exact QString_compare_self name
    have h2 : QString_compare x.text0 item.text0 = 0 := by
      rw [h, hname]
      exact QString_compare_self name
    rcases lt_trichotomy i j with hij | hij | hij
    · have := SortedNames_lt A hs i j _ _ hij hitem hx
      omega
    · exact hij
    · have := SortedNames_lt A hs j i _ _ hij hx hitem
      omega
  · intro h
    subst h
    rw [hx] at hitem
    cases hitem
    exact hname

/-- The function `insertChild` at the position found by `BinarySearch`: a child placed
between the children less than it and the children greater than it keeps the names
strictly ascending, stands at that position, and every former child is kept in its
order. -/
theorem insertChild_sorted (A : List TreeItem) (item : TreeItem) (hs : SortedNames A)
    (index : Int) (h0 : 0 ≤ index) (hlen : index ≤ A.length)
    (hbelow : ∀ (i : Nat) (x : TreeItem), (i : Int) < index → A[i]? = some x →
      QString_compare x.text0 item.text0 < 0)
    (habove : ∀ (i : Nat) (x : TreeItem), index ≤ (i : Int) → A[i]? = some x →
      0 < QString_compare x.text0 item.text0) :
    SortedNames (insertChild A index item) ∧
    (insertChild A index item)[index.toNat]? = some item ∧
    List.Sublist A (insertChild A index item) := by
  have hk : index.toNat ≤ A.length := by omega
  have hdef : insertChild A index item =
      A.take index.toNat ++ item :: A.drop index.toNat := by
    unfold insertChild
    rw [if_pos ⟨h0, hlen⟩]
  rw [hdef]
  have hsplit : A.take index.toNat ++ A.drop index.toNat = A := List.take_append_drop _ _
  have hs2 : SortedNames (A.take index.toNat ++ A.drop index.toNat) := by
    rw [hsplit]
    exact hs
  unfold SortedNames at hs hs2 ⊢
  rw [List.pairwise_append] at hs2
  refine ⟨?_, ?_, ?_⟩
  · rw [List.pairwise_append, List.pairwise_cons]
    refine ⟨hs2.1, ⟨?_, hs2.2.1⟩, ?_⟩
    · intro b hb
      obtain ⟨j, hj⟩ := List.mem_iff_getElem?.mp hb
      rw [List.getElem?_drop] at hj
      exact (QString_compare_swap _ _).mpr (habove (index.toNat + j) b (by omega) hj)
    · intro a ha b hb
      rcases List.mem_cons.mp hb with hb | hb
      · subst hb
        obtain ⟨i, hi⟩ := List.mem_iff_getElem?.mp ha
        have hi2 : i < index.toNat := by
          have := (List.getElem?_eq_some.mp hi).1
          rw [List.length_take] at this
          omega
        rw [List.getElem?_take_of_lt hi2] at hi
        exact hbelow i a (by omega) hi
      · exact hs2.2.2 a ha b hb
  · rw [List.getElem?_append_right (by rw [List.length_take]; omega)]
    rw [List.length_take, Nat.min_eq_left hk]
    simp
  · have h : List.Sublist (A.take index.toNat ++ A.drop index.toNat)
        (A.take index.toNat ++ item :: A.drop index.toNat) :=
      List.Sublist.append (List.Sublist.refl _) (List.sublist_cons_self _ _)
    rw [hsplit] at h
    exact h
/-- The common body of the seven insert functions, on the children of the category:
`BinarySearch` returns; when it finds the name nothing is inserted; when it does not,
no child has the name, and the children after `insertChild` at the stored index are
strictly ascending, hold the new child at that index and every former child, and a
second search finds the new child at the same index. -/
theorem insert_children_spec (A : List TreeItem) (name : String) (hs : SortedNames A) :
    ∃ (found : Bool) (index : Int), BinarySearch A name = some (found, index) ∧ 0 ≤ index ∧
      (found = true → ∃ item, A[index.toNat]? = some item ∧ item.text0 = name) ∧
      (found = false → (∀ item ∈ A, item.text0 ≠ name) ∧
        ∀ (c1 c2 : CheckState),
          SortedNames (insertChild A index ⟨name, c1, c2⟩) ∧
          (insertChild A index ⟨name, c1, c2⟩)[index.toNat]? = some ⟨name, c1, c2⟩ ∧
          List.Sublist A (insertChild A index ⟨name, c1, c2⟩) ∧
          BinarySearch (insertChild A index ⟨name, c1, c2⟩) name = some (true, index)) := by
  obtain ⟨found, index, hres, h0, hlen, htrue, hfalse⟩ := BinarySearch_sorted A name hs
  refine ⟨found, index, hres, h0, htrue, ?_⟩
  intro hf
  obtain ⟨hbelow, habove⟩ := hfalse hf
  refine ⟨?_, ?_⟩
  · intro item hitem hname
    obtain ⟨i, hi⟩ := List.mem_iff_getElem?.mp hitem
    have hself : QString_compare item.text0 name = 0 := by
      rw [hname]
      exact QString_compare_self name
    by_cases h : (i : Int) < index
    · have := hbelow i item h hi
      omega
    · have := habove i item (by omega) hi
      omega
  · intro c1 c2
    obtain ⟨h1, h2, h3⟩ := insertChild_sorted A ⟨name, c1, c2⟩ hs index h0 hlen hbelow habove
    refine ⟨h1, h2, h3, ?_⟩
    have h4 := BinarySearch_found _ name h1 index.toNat _ h2 rfl
    rw [h4, Int.toNat_of_nonneg h0]

/-- C29: on a widget whose children of a category have strictly ascending names
(case-sensitive, so no duplicates), the insert function of that category (`insertBody`,
`insertMarker`, `insertJoint`, `insertGeom`, `insertMuscle`, `insertFluidSac`,
`insertDriver`) returns an index and leaves the children of the category strictly
ascending, with a child named `name` at the returned index and at no other position, and
with every former child kept in order; when a child named `name` was already there the
widget is unchanged; and the same insert made again changes nothing and returns the same
index. -/
theorem insert_keeps_sorted (self : ElementTreeWidget) (category : Category) (name : String)
    (hs : SortedNames (self.tree category)) :
    ∃ (self1 : ElementTreeWidget) (index : Int),
      self.insert category name = some (self1, index) ∧
      SortedNames (self1.tree category) ∧
      0 ≤ index ∧
      (∃ item, (self1.tree category)[index.toNat]? = some item ∧ item.text0 = name) ∧
      (∀ (i : Nat) (item : TreeItem), (self1.tree category)[i]? = some item →
        (item.text0 = name ↔ (i : Int) = index)) ∧
      List.Sublist (self.tree category) (self1.tree category) ∧
      ((∃ item ∈ self.tree category, item.text0 = name) → self1 = self) ∧
      self1.insert category name = some (self1, index) := by
  obtain ⟨found, index, hres, h0, htrue, hfalse⟩ :=
    insert_children_spec (self.tree category) name hs
  have huniq : ∀ (A : List TreeItem), SortedNames A →
      (∃ item, A[index.toNat]? = some item ∧ item.text0 = name) →
      ∀ (i : Nat) (item : TreeItem), A[i]? = some item →
        (item.text0 = name ↔ (i : Int) = index) := by
    intro A hA hx i item hitem
    obtain ⟨x, hx, hname⟩ := hx
    rw [SortedNames_unique A hA name index.toNat x hx hname i item hitem]
    omega
  cases found with
  | true =>
    have hat := htrue rfl
    have hins : self.insert category name = some (self, index) := by
      cases category <;>
        simp only [ElementTreeWidget.tree] at hres <;>
        simp [ElementTreeWidget.insert, ElementTreeWidget.insertBody,
          ElementTreeWidget.insertMarker, ElementTreeWidget.insertJoint,
          ElementTreeWidget.insertGeom, ElementTreeWidget.insertMuscle,
          ElementTreeWidget.insertFluidSac, ElementTreeWidget.insertDriver, hres]
    exact ⟨self, index, hins, hs, h0, hat, huniq _ hs hat, List.Sublist.refl _,
      fun _ => rfl, hins⟩
  | false =>
    obtain ⟨hnone, hnew⟩ := hfalse rfl
    have finish : ∀ (self1 : ElementTreeWidget) (c1 c2 : CheckState),
        self.insert category name = some (self1, index) →
        self1.tree category = insertChild (self.tree category) index ⟨name, c1, c2⟩ →
        (BinarySearch (insertChild (self.tree category) index ⟨name, c1, c2⟩) name =
            some (true, index) → self1.insert category name = some (self1, index)) →
        ∃ (self1 : ElementTreeWidget) (index : Int),
          self.insert category name = some (self1, index) ∧
          SortedNames (self1.tree category) ∧
          0 ≤ index ∧
          (∃ item, (self1.tree category)[index.toNat]? = some item ∧ item.text0 = name) ∧
          (∀ (i : Nat) (item : TreeItem), (self1.tree category)[i]? = some item →
            (item.text0 = name ↔ (i : Int) = index)) ∧
          List.Sublist (self.tree category) (self1.tree category) ∧
          ((∃ item ∈ self.tree category, item.text0 = name) → self1 = self) ∧
          self1.insert category name = some (self1, index) := by
      intro self1 c1 c2 hins htree hagain
      obtain ⟨h1, h2, h3, h4⟩ := hnew c1 c2
      refine ⟨self1, index, hins, ?_⟩
      rw [htree]
      refine ⟨h1, h0, ⟨_, h2, rfl⟩, huniq _ h1 ⟨_, h2, rfl⟩, h3, ?_, hagain h4⟩
      rintro ⟨item, hitem, hname⟩
      exact absurd hname (hnone item hitem)
    cases category
    · exact finish { self with m_bodyTree := (insertChild self.m_bodyTree index
          ⟨name, CheckState.Checked, CheckState.Unchecked⟩) } _ _
        (by simp only [ElementTreeWidget.tree] at hres
            simp [ElementTreeWidget.insert, ElementTreeWidget.insertBody, hres])
        rfl
        (fun h => by
          simp only [ElementTreeWidget.tree] at h
          simp [ElementTreeWidget.insert, ElementTreeWidget.insertBody, h])
    · exact finish { self with m_markerTree := (insertChild self.m_markerTree index
          ⟨name, CheckState.Checked, CheckState.Unchecked⟩) } _ _
        (by simp only [ElementTreeWidget.tree] at hres
            simp [ElementTreeWidget.insert, ElementTreeWidget.insertMarker, hres])
        rfl
        (fun h => by
          simp only [ElementTreeWidget.tree] at h
          simp [ElementTreeWidget.insert, ElementTreeWidget.insertMarker, h])
    · exact finish { self with m_jointTree := (insertChild self.m_jointTree index
          ⟨name, CheckState.Checked, CheckState.Unchecked⟩) } _ _
        (by simp only [ElementTreeWidget.tree] at hres
            simp [ElementTreeWidget.insert, ElementTreeWidget.insertJoint, hres])
        rfl
        (fun h => by
          simp only [ElementTreeWidget.tree] at h
          simp [ElementTreeWidget.insert, ElementTreeWidget.insertJoint, h])
    · exact finish { self with m_geomTree := (insertChild self.m_geomTree index
          ⟨name, CheckState.Checked, CheckState.Unchecked⟩) } _ _
        (by simp only [ElementTreeWidget.tree] at hres
            simp [ElementTreeWidget.insert, ElementTreeWidget.insertGeom, hres])
        rfl
        (fun h => by
          simp only [ElementTreeWidget.tree] at h
          simp [ElementTreeWidget.insert, ElementTreeWidget.insertGeom, h])
    · exact finish { self with m_muscleTree := (insertChild self.m_muscleTree index
          ⟨name, CheckState.Checked, CheckState.Unchecked⟩) } _ _
        (by simp only [ElementTreeWidget.tree] at hres
            simp [ElementTreeWidget.insert, ElementTreeWidget.insertMuscle, hres])
        rfl
        (fun h => by
          simp only [ElementTreeWidget.tree] at h
          simp [ElementTreeWidget.insert, ElementTreeWidget.insertMuscle, h])
    · exact finish { self with m_fluidSacTree := (insertChild self.m_fluidSacTree index
          ⟨name, CheckState.Checked, CheckState.Unchecked⟩) } _ _
        (by simp only [ElementTreeWidget.tree] at hres
            simp [ElementTreeWidget.insert, ElementTreeWidget.insertFluidSac, hres])
        rfl
        (fun h => by
          simp only [ElementTreeWidget.tree] at h
          simp [ElementTreeWidget.insert, ElementTreeWidget.insertFluidSac, h])
    · exact finish { self with m_driverTree := (insertChild self.m_driverTree index
          ⟨name, CheckState.Unchecked, CheckState.Unchecked⟩) } _ _
        (by simp only [ElementTreeWidget.tree] at hres
            simp [ElementTreeWidget.insert, ElementTreeWidget.insertDriver, hres])
        rfl
        (fun h => by
          simp only [ElementTreeWidget.tree] at h
          simp [ElementTreeWidget.insert, ElementTreeWidget.insertDriver, h])
/-- The bodies `A`, `B` of the example widget have strictly ascending names. -/
theorem SortedNames_exampleTree_bodies : SortedNames (exampleTree.tree Category.BODY) := by
  unfold SortedNames
  decide

/-- C29 at a concrete input, the example widget: `insertBody("Aa")` between the bodies `A` and `B`. -/
theorem insert_keeps_sorted_witness :
    SortedNames (exampleTree.tree Category.BODY) ∧
    ∃ (self1 : ElementTreeWidget) (index : Int),
      exampleTree.insert Category.BODY "Aa" = some (self1, index) ∧
      SortedNames (self1.tree Category.BODY) ∧
      0 ≤ index ∧
      (∃ item, (self1.tree Category.BODY)[index.toNat]? = some item ∧ item.text0 = "Aa") ∧
      (∀ (i : Nat) (item : TreeItem), (self1.tree Category.BODY)[i]? = some item →
        (item.text0 = "Aa" ↔ (i : Int) = index)) ∧
      List.Sublist (exampleTree.tree Category.BODY) (self1.tree Category.BODY) ∧
      ((∃ item ∈ exampleTree.tree Category.BODY, item.text0 = "Aa") → self1 = exampleTree) ∧
      self1.insert Category.BODY "Aa" = some (self1, index) :=
  ⟨SortedNames_exampleTree_bodies,
    insert_keeps_sorted exampleTree Category.BODY "Aa" SortedNames_exampleTree_bodies⟩

/-! ## The remove functions of ElementTreeWidget -/

/-- The method `removeGeom`, which searches the tree it removes from: on geoms with
strictly ascending names it returns -1 and changes nothing when no geom is named `name`,
and removes the geom named `name` and returns its position otherwise. -/
theorem removeGeom_own_tree (self : ElementTreeWidget) (name : String)
    (hs : SortedNames self.m_geomTree) :
    ((∀ item ∈ self.m_geomTree, item.text0 ≠ name) →
      self.removeGeom name = some (self, -1)) ∧
    (∀ (i : Nat) (item : TreeItem), self.m_geomTree[i]? = some item → item.text0 = name →
      self.removeGeom name =
        some ({ self with m_geomTree := self.m_geomTree.eraseIdx i }, (i : Int))) := by
  constructor
  · intro hnone
    obtain ⟨index, hres, _⟩ := BinarySearch_not_found _ name hs hnone
    simp [ElementTreeWidget.removeGeom, hres]
  · intro i item hitem hname
    have hres := BinarySearch_found _ name hs i item hitem hname
    have hi : i < self.m_geomTree.length := (List.getElem?_eq_some.mp hitem).1
    simp [ElementTreeWidget.removeGeom, hres, removeChildAt, hi]

/-- The method `removeBody` takes its index from the geoms: with a geom named `name` at
position `i` it removes the body at position `i`, whatever that body is called, and
with no geom named `name` it returns -1 and removes nothing, whatever bodies there
are. -/
theorem removeBody_by_geom (self : ElementTreeWidget) (name : String)
    (hs : SortedNames self.m_geomTree) :
    ((∀ item ∈ self.m_geomTree, item.text0 ≠ name) →
      self.removeBody name = some (self, -1)) ∧
    (∀ (i : Nat) (item : TreeItem), self.m_geomTree[i]? = some item → item.text0 = name →
      self.removeBody name =
        some ({ self with m_bodyTree := removeChildAt self.m_bodyTree i }, (i : Int))) := by
  constructor
  · intro hnone
    obtain ⟨index, hres, _⟩ := BinarySearch_not_found _ name hs hnone
    simp [ElementTreeWidget.removeBody, hres]
  · intro i item hitem hname
    have hres := BinarySearch_found _ name hs i item hitem hname
    simp [ElementTreeWidget.removeBody, hres]

/-- C28 (the code evaluated): on a widget whose seven categories are sorted strictly
ascending, with bodies, markers, joints and muscles `A`, `B` and the one geom `B`:
`removeBody("A")` returns -1 and removes nothing although the body `A` is there, and
`removeBody("B")` returns 0 and removes the body `A`, leaving the body `B`; the same for
`removeMarker`, `removeJoint` and `removeMuscle`. -/
theorem remove_searches_geomTree :
    (∀ category : Category, SortedNames (exampleTree.tree category)) ∧
    exampleTree.removeBody "A" = some (exampleTree, -1) ∧
    exampleTree.removeBody "B" = some ({ exampleTree with m_bodyTree := [child "B"] }, 0) ∧
    exampleTree.removeMarker "A" = some (exampleTree, -1) ∧
    exampleTree.removeMarker "B" =
      some ({ exampleTree with m_markerTree := [child "B"] }, 0) ∧
    exampleTree.removeJoint "A" = some (exampleTree, -1) ∧
    exampleTree.removeJoint "B" = some ({ exampleTree with m_jointTree := [child "B"] }, 0) ∧
    exampleTree.removeMuscle "A" = some (exampleTree, -1) ∧
    exampleTree.removeMuscle "B" =
      some ({ exampleTree with m_muscleTree := [child "B"] }, 0) := by
  refine ⟨?_, by decide, by decide, by decide, by decide, by decide, by decide, by decide,
    by decide⟩
  intro category
  cases category <;> unfold SortedNames <;> decide

end GaitSym
